import Mathlib

/-!
NS16550 serial driver: embedding and verified properties.

Shallow embedding of the driver sources (Buffer.c, Bufmng.c, Ioctrl.c, Txctrl.c,
Filemng.c, Intmng.c, and Ctrl.c, Receive.c of the message-passing design) followed by the
theorems about them.

Conventions of the embedding.
* C globals become fields of an explicit state that every function takes and returns.
* Bytes, descriptors, sizes and indices are natural numbers; where a C operation can
  wrap or truncate, the modulus is written out.
* A pointer/size pair such as (pData, size) is a list; its length is the size.
* Messages handed to external collaborators (VFS broker, I/O ports) are appended to a
  trace, so the order of the outbound traffic is part of the state.
* Spin locks are no-ops in the sequential model of the functions and are left out
  there; the lock calls around the transmit ring are embedded on their own as step lists.
* A port read takes its value from an explicit device, the list of the responses the
  device gives to the successive reads; a read without a response left has no result.
-/

/-! Definitions -/

namespace Buffer

/-- Buffer size macro of Buffer.c. -/
def BUFFER_SIZE : Nat := 4096

/-- One ring of Buffer.c (an element of gBuffer): the byte array, seen as a map from
index to byte, and the two uint32 positions. -/
structure Buffer_t where
  pBuffer : Nat → Nat
  readIdx : Nat
  writeIdx : Nat

/-- UpdateReadIdx of Buffer.c: increment the uint32 read position and wrap it to 0 once
it reaches the buffer size.  The macro BUFFER_SIZE is the parameter size; the driver
instantiates it with BUFFER_SIZE. -/
def UpdateReadIdx (size : Nat) (b : Buffer_t) : Buffer_t :=
  let readIdx := (b.readIdx + 1) % 4294967296
  if readIdx ≥ size then { b with readIdx := 0 } else { b with readIdx := readIdx }

/-- UpdateWriteIdx of Buffer.c: increment the uint32 write position and wrap it to 0 once
it reaches the buffer size. -/
def UpdateWriteIdx (size : Nat) (b : Buffer_t) : Buffer_t :=
  let writeIdx := (b.writeIdx + 1) % 4294967296
  if writeIdx ≥ size then { b with writeIdx := 0 } else { b with writeIdx := writeIdx }

/-- BufferRead of Buffer.c.  The C function returns false and leaves the out-parameter
alone when readIdx equals writeIdx; that is the result none here.  Otherwise it returns
true with the byte at the read position (some v) and advances the read position. -/
def BufferRead (size : Nat) (b : Buffer_t) : Buffer_t × Option Nat :=
  if b.readIdx = b.writeIdx then (b, none)
  else (UpdateReadIdx size b, some (b.pBuffer b.readIdx))

/-- BufferWrite of Buffer.c: store the byte at the write position, advance the write
position, and when it has caught up with the read position discard the oldest byte by
advancing the read position too. -/
def BufferWrite (size : Nat) (b : Buffer_t) (value : Nat) : Buffer_t :=
  let b1 := { b with pBuffer := Function.update b.pBuffer b.writeIdx value }
  let b2 := UpdateWriteIdx size b1
  if b2.writeIdx = b2.readIdx then UpdateReadIdx size b2 else b2

/-- A run of BufferWrite calls, one per byte of s, in order. -/
def writeAll (size : Nat) (b : Buffer_t) (s : List Nat) : Buffer_t :=
  s.foldl (BufferWrite size) b

/-- Exactly k consecutive BufferRead calls; the results are collected in call order. -/
def readTimes (size : Nat) : Nat → Buffer_t → Buffer_t × List (Option Nat)
  | 0, b => (b, [])
  | k + 1, b =>
    let r := BufferRead size b
    let rest := readTimes size k r.1
    (rest.1, r.2 :: rest.2)

/-- Drain loop: call BufferRead until it reports empty, collecting the bytes.  The fuel
bounds the number of successful reads. -/
def drain (size : Nat) : Nat → Buffer_t → Buffer_t × List Nat
  | 0, b => (b, [])
  | fuel + 1, b =>
    match BufferRead size b with
    | (_, none) => (b, [])
    | (b1, some v) =>
      let rest := drain size fuel b1
      (rest.1, v :: rest.2)

/-- Successor of a ring position. -/
def nextIdx (size i : Nat) : Nat := if i + 1 ≥ size then 0 else i + 1

/-- Number of readable bytes: the distance from the read to the write position. -/
def count (size : Nat) (b : Buffer_t) : Nat :=
  if b.readIdx ≤ b.writeIdx then b.writeIdx - b.readIdx else b.writeIdx + size - b.readIdx

/-- The k bytes stored from position r onwards, following the ring order. -/
def contentsFrom (size : Nat) (p : Nat → Nat) : Nat → Nat → List Nat
  | _, 0 => []
  | r, k + 1 => p r :: contentsFrom size p (nextIdx size r) k

/-- Abstract contents of a ring: the readable bytes, oldest first. -/
def contents (size : Nat) (b : Buffer_t) : List Nat :=
  contentsFrom size b.pBuffer b.readIdx (count size b)

/-- Both positions are inside the buffer. -/
def WF (size : Nat) (b : Buffer_t) : Prop := b.readIdx < size ∧ b.writeIdx < size

/-- The last k elements of a list (the whole list when it is shorter). -/
def lastN (k : Nat) (l : List Nat) : List Nat := l.drop (l.length - k)

end Buffer

namespace NS16550

/-- COM port numbers of ns16550.h. -/
def NS16550_COM1 : Nat := 0

/-- Second port of ns16550.h. -/
def NS16550_COM2 : Nat := 1

/-- Largest port number of ns16550.h. -/
def NS16550_COM_MAX : Nat := NS16550_COM2

/-- Number of ports of ns16550.h. -/
def NS16550_COM_NUM : Nat := NS16550_COM_MAX + 1

/-- Invalid port number of ns16550.h. -/
def NS16550_COM_NULL : Nat := NS16550_COM_NUM

/-- I/O port base of COM1. -/
def NS16550_COM1_IOBASE : Nat := 0x03F8

/-- I/O port base of COM2. -/
def NS16550_COM2_IOBASE : Nat := 0x02F8

/-- I/O port base of COM3. -/
def NS16550_COM3_IOBASE : Nat := 0x03E8

/-- I/O port base of COM4. -/
def NS16550_COM4_IOBASE : Nat := 0x02E8

/-- Register offset of the Interrupt Enable Register. -/
def NS16550_IER : Nat := 0x0001

/-- IER bit 1: THR-empty interrupt. -/
def NS16550_IER_THR : Nat := 0x02

/-- Value enabling the THR-empty interrupt. -/
def NS16550_IER_THR_ENABLE : Nat := 0x02

/-- Value disabling the THR-empty interrupt. -/
def NS16550_IER_THR_DISABLE : Nat := 0x00

/-- Modelled from the spec: the result code of a VFS reply (libmvfs.h is not among the
sources); the reply primitives accept a result in SUCCESS, FAILURE. -/
inductive LibMvfsRet_t where
  | LIBMVFS_RET_SUCCESS
  | LIBMVFS_RET_FAILURE
  deriving DecidableEq

/-- Modelled from the spec: the READ bit of the 2-bit readiness mask (libmvfs.h is not
among the sources). -/
def MVFS_READY_READ : Nat := 1

/-- Modelled from the spec: the WRITE bit of the 2-bit readiness mask (libmvfs.h is not
among the sources). -/
def MVFS_READY_WRITE : Nat := 2

/-- Modelled from the spec: the configured path of COM1 (config.h is not among the
sources); the default mount point is /serial1. -/
def CONFIG_FILEPATH_SERIAL1 : String := "/serial1"

/-- Modelled from the spec: the configured path of COM2 (config.h is not among the
sources); the default mount point is /serial2. -/
def CONFIG_FILEPATH_SERIAL2 : String := "/serial2"

/-- Modelled from the spec: the buffer identifiers of Bufmng.h (not among the sources),
one receive and one transmit ring per port. -/
inductive BufmngId_t where
  | BUFMNG_ID_RX
  | BUFMNG_ID_TX
  deriving DecidableEq

/-- Modelled from the spec: the ring buffer of the MLib library (MLibRingBuffer.h is not
among the sources), a fixed-capacity byte queue.  The queued bytes are kept oldest
first. -/
structure MLibRingBuffer_t where
  data : List Nat
  capacity : Nat
  deriving DecidableEq

/-- COM control information of Ioctrl.c: the register shadows of one port. -/
structure ctrlInfo_t where
  dl : Nat
  ier : Nat
  fcr : Nat
  lcr : Nat
  mcr : Nat
  deriving DecidableEq

/-- Outbound traffic of the driver: the reply and notification primitives of the VFS
broker library, the mount request, byte output to an I/O port, and the kernel calls
that start the monitoring of an interrupt, enable it and complete it.  A read reply
without payload (NULL buffer) carries none. -/
inductive Msg where
  | VfsOpenResp (globalFD : Nat) (result : LibMvfsRet_t)
  | VfsCloseResp (globalFD : Nat) (result : LibMvfsRet_t)
  | VfsReadResp (globalFD : Nat) (result : LibMvfsRet_t) (ready : Nat)
      (pBuffer : Option (List Nat)) (size : Nat)
  | VfsWriteResp (globalFD : Nat) (result : LibMvfsRet_t) (ready : Nat) (size : Nat)
  | VfsReadyNtc (pPath : String) (ready : Nat)
  | Mount (pPath : String)
  | IoPortOut (port : Nat) (data : List Nat)
  | IntStartMonitoring (irqNo : Nat)
  | IntEnable (irqNo : Nat)
  | IntComplete (irqNo : Nat)
  deriving DecidableEq

/-- The static variables of the driver modules and the trace of outbound traffic.
gBuffer is the array of Bufmng.c; gState (the current state held by each port's state
machine handle), gGlobalFD and gReady are those of Filemng.c; gTxState is the single
variable of Txctrl.c; gCtrlInfo is the array of Ioctrl.c. -/
structure State where
  gBuffer : Nat → BufmngId_t → MLibRingBuffer_t
  gState : Nat → Nat
  gGlobalFD : Nat → Nat
  gReady : Nat → Nat
  gTxState : Nat
  gCtrlInfo : Nat → ctrlInfo_t
  out : List Msg

/-- The event parameter handed to a transition task through the untyped pArg pointer.
The four parameter structs of Filemng.c (paramVfsOpen_t, paramVfsRead_t, paramVfsWrite_t,
paramVfsClose_t) are merged into one record: idx is readIdx or writeIdx, pBuffer with its
length is the write payload, size is the requested size.  mallocOk is not a field of the
source: it is the outcome of the malloc call made by the read task. -/
structure Param where
  comNo : Nat
  pid : Nat
  globalFD : Nat
  idx : Nat
  pBuffer : List Nat
  size : Nat
  mallocOk : Bool

/-- Modelled from the spec: MLibRingBufferPush (MLib is not among the sources), the
lossless push that fails on a full queue and then leaves the queue as it is. -/
def MLibRingBufferPush (r : MLibRingBuffer_t) (v : Nat) : MLibRingBuffer_t × Bool :=
  if r.data.length < r.capacity then ({ r with data := r.data ++ [v] }, true) else (r, false)

/-- Modelled from the spec: MLibRingBufferPushOW (MLib is not among the sources), the
push that always succeeds and silently drops the oldest byte on a full queue. -/
def MLibRingBufferPushOW (r : MLibRingBuffer_t) (v : Nat) : MLibRingBuffer_t :=
  if r.data.length < r.capacity then { r with data := r.data ++ [v] }
  else { r with data := r.data.drop 1 ++ [v] }

/-- Modelled from the spec: MLibRingBufferPop (MLib is not among the sources), which
removes the oldest byte and fails on an empty queue. -/
def MLibRingBufferPop (r : MLibRingBuffer_t) : MLibRingBuffer_t × Option Nat :=
  match r.data with
  | [] => (r, none)
  | v :: rest => ({ r with data := rest }, some v)

/-- Modelled from the spec: MLibRingBufferClear (MLib is not among the sources), which
empties the queue. -/
def MLibRingBufferClear (r : MLibRingBuffer_t) : MLibRingBuffer_t :=
  { r with data := [] }

/-- Assignment to gBuffer[comNo][id]. -/
def State.setBuffer (s : State) (comNo : Nat) (id : BufmngId_t) (r : MLibRingBuffer_t) : State :=
  { s with gBuffer := Function.update s.gBuffer comNo (Function.update (s.gBuffer comNo) id r) }

/-- Assignment to gReady[comNo]. -/
def State.setReady (s : State) (comNo : Nat) (v : Nat) : State :=
  { s with gReady := Function.update s.gReady comNo v }

/-- Hand one message to an external collaborator. -/
def State.send (s : State) (m : Msg) : State :=
  { s with out := s.out ++ [m] }

end NS16550

namespace Bufmng
open NS16550 NS16550.BufmngId_t

/-- BufmngClear of Bufmng.c. -/
def BufmngClear (s : State) (comNo : Nat) (id : BufmngId_t) : State :=
  s.setBuffer comNo id (MLibRingBufferClear (s.gBuffer comNo id))

/-- The loop of BufmngRead: pop up to the given number of bytes, stopping at the first
failing pop.  The list returned is pData[0 .. idx). -/
def popLoop (r : MLibRingBuffer_t) : Nat → MLibRingBuffer_t × List Nat
  | 0 => (r, [])
  | n + 1 =>
    match MLibRingBufferPop r with
    | (r1, none) => (r1, [])
    | (r1, some v) =>
      let rest := popLoop r1 n
      (rest.1, v :: rest.2)

/-- BufmngRead of Bufmng.c: the bytes read; their number is the returned size. -/
def BufmngRead (s : State) (comNo : Nat) (id : BufmngId_t) (size : Nat) : State × List Nat :=
  let r := popLoop (s.gBuffer comNo id) size
  (s.setBuffer comNo id r.1, r.2)

/-- The transmit loop of BufmngWrite: push byte after byte and stop at the first failing
push; the count of pushed bytes is returned. -/
def pushLoop (r : MLibRingBuffer_t) : List Nat → MLibRingBuffer_t × Nat
  | [] => (r, 0)
  | v :: rest =>
    match MLibRingBufferPush r v with
    | (r1, false) => (r1, 0)
    | (r1, true) =>
      let x := pushLoop r1 rest
      (x.1, x.2 + 1)

/-- The receive loop of BufmngWrite: push every byte with overwrite. -/
def pushOWLoop (r : MLibRingBuffer_t) : List Nat → MLibRingBuffer_t × Nat
  | [] => (r, 0)
  | v :: rest =>
    let x := pushOWLoop (MLibRingBufferPushOW r v) rest
    (x.1, x.2 + 1)

/-- BufmngWrite of Bufmng.c. -/
def BufmngWrite (s : State) (comNo : Nat) (id : BufmngId_t) (pData : List Nat) : State × Nat :=
  if id = BUFMNG_ID_TX then
    let x := pushLoop (s.gBuffer comNo id) pData
    (s.setBuffer comNo id x.1, x.2)
  else
    let x := pushOWLoop (s.gBuffer comNo id) pData
    (s.setBuffer comNo id x.1, x.2)

end Bufmng

namespace Ioctrl
open NS16550

/-- Table gIoBase of Ioctrl.c. -/
def gIoBase (comNo : Nat) : Nat :=
  [NS16550_COM1_IOBASE, NS16550_COM2_IOBASE, NS16550_COM3_IOBASE, NS16550_COM4_IOBASE].getD
    comNo 0

/-- Kernel primitive LibMkIoPortOutByte: output the bytes to the I/O port. -/
def LibMkIoPortOutByte (s : State) (port : Nat) (data : List Nat) : State :=
  s.send (Msg.IoPortOut port data)

/-- IoctrlSetIER of Ioctrl.c: value |= shadow & ~mask on 8 bits, write the byte to the
IER port, store it as the new shadow. -/
def IoctrlSetIER (s : State) (comNo : Nat) (mask value : Nat) : State :=
  let value := (value ||| ((s.gCtrlInfo comNo).ier &&& (255 ^^^ mask))) % 256
  let s1 := LibMkIoPortOutByte s (gIoBase comNo + NS16550_IER) [value]
  { s1 with gCtrlInfo := Function.update s1.gCtrlInfo comNo { s1.gCtrlInfo comNo with ier := value } }

end Ioctrl

namespace Txctrl
open NS16550 Ioctrl

/-- Transmitting state of Txctrl.c. -/
def TXSTATE_STARTED : Nat := 0

/-- Stopped state of Txctrl.c. -/
def TXSTATE_STOPED : Nat := 1

/-- TxctrlRequest of Txctrl.c: when the transmitter is stopped, enable the THR-empty
interrupt and mark it started. -/
def TxctrlRequest (s : State) (comNo : Nat) : State :=
  if s.gTxState = TXSTATE_STOPED then
    let s1 := IoctrlSetIER s comNo NS16550_IER_THR NS16550_IER_THR_ENABLE
    { s1 with gTxState := TXSTATE_STARTED }
  else s

end Txctrl

namespace Filemng
open NS16550 NS16550.BufmngId_t NS16550.LibMvfsRet_t Bufmng Txctrl

/-- Not-yet-opened state (initial state) of Filemng.c; the spec calls it CLOSED. -/
def STATE_INIT : Nat := 1

/-- Opened state of Filemng.c. -/
def STATE_OPENED : Nat := 2

/-- Open request event. -/
def EVENT_VFSOPEN : Nat := 1

/-- Read request event. -/
def EVENT_VFSREAD : Nat := 2

/-- Write request event. -/
def EVENT_VFSWRITE : Nat := 3

/-- Close request event. -/
def EVENT_VFSCLOSE : Nat := 4

/-- Table gpPath of Filemng.c. -/
def gpPath (comNo : Nat) : String :=
  [CONFIG_FILEPATH_SERIAL1, CONFIG_FILEPATH_SERIAL2].getD comNo CONFIG_FILEPATH_SERIAL1

/-- SendVfsCloseResp of Filemng.c. -/
def SendVfsCloseResp (s : State) (globalFD : Nat) (result : LibMvfsRet_t) : State :=
  s.send (Msg.VfsCloseResp globalFD result)

/-- SendVfsOpenResp of Filemng.c. -/
def SendVfsOpenResp (s : State) (globalFD : Nat) (result : LibMvfsRet_t) : State :=
  s.send (Msg.VfsOpenResp globalFD result)

/-- SendVfsReadResp of Filemng.c. -/
def SendVfsReadResp (s : State) (globalFD : Nat) (result : LibMvfsRet_t) (ready : Nat)
    (pBuffer : Option (List Nat)) (size : Nat) : State :=
  s.send (Msg.VfsReadResp globalFD result ready pBuffer size)

/-- SendVfsReadyNtc of Filemng.c. -/
def SendVfsReadyNtc (s : State) (pPath : String) (ready : Nat) : State :=
  s.send (Msg.VfsReadyNtc pPath ready)

/-- SendVfsWriteResp of Filemng.c. -/
def SendVfsWriteResp (s : State) (globalFD : Nat) (result : LibMvfsRet_t) (ready : Nat)
    (size : Nat) : State :=
  s.send (Msg.VfsWriteResp globalFD result ready size)

/-- ConvertGlobalFD of Filemng.c: the first port, in the order COM1, COM2, whose recorded
descriptor equals globalFD, or NS16550_COM_NULL. -/
def ConvertGlobalFD (s : State) (globalFD : Nat) : Nat :=
  if s.gGlobalFD NS16550_COM1 = globalFD then NS16550_COM1
  else if s.gGlobalFD NS16550_COM2 = globalFD then NS16550_COM2
  else NS16550_COM_NULL

/-- DoTask11 of Filemng.c: record the descriptor, clear the receive ring, reply
OPEN/SUCCESS. -/
def DoTask11 (s : State) (pParam : Param) : State × Nat :=
  let s1 := { s with gGlobalFD := Function.update s.gGlobalFD pParam.comNo pParam.globalFD }
  let s2 := BufmngClear s1 pParam.comNo BUFMNG_ID_RX
  let s3 := SendVfsOpenResp s2 pParam.globalFD LIBMVFS_RET_SUCCESS
  (s3, STATE_OPENED)

/-- DoTask12 of Filemng.c: reply OPEN/FAILURE. -/
def DoTask12 (s : State) (pParam : Param) : State × Nat :=
  (SendVfsOpenResp s pParam.globalFD LIBMVFS_RET_FAILURE, STATE_OPENED)

/-- DoTask22 of Filemng.c.  The uint32 update gReady &= ~MVFS_READY_READ is the
conjunction with 0xFFFFFFFF xor MVFS_READY_READ. -/
def DoTask22 (s : State) (pParam : Param) : State × Nat :=
  if pParam.mallocOk = false then
    let s1 := SendVfsReadResp s pParam.globalFD LIBMVFS_RET_FAILURE MVFS_READY_READ none 0
    (State.setReady s1 pParam.comNo (s1.gReady pParam.comNo ||| MVFS_READY_READ), STATE_OPENED)
  else
    let r := BufmngRead s pParam.comNo BUFMNG_ID_RX pParam.size
    let s1 := r.1
    let size := r.2.length
    if size = pParam.size then
      let s2 := SendVfsReadResp s1 pParam.globalFD LIBMVFS_RET_SUCCESS MVFS_READY_READ (some r.2) size
      (State.setReady s2 pParam.comNo (s2.gReady pParam.comNo ||| MVFS_READY_READ), STATE_OPENED)
    else if size ≠ 0 then
      let s2 := SendVfsReadResp s1 pParam.globalFD LIBMVFS_RET_SUCCESS 0 (some r.2) size
      (State.setReady s2 pParam.comNo
        (s2.gReady pParam.comNo &&& (4294967295 ^^^ MVFS_READY_READ)), STATE_OPENED)
    else
      let s2 := SendVfsReadResp s1 pParam.globalFD LIBMVFS_RET_FAILURE 0 none 0
      (State.setReady s2 pParam.comNo
        (s2.gReady pParam.comNo &&& (4294967295 ^^^ MVFS_READY_READ)), STATE_OPENED)

/-- First statement of DoTask32: the BufmngWrite call on the transmit ring. -/
def DoTask32_push (s : State) (pParam : Param) : State × Nat :=
  BufmngWrite s pParam.comNo BUFMNG_ID_TX pParam.pBuffer

/-- The three-way branch of DoTask32 on the number of bytes added: the write reply and
the update of gReady. -/
def DoTask32_reply (s1 : State) (pParam : Param) (size : Nat) : State :=
  if size = pParam.size then
    let s2 := SendVfsWriteResp s1 pParam.globalFD LIBMVFS_RET_SUCCESS MVFS_READY_WRITE size
    State.setReady s2 pParam.comNo (s2.gReady pParam.comNo ||| MVFS_READY_WRITE)
  else if size ≠ 0 then
    let s2 := SendVfsWriteResp s1 pParam.globalFD LIBMVFS_RET_SUCCESS 0 size
    State.setReady s2 pParam.comNo (s2.gReady pParam.comNo &&& (4294967295 ^^^ MVFS_READY_WRITE))
  else
    let s2 := SendVfsWriteResp s1 pParam.globalFD LIBMVFS_RET_FAILURE 0 0
    State.setReady s2 pParam.comNo (s2.gReady pParam.comNo &&& (4294967295 ^^^ MVFS_READY_WRITE))

/-- DoTask32 of Filemng.c: add to the transmit ring, reply, then request transmission. -/
def DoTask32 (s : State) (pParam : Param) : State × Nat :=
  let w := DoTask32_push s pParam
  let s2 := DoTask32_reply w.1 pParam w.2
  (TxctrlRequest s2 pParam.comNo, STATE_OPENED)

/-- DoTask42 of Filemng.c: reply CLOSE/SUCCESS, delete the recorded descriptor, reset the
readiness mask. -/
def DoTask42 (s : State) (pParam : Param) : State × Nat :=
  let s1 := SendVfsCloseResp s pParam.globalFD LIBMVFS_RET_SUCCESS
  let s2 := { s1 with gGlobalFD := Function.update s1.gGlobalFD pParam.comNo 0 }
  (State.setReady s2 pParam.comNo 0, STATE_INIT)

/-- A row of the state transition table: state, event, task, admissible next states. -/
structure MLibStateTransition_t where
  state : Nat
  event : Nat
  task : State → Param → State × Nat
  next : List Nat

/-- State transition table gStt of Filemng.c. -/
def gStt : List MLibStateTransition_t :=
  [ ⟨STATE_INIT,   EVENT_VFSOPEN,  DoTask11, [STATE_OPENED, 0]⟩,
    ⟨STATE_OPENED, EVENT_VFSOPEN,  DoTask12, [STATE_OPENED, 0]⟩,
    ⟨STATE_OPENED, EVENT_VFSREAD,  DoTask22, [STATE_OPENED, 0]⟩,
    ⟨STATE_OPENED, EVENT_VFSWRITE, DoTask32, [STATE_OPENED, 0]⟩,
    ⟨STATE_OPENED, EVENT_VFSCLOSE, DoTask42, [STATE_INIT, 0]⟩ ]

/-- Modelled from the spec: MLibStateExec of the generic state-machine library (MLib is
not among the sources).  The row for the current state of the port and the event is
looked up; without a row the call fails and the machine is not advanced; with a row its
task runs and the state it returns, when the row admits it, becomes the current state. -/
def MLibStateExec (table : List MLibStateTransition_t) (s : State) (comNo : Nat) (event : Nat)
    (pArg : Param) : State × Bool :=
  match table.find? (fun t => t.state == s.gState comNo && t.event == event) with
  | none => (s, false)
  | some t =>
    let r := t.task s pArg
    if r.2 ∈ t.next then ({ r.1 with gState := Function.update r.1.gState comNo r.2 }, true)
    else (r.1, false)

/-- DoVfsClose of Filemng.c. -/
def DoVfsClose (s : State) (globalFD : Nat) : State :=
  let comNo := ConvertGlobalFD s globalFD
  if comNo = NS16550_COM_NULL then
    SendVfsCloseResp s globalFD LIBMVFS_RET_FAILURE
  else
    let param : Param := ⟨comNo, 0, globalFD, 0, [], 0, true⟩
    let r := MLibStateExec gStt s comNo EVENT_VFSCLOSE param
    if r.2 = false then SendVfsCloseResp r.1 globalFD LIBMVFS_RET_FAILURE else r.1

/-- DoVfsOpen of Filemng.c; strcmp(a, b) == 0 is equality of the two paths. -/
def DoVfsOpen (s : State) (pid : Nat) (globalFD : Nat) (pPath : String) : State :=
  if CONFIG_FILEPATH_SERIAL1 = pPath then
    let param : Param := ⟨NS16550_COM1, pid, globalFD, 0, [], 0, true⟩
    let r := MLibStateExec gStt s NS16550_COM1 EVENT_VFSOPEN param
    if r.2 = false then SendVfsOpenResp r.1 globalFD LIBMVFS_RET_FAILURE else r.1
  else if CONFIG_FILEPATH_SERIAL2 = pPath then
    let param : Param := ⟨NS16550_COM2, pid, globalFD, 0, [], 0, true⟩
    let r := MLibStateExec gStt s NS16550_COM2 EVENT_VFSOPEN param
    if r.2 = false then SendVfsOpenResp r.1 globalFD LIBMVFS_RET_FAILURE else r.1
  else
    SendVfsOpenResp s globalFD LIBMVFS_RET_FAILURE

/-- DoVfsRead of Filemng.c.  The extra argument mallocOk is the outcome of the malloc
call of the read task. -/
def DoVfsRead (s : State) (globalFD : Nat) (readIdx : Nat) (size : Nat) (mallocOk : Bool) : State :=
  let comNo := ConvertGlobalFD s globalFD
  if comNo = NS16550_COM_NULL then
    SendVfsReadResp s globalFD LIBMVFS_RET_FAILURE 0 none 0
  else
    let param : Param := ⟨comNo, 0, globalFD, readIdx, [], size, mallocOk⟩
    let r := MLibStateExec gStt s comNo EVENT_VFSREAD param
    if r.2 = false then SendVfsReadResp r.1 globalFD LIBMVFS_RET_FAILURE 0 none 0 else r.1

/-- DoVfsWrite of Filemng.c; the list pBuffer stands for the pair (pBuffer, size). -/
def DoVfsWrite (s : State) (globalFD : Nat) (writeIdx : Nat) (pBuffer : List Nat) : State :=
  let comNo := ConvertGlobalFD s globalFD
  if comNo = NS16550_COM_NULL then
    SendVfsWriteResp s globalFD LIBMVFS_RET_FAILURE 0 0
  else
    let param : Param := ⟨comNo, 0, globalFD, writeIdx, pBuffer, pBuffer.length, true⟩
    let r := MLibStateExec gStt s comNo EVENT_VFSWRITE param
    if r.2 = false then SendVfsWriteResp r.1 globalFD LIBMVFS_RET_FAILURE 0 0 else r.1

/-- CreateFile of Filemng.c: mount the path. -/
def CreateFile (s : State) (pPath : String) : State :=
  s.send (Msg.Mount pPath)

/-- Init of Filemng.c: the state machine handle starts in STATE_INIT, the device file is
created, descriptor and readiness mask are zeroed. -/
def Init (s : State) (comNo : Nat) : State :=
  let s1 := { s with gState := Function.update s.gState comNo STATE_INIT }
  let s2 := CreateFile s1 (gpPath comNo)
  let s3 := { s2 with gGlobalFD := Function.update s2.gGlobalFD comNo 0 }
  State.setReady s3 comNo 0

/-- FilemngInit of Filemng.c. -/
def FilemngInit (s : State) : State :=
  Init (Init s NS16550_COM1) NS16550_COM2

/-- A request delivered by the broker scheduler to one of the four callbacks registered
by FilemngWaitRequest. -/
inductive Request where
  | VfsOpen (pid : Nat) (globalFD : Nat) (pPath : String)
  | VfsRead (globalFD : Nat) (readIdx : Nat) (size : Nat) (mallocOk : Bool)
  | VfsWrite (globalFD : Nat) (writeIdx : Nat) (pBuffer : List Nat)
  | VfsClose (globalFD : Nat)

/-- The scheduler invoking the callback registered for the opcode of the request. -/
def dispatch (s : State) : Request → State
  | Request.VfsOpen pid globalFD pPath => DoVfsOpen s pid globalFD pPath
  | Request.VfsRead globalFD readIdx size mallocOk => DoVfsRead s globalFD readIdx size mallocOk
  | Request.VfsWrite globalFD writeIdx pBuffer => DoVfsWrite s globalFD writeIdx pBuffer
  | Request.VfsClose globalFD => DoVfsClose s globalFD

/-- The descriptor equals no recorded descriptor, or it resolves to a port in the closed
state. -/
def unresolvedOrClosed (s : State) (globalFD : Nat) : Prop :=
  ConvertGlobalFD s globalFD = NS16550_COM_NULL ∨
    s.gState (ConvertGlobalFD s globalFD) = STATE_INIT

/-- The protocol-violating requests: an open whose path is neither configured path, and a
read, write or close whose descriptor is unknown or resolves to a closed port. -/
def protocolViolation (s : State) : Request → Prop
  | Request.VfsOpen _ _ pPath =>
      pPath ≠ CONFIG_FILEPATH_SERIAL1 ∧ pPath ≠ CONFIG_FILEPATH_SERIAL2
  | Request.VfsRead globalFD _ _ _ => unresolvedOrClosed s globalFD
  | Request.VfsWrite globalFD _ _ => unresolvedOrClosed s globalFD
  | Request.VfsClose globalFD => unresolvedOrClosed s globalFD

/-- The failure reply of the opcode of a request, keyed by the inbound descriptor, with
readiness 0, no payload and size 0 where the reply has those fields. -/
def failureReply : Request → Msg
  | Request.VfsOpen _ globalFD _ => Msg.VfsOpenResp globalFD LIBMVFS_RET_FAILURE
  | Request.VfsRead globalFD _ _ _ => Msg.VfsReadResp globalFD LIBMVFS_RET_FAILURE 0 none 0
  | Request.VfsWrite globalFD _ _ => Msg.VfsWriteResp globalFD LIBMVFS_RET_FAILURE 0 0
  | Request.VfsClose globalFD => Msg.VfsCloseResp globalFD LIBMVFS_RET_FAILURE

/-- The driver after start-up: empty rings of the given capacity, zeroed shadows, the
transmitter in the state set by TxctrlInit, and FilemngInit run. -/
def bootState (capacity : Nat) : State :=
  FilemngInit
    ⟨fun _ _ => ⟨[], capacity⟩, fun _ => 0, fun _ => 0, fun _ => 0, TXSTATE_STARTED,
      fun _ => ⟨0, 0, 0, 0, 0⟩, []⟩

/-- COM1 opened with the given descriptor right after start-up, its receive and transmit
rings then holding rx and tx. -/
def openedState (capacity : Nat) (globalFD : Nat) (rx tx : List Nat) : State :=
  let s := DoVfsOpen (bootState capacity) 1 globalFD CONFIG_FILEPATH_SERIAL1
  (s.setBuffer NS16550_COM1 BUFMNG_ID_RX ⟨rx, capacity⟩).setBuffer NS16550_COM1 BUFMNG_ID_TX
    ⟨tx, capacity⟩

/-- Both ports opened, one after the other, with the same descriptor 5. -/
def sharedFdState : State :=
  DoVfsOpen (DoVfsOpen (bootState 16) 1 5 CONFIG_FILEPATH_SERIAL1) 2 5 CONFIG_FILEPATH_SERIAL2

end Filemng


namespace NS16550

/-- Register offset of the Transmit Holding Register. -/
def NS16550_THR : Nat := 0x0000

/-- Register offset of the Divisor Latch, least significant byte. -/
def NS16550_DLL : Nat := 0x0000

/-- Register offset of the Divisor Latch, most significant byte. -/
def NS16550_DLM : Nat := 0x0001

/-- Register offset of the FIFO Control Register. -/
def NS16550_FCR : Nat := 0x0002

/-- Register offset of the Line Control Register. -/
def NS16550_LCR : Nat := 0x0003

/-- Register offset of the Modem Control Register. -/
def NS16550_MCR : Nat := 0x0004

/-- Transmit buffer size: the depth of the device FIFO. -/
def NS16550_TRANSMIT_BUFFER_SIZE : Nat := 16

/-- Default divisor latch value. -/
def NS16550_DIVISOR_LATCH_DEFAULT : Nat := 0x000C

/-- IER bit 0: received-data interrupt. -/
def NS16550_IER_RBR : Nat := 0x01

/-- IER bit 2: line-status interrupt. -/
def NS16550_IER_LSR : Nat := 0x04

/-- IER bit 3: modem-status interrupt. -/
def NS16550_IER_MSR : Nat := 0x08

/-- All valid IER bits. -/
def NS16550_IER_ALL : Nat := 0x0F

/-- Value enabling the received-data interrupt. -/
def NS16550_IER_RBR_ENABLE : Nat := 0x01

/-- Value disabling the received-data interrupt. -/
def NS16550_IER_RBR_DISABLE : Nat := 0x00

/-- Value enabling the line-status interrupt. -/
def NS16550_IER_LSR_ENABLE : Nat := 0x04

/-- Value disabling the line-status interrupt. -/
def NS16550_IER_LSR_DISABLE : Nat := 0x00

/-- Value enabling the modem-status interrupt. -/
def NS16550_IER_MSR_ENABLE : Nat := 0x08

/-- Value disabling the modem-status interrupt. -/
def NS16550_IER_MSR_DISABLE : Nat := 0x00

/-- FCR bit 0: FIFO enable. -/
def NS16550_FCR_FIFO_ENABLE : Nat := 0x01

/-- FCR bit 1 mask: receive FIFO reset. -/
def NS16550_FCR_RXFIFO : Nat := 0x02

/-- FCR bit 2 mask: transmit FIFO reset. -/
def NS16550_FCR_TXFIFO : Nat := 0x04

/-- All valid FCR bits. -/
def NS16550_FCR_ALL : Nat := 0xC7

/-- Value resetting the receive FIFO. -/
def NS16550_FCR_RXFIFO_RST : Nat := 0x02

/-- Value resetting the transmit FIFO. -/
def NS16550_FCR_TXFIFO_RST : Nat := 0x04

/-- Receive trigger level of 14 bytes. -/
def NS16550_FCR_TRG_14 : Nat := 0xC0

/-- LCR bit 7: divisor latch access. -/
def NS16550_LCR_DLAB : Nat := 0x80

/-- All LCR bits. -/
def NS16550_LCR_ALL : Nat := 0xFF

/-- Word length of 8 bits. -/
def NS16550_LCR_WLS_8 : Nat := 0x03

/-- One stop bit. -/
def NS16550_LCR_STB_1 : Nat := 0x00

/-- Parity disabled. -/
def NS16550_LCR_PEN_DISABLE : Nat := 0x00

/-- Odd parity. -/
def NS16550_LCR_EPS_ODD : Nat := 0x00

/-- Stick parity disabled. -/
def NS16550_LCR_STICK_DISABLE : Nat := 0x00

/-- Break disabled. -/
def NS16550_LCR_BREAK_DISABLE : Nat := 0x00

/-- Divisor latch access on. -/
def NS16550_LCR_DLAB_ON : Nat := 0x80

/-- Divisor latch access off. -/
def NS16550_LCR_DLAB_OFF : Nat := 0x00

/-- MCR bit 3 mask: OUT2 pin. -/
def NS16550_MCR_OUT2 : Nat := 0x08

/-- All valid MCR bits. -/
def NS16550_MCR_ALL : Nat := 0x1F

/-- DTR pin value H. -/
def NS16550_MCR_DTR_H : Nat := 0x00

/-- RTS pin value H. -/
def NS16550_MCR_RTS_H : Nat := 0x00

/-- OUT1 pin value H. -/
def NS16550_MCR_OUT1_H : Nat := 0x00

/-- OUT2 pin value L. -/
def NS16550_MCR_OUT2_L : Nat := 0x08

/-- OUT2 pin value H. -/
def NS16550_MCR_OUT2_H : Nat := 0x00

/-- Loop-back mode off. -/
def NS16550_MCR_LOOP_OFF : Nat := 0x00

/-- Modelled from the spec: the interrupt line of COM2 (libmk.h is not among the
sources); COM2 is wired to IRQ3. -/
def LIBMK_INT_IRQ3 : Nat := 3

/-- Modelled from the spec: the interrupt line of COM1 (libmk.h is not among the
sources); COM1 is wired to IRQ4. -/
def LIBMK_INT_IRQ4 : Nat := 4

/-- Assignment to gCtrlInfo[comNo]. -/
def State.setCtrlInfo (s : State) (comNo : Nat) (c : ctrlInfo_t) : State :=
  { s with gCtrlInfo := Function.update s.gCtrlInfo comNo c }

end NS16550

namespace Ioctrl
open NS16550

/-- IoctrlOutTHR of Ioctrl.c: write the bytes to the THR port in one batch. -/
def IoctrlOutTHR (s : State) (comNo : Nat) (pValue : List Nat) : State :=
  LibMkIoPortOutByte s (gIoBase comNo + NS16550_THR) pValue

/-- IoctrlSetLCR of Ioctrl.c: value |= shadow & ~mask on 8 bits, write the byte to the
LCR port, store it as the new shadow. -/
def IoctrlSetLCR (s : State) (comNo : Nat) (mask value : Nat) : State :=
  let value := (value ||| ((s.gCtrlInfo comNo).lcr &&& (255 ^^^ mask))) % 256
  let s1 := LibMkIoPortOutByte s (gIoBase comNo + NS16550_LCR) [value]
  s1.setCtrlInfo comNo { s1.gCtrlInfo comNo with lcr := value }

/-- IoctrlSetMCR of Ioctrl.c: value |= shadow & ~mask on 8 bits, write the byte to the
MCR port, store it as the new shadow. -/
def IoctrlSetMCR (s : State) (comNo : Nat) (mask value : Nat) : State :=
  let value := (value ||| ((s.gCtrlInfo comNo).mcr &&& (255 ^^^ mask))) % 256
  let s1 := LibMkIoPortOutByte s (gIoBase comNo + NS16550_MCR) [value]
  s1.setCtrlInfo comNo { s1.gCtrlInfo comNo with mcr := value }

/-- IoctrlSetFCR of Ioctrl.c: the byte written keeps the reset bits, the shadow stored
has the two FIFO reset bits cleared. -/
def IoctrlSetFCR (s : State) (comNo : Nat) (mask value : Nat) : State :=
  let value := (value ||| ((s.gCtrlInfo comNo).fcr &&& (255 ^^^ mask))) % 256
  let s1 := LibMkIoPortOutByte s (gIoBase comNo + NS16550_FCR) [value]
  s1.setCtrlInfo comNo
    { s1.gCtrlInfo comNo with
      fcr := value &&& (255 ^^^ (NS16550_FCR_TXFIFO ||| NS16550_FCR_RXFIFO)) }

/-- IoctrlSetDivisorLatch of Ioctrl.c: store the 16-bit value, set DLAB, write the low
and the high byte, clear DLAB. -/
def IoctrlSetDivisorLatch (s : State) (comNo : Nat) (value : Nat) : State :=
  let dll := (value &&& 0x00FF) % 256
  let dlm := ((value >>> 8) &&& 0x00FF) % 256
  let s1 := s.setCtrlInfo comNo { s.gCtrlInfo comNo with dl := value }
  let s2 := IoctrlSetLCR s1 comNo NS16550_LCR_DLAB NS16550_LCR_DLAB_ON
  let s3 := LibMkIoPortOutByte s2 (gIoBase comNo + NS16550_DLL) [dll]
  let s4 := LibMkIoPortOutByte s3 (gIoBase comNo + NS16550_DLM) [dlm]
  IoctrlSetLCR s4 comNo NS16550_LCR_DLAB NS16550_LCR_DLAB_OFF

/-- Init of Ioctrl.c: zero the control information of the port, then initialise IER,
MCR, LCR, the divisor latch and FCR. -/
def Init (s : State) (comNo : Nat) : State :=
  let s0 := s.setCtrlInfo comNo ⟨0, 0, 0, 0, 0⟩
  let s1 := IoctrlSetIER s0 comNo NS16550_IER_ALL
    (NS16550_IER_MSR_DISABLE ||| NS16550_IER_LSR_DISABLE ||| NS16550_IER_THR_DISABLE |||
      NS16550_IER_RBR_DISABLE)
  let s2 := IoctrlSetMCR s1 comNo NS16550_MCR_ALL
    (NS16550_MCR_LOOP_OFF ||| NS16550_MCR_OUT2_L ||| NS16550_MCR_OUT1_H |||
      NS16550_MCR_RTS_H ||| NS16550_MCR_DTR_H)
  let s3 := IoctrlSetLCR s2 comNo NS16550_LCR_ALL
    (NS16550_LCR_DLAB_OFF ||| NS16550_LCR_BREAK_DISABLE ||| NS16550_LCR_STICK_DISABLE |||
      NS16550_LCR_EPS_ODD ||| NS16550_LCR_PEN_DISABLE ||| NS16550_LCR_STB_1 |||
      NS16550_LCR_WLS_8)
  let s4 := IoctrlSetDivisorLatch s3 comNo NS16550_DIVISOR_LATCH_DEFAULT
  IoctrlSetFCR s4 comNo NS16550_FCR_ALL
    (NS16550_FCR_TRG_14 ||| NS16550_FCR_TXFIFO_RST ||| NS16550_FCR_RXFIFO_RST |||
      NS16550_FCR_FIFO_ENABLE)

/-- IoctrlInit of Ioctrl.c. -/
def IoctrlInit (s : State) : State :=
  Init (Init s NS16550_COM1) NS16550_COM2

end Ioctrl

namespace Filemng
open NS16550 NS16550.BufmngId_t NS16550.LibMvfsRet_t Bufmng Txctrl

/-- FilemngUpdateReadyRead of Filemng.c: when the READ bit of the cached mask is clear,
set it and send the readiness notice with the path of the port and the new mask. -/
def FilemngUpdateReadyRead (s : State) (comNo : Nat) : State :=
  if s.gReady comNo &&& MVFS_READY_READ = 0 then
    let s1 := State.setReady s comNo (s.gReady comNo ||| MVFS_READY_READ)
    SendVfsReadyNtc s1 (gpPath comNo) (s1.gReady comNo)
  else s

/-- FilemngUpdateReadyWrite of Filemng.c: when the WRITE bit of the cached mask is
clear, set it and send the readiness notice with the path of the port and the new
mask. -/
def FilemngUpdateReadyWrite (s : State) (comNo : Nat) : State :=
  if s.gReady comNo &&& MVFS_READY_WRITE = 0 then
    let s1 := State.setReady s comNo (s.gReady comNo ||| MVFS_READY_WRITE)
    SendVfsReadyNtc s1 (gpPath comNo) (s1.gReady comNo)
  else s

end Filemng

namespace Txctrl
open NS16550 Bufmng Ioctrl Filemng NS16550.BufmngId_t

/-- TxctrlDo of Txctrl.c: take up to 16 bytes out of the transmit ring; write them to
THR when there are any, otherwise disable the THR-empty interrupt and mark the
transmitter stopped; then update the write readiness. -/
def TxctrlDo (s : State) (comNo : Nat) : State :=
  let r := BufmngRead s comNo BUFMNG_ID_TX NS16550_TRANSMIT_BUFFER_SIZE
  let s2 :=
    if r.2.length ≠ 0 then IoctrlOutTHR r.1 comNo r.2
    else
      let s1 := IoctrlSetIER r.1 comNo NS16550_IER_THR NS16550_IER_THR_DISABLE
      { s1 with gTxState := TXSTATE_STOPED }
  FilemngUpdateReadyWrite s2 comNo

/-- TxctrlInit of Txctrl.c: the spin locks are initialised and the transmit state is
set to started. -/
def TxctrlInit (s : State) : State :=
  { s with gTxState := TXSTATE_STARTED }

end Txctrl

namespace Intmng
open NS16550 Ioctrl

/-- InitInterrupt of Intmng.c, along the path on which both kernel calls succeed (the
driver aborts otherwise): start monitoring the interrupt, enable it in the kernel,
enable all four interrupt sources of the device and drive OUT2. -/
def InitInterrupt (s : State) (comNo : Nat) (irqNo : Nat) : State :=
  let s1 := s.send (Msg.IntStartMonitoring irqNo)
  let s2 := s1.send (Msg.IntEnable irqNo)
  let s3 := IoctrlSetIER s2 comNo NS16550_IER_ALL
    (NS16550_IER_MSR_ENABLE ||| NS16550_IER_LSR_ENABLE ||| NS16550_IER_THR_ENABLE |||
      NS16550_IER_RBR_ENABLE)
  IoctrlSetMCR s3 comNo NS16550_MCR_OUT2 NS16550_MCR_OUT2_H

/-- The interrupt settings made by StartThread of Intmng.c before it waits for
interrupts. -/
def StartThread_init (s : State) : State :=
  InitInterrupt (InitInterrupt s NS16550_COM1 LIBMK_INT_IRQ4) NS16550_COM2 LIBMK_INT_IRQ3

end Intmng

namespace Rxctrl
open NS16550 NS16550.BufmngId_t Bufmng Filemng

/-- Modelled from the spec: the effect of the receive controller RxctrlDo (Rxctrl.c is
not among the sources) for the bytes the device delivers in one drain: every byte is
pushed with overwrite into the RX ring of the port, then FilemngUpdateReadyRead is
called. -/
def receive (s : State) (comNo : Nat) (bytes : List Nat) : State :=
  FilemngUpdateReadyRead (BufmngWrite s comNo BUFMNG_ID_RX bytes).1 comNo

end Rxctrl

namespace Txctrl
open NS16550 NS16550.BufmngId_t Bufmng Ioctrl Filemng

/-- Successive calls of TxctrlDo on one port, one per THR-empty interrupt. -/
def TxctrlDo_times (comNo : Nat) : Nat → State → State
  | 0, s => s
  | k + 1, s => TxctrlDo_times comNo k (TxctrlDo s comNo)

/-- The batches written to the I/O port of THR (port base + 0, which the divisor latch
shares while DLAB is set) of a port, in the order of the trace. -/
def thrWrites (comNo : Nat) : List Msg → List (List Nat)
  | [] => []
  | Msg.IoPortOut port data :: rest =>
    if port = gIoBase comNo + NS16550_THR then data :: thrWrites comNo rest
    else thrWrites comNo rest
  | _ :: rest => thrWrites comNo rest

/-- The first k batches of a byte sequence cut into pieces of 16 bytes: full batches as
long as 16 bytes remain, then the shorter rest when there is one. -/
def batches : Nat → List Nat → List (List Nat)
  | 0, _ => []
  | k + 1, l => if l = [] then [] else l.take 16 :: batches k (l.drop 16)

/-- A call of the transmit controller on a port. -/
inductive TxCall where
  | Do (comNo : Nat)
  | Request (comNo : Nat)

/-- Execute one call of the transmit controller. -/
def TxCall.exec (s : State) : TxCall → State
  | TxCall.Do comNo => TxctrlDo s comNo
  | TxCall.Request comNo => TxctrlRequest s comNo

/-- Execute a sequence of calls of the transmit controller. -/
def runTx (s : State) (calls : List TxCall) : State :=
  calls.foldl TxCall.exec s

/-- The driver after its whole initialisation: file manager, device registers, transmit
controller, and the interrupt settings that enable all four IER sources. -/
def driverBoot (capacity : Nat) : State :=
  Intmng.StartThread_init (TxctrlInit (IoctrlInit (bootState capacity)))

/-- The initialised driver with COM1 opened under descriptor 5 and the given bytes
written to it by one VFS_WRITE. -/
def writtenState (capacity : Nat) (bytes : List Nat) : State :=
  DoVfsWrite (DoVfsOpen (driverBoot capacity) 1 5 CONFIG_FILEPATH_SERIAL1) 5 0 bytes

end Txctrl

namespace NS16550

/-- The readiness field of a reply or notice; none for the messages that have no such
field. -/
def Msg.readiness : Msg → Option Nat
  | Msg.VfsReadResp _ _ ready _ _ => some ready
  | Msg.VfsWriteResp _ _ ready _ => some ready
  | Msg.VfsReadyNtc _ ready => some ready
  | _ => none

/-- The readiness values reported to the broker along a trace, in order. -/
def reported (l : List Msg) : List Nat :=
  l.filterMap Msg.readiness

end NS16550

namespace Filemng
open NS16550 NS16550.BufmngId_t NS16550.LibMvfsRet_t Bufmng Txctrl

/-- An operation on the driver: a VFS request, or an interrupt-side call of
FilemngUpdateReadyRead or FilemngUpdateReadyWrite. -/
inductive Op where
  | request (r : Request)
  | readyRead (comNo : Nat)
  | readyWrite (comNo : Nat)

/-- Execute one operation. -/
def Op.exec (s : State) : Op → State
  | Op.request r => dispatch s r
  | Op.readyRead comNo => FilemngUpdateReadyRead s comNo
  | Op.readyWrite comNo => FilemngUpdateReadyWrite s comNo

/-- A readiness update names one of the two ports. -/
def Op.valid : Op → Bool
  | Op.request _ => true
  | Op.readyRead comNo => comNo == NS16550_COM1 || comNo == NS16550_COM2
  | Op.readyWrite comNo => comNo == NS16550_COM1 || comNo == NS16550_COM2

/-- The operation is a readiness update. -/
def Op.isUpdate : Op → Bool
  | Op.request _ => false
  | _ => true

/-- Execute a run of operations. -/
def run (s : State) (ops : List Op) : State :=
  ops.foldl Op.exec s

/-- The message is a VfsReady notice for the given path. -/
def isNotice (pPath : String) : Msg → Bool
  | Msg.VfsReadyNtc q _ => q == pPath
  | _ => false

/-- Number of VfsReady notices for the given path in a trace. -/
def noticeCount (pPath : String) (l : List Msg) : Nat :=
  l.countP (isNotice pPath)

/-- Number of bits of the readiness mask, among READ and WRITE, that go from 0 to 1
between the old and the new value. -/
def rises (old new : Nat) : Nat :=
  (if old &&& MVFS_READY_READ = 0 ∧ new &&& MVFS_READY_READ ≠ 0 then 1 else 0) +
  (if old &&& MVFS_READY_WRITE = 0 ∧ new &&& MVFS_READY_WRITE ≠ 0 then 1 else 0)

/-- Number of 0-to-1 transitions of the bits of the cached readiness mask of a port
during a run, counted operation by operation. -/
def risesOfRun (comNo : Nat) : State → List Op → Nat
  | _, [] => 0
  | s, op :: rest =>
    rises (s.gReady comNo) ((Op.exec s op).gReady comNo) + risesOfRun comNo (Op.exec s op) rest

/-- Number of 0-to-1 transitions of the bits of the cached readiness mask of a port made
by the readiness updates of a run. -/
def risesOfUpdates (comNo : Nat) : State → List Op → Nat
  | _, [] => 0
  | s, op :: rest =>
    (if op.isUpdate then rises (s.gReady comNo) ((Op.exec s op).gReady comNo) else 0) +
      risesOfUpdates comNo (Op.exec s op) rest

/-- The three possible effects of a request on the state and the recorded descriptor of a
port: both unchanged; the port opened by this open request, recording its descriptor; or
the port closed. -/
def effect (s t : State) (r : Request) (c : Nat) : Prop :=
  (t.gState c = s.gState c ∧ t.gGlobalFD c = s.gGlobalFD c) ∨
  (t.gState c = STATE_OPENED ∧
    ∃ pid g path, r = Request.VfsOpen pid g path ∧ t.gGlobalFD c = g) ∨
  t.gState c = STATE_INIT

/-- Execute a sequence of VFS requests. -/
def runRequests (s : State) (rs : List Request) : State :=
  rs.foldl dispatch s

/-- The request is not an open with descriptor 0. -/
def Request.gfdNonZero : Request → Prop
  | Request.VfsOpen _ globalFD _ => globalFD ≠ 0
  | _ => True

end Filemng

namespace NS16550

/-- Register offset of the Receiver Buffer Register. -/
def NS16550_RBR : Nat := 0x0000

/-- Register offset of the Interrupt Identifying Register. -/
def NS16550_IIR : Nat := 0x0002

/-- Register offset of the Line Status Register. -/
def NS16550_LSR : Nat := 0x0005

/-- Register offset of the Modem Status Register. -/
def NS16550_MSR : Nat := 0x0006

/-- IIR bits 1 to 3: the interrupt cause. -/
def NS16550_IIR_ID : Nat := 0x0E

/-- Value of the pending flag when an interrupt is pending. -/
def NS16550_IIR_PENDING_YES : Nat := 0x00

/-- Cause: modem status. -/
def NS16550_IIR_ID_MSR : Nat := 0x00

/-- Cause: THR empty. -/
def NS16550_IIR_ID_THR : Nat := 0x02

/-- Cause: received data available. -/
def NS16550_IIR_ID_RBR : Nat := 0x04

/-- Cause: line status. -/
def NS16550_IIR_ID_LSR : Nat := 0x06

/-- Cause: received data timeout. -/
def NS16550_IIR_ID_RBR_TO : Nat := 0x0C

/-- LSR bit 0: received data ready. -/
def NS16550_LSR_DR : Nat := 0x01

/-- Value of LSR bit 0 when received data is present. -/
def NS16550_LSR_DR_YES : Nat := 0x01

/-- Value of LSR bit 0 when no received data is present. -/
def NS16550_LSR_DR_NO : Nat := 0x00

/-- The input side of the I/O ports: input holds the bytes the device returns to the
successive port reads of the driver, in the order of the reads; reads is the log of the
ports read so far. -/
structure Device where
  input : List Nat
  reads : List Nat
  deriving DecidableEq

/-- Modelled from the spec: the kernel primitive LibMkIoPortInByte (libmk is not among
the sources) for a count of one byte.  The read takes the next response of the device,
truncated to the uint8 destination, and logs the port; without a response left there is
no result. -/
def LibMkIoPortInByte (d : Device) (port : Nat) : Option (Device × Nat) :=
  match d.input with
  | [] => none
  | v :: rest => some (⟨rest, d.reads ++ [port]⟩, v % 256)

/-- Kernel call LibMkIntComplete: the completion of an interrupt is handed to the
kernel.  A failing call is only logged by its callers. -/
def LibMkIntComplete (s : State) (irqNo : Nat) : State :=
  s.send (Msg.IntComplete irqNo)

/-- The interrupt numbers completed along a trace, in order. -/
def completes : List Msg → List Nat
  | [] => []
  | Msg.IntComplete irqNo :: rest => irqNo :: completes rest
  | _ :: rest => completes rest

end NS16550

namespace Ioctrl
open NS16550

/-- IoctrlInIIR of Ioctrl.c: read one byte from the IIR port. -/
def IoctrlInIIR (d : Device) (comNo : Nat) : Option (Device × Nat) :=
  LibMkIoPortInByte d (gIoBase comNo + NS16550_IIR)

/-- IoctrlInLSR of Ioctrl.c: read one byte from the LSR port. -/
def IoctrlInLSR (d : Device) (comNo : Nat) : Option (Device × Nat) :=
  LibMkIoPortInByte d (gIoBase comNo + NS16550_LSR)

/-- IoctrlInMSR of Ioctrl.c: read one byte from the MSR port. -/
def IoctrlInMSR (d : Device) (comNo : Nat) : Option (Device × Nat) :=
  LibMkIoPortInByte d (gIoBase comNo + NS16550_MSR)

/-- IoctrlInRBR of Ioctrl.c: read one byte from the RBR port. -/
def IoctrlInRBR (d : Device) (comNo : Nat) : Option (Device × Nat) :=
  LibMkIoPortInByte d (gIoBase comNo + NS16550_RBR)

end Ioctrl

namespace Rxctrl
open NS16550 NS16550.BufmngId_t Bufmng Filemng Ioctrl

/-- Modelled from the spec: the drain loop of the receive controller (Rxctrl.c is not
among the sources): read LSR; while its data-ready bit is set read RBR; leave the loop
when the bit is clear.  The bytes read are collected in order.  The fuel bounds the
number of iterations. -/
def RxctrlDo_loop : Nat → Device → Nat → Option (Device × List Nat)
  | 0, _, _ => none
  | fuel + 1, d, comNo =>
    match IoctrlInLSR d comNo with
    | none => none
    | some (d1, lsr) =>
      if lsr &&& NS16550_LSR_DR = NS16550_LSR_DR_NO then some (d1, [])
      else
        match IoctrlInRBR d1 comNo with
        | none => none
        | some (d2, rbr) =>
          match RxctrlDo_loop fuel d2 comNo with
          | none => none
          | some (d3, rest) => some (d3, rbr :: rest)

/-- Modelled from the spec: RxctrlDo of the receive controller (Rxctrl.c is not among the
sources): drain the device into the RX ring with overwrite, then call
FilemngUpdateReadyRead.  Every iteration of the loop consumes a response of the device,
so the number of responses left bounds the iterations. -/
def RxctrlDo (s : State) (d : Device) (comNo : Nat) : Option (State × Device) :=
  match RxctrlDo_loop (d.input.length + 1) d comNo with
  | none => none
  | some (d1, bytes) => some (receive s comNo bytes, d1)

end Rxctrl

namespace Intmng
open NS16550 Ioctrl Txctrl Rxctrl

/-- ProcInterruptRx of Intmng.c: run the receive controller, then complete the
interrupt. -/
def ProcInterruptRx (s : State) (d : Device) (comNo irqNo : Nat) : Option (State × Device) :=
  match RxctrlDo s d comNo with
  | none => none
  | some (s1, d1) => some (LibMkIntComplete s1 irqNo, d1)

/-- ProcInterruptTx of Intmng.c: complete the interrupt, then run the transmit
controller. -/
def ProcInterruptTx (s : State) (d : Device) (comNo irqNo : Nat) : Option (State × Device) :=
  some (TxctrlDo (LibMkIntComplete s irqNo) comNo, d)

/-- ProcInterrupt of Intmng.c: read IIR and switch on its cause field.  The case label of
the MSR cause has no statements of its own and shares the default branch, which logs the
cause and completes the interrupt. -/
def ProcInterrupt (s : State) (d : Device) (comNo irqNo : Nat) : Option (State × Device) :=
  match IoctrlInIIR d comNo with
  | none => none
  | some (d1, iir) =>
    let id := iir &&& NS16550_IIR_ID
    if id = NS16550_IIR_ID_THR then ProcInterruptTx s d1 comNo irqNo
    else if id = NS16550_IIR_ID_RBR ∨ id = NS16550_IIR_ID_RBR_TO ∨ id = NS16550_IIR_ID_LSR then
      ProcInterruptRx s d1 comNo irqNo
    else some (LibMkIntComplete s irqNo, d1)

end Intmng

namespace Buffer

/-- Modelled from the spec: the buffer identifiers of Buffer.h (not among the sources),
one receive and one transmit ring per port. -/
inductive BufferId_t where
  | BUFFER_ID_RECEIVE
  | BUFFER_ID_TRANSMIT
  deriving DecidableEq

/-- A ring of the array gBuffer after BufferInit of Buffer.c, along the path on which the
allocation succeeds: positions and bytes are zero. -/
def BufferInit : Buffer_t := ⟨fun _ => 0, 0, 0⟩

/-- BufferWrite of Buffer.c on the element gBuffer[comNo][id] of the array of rings. -/
def BufferWrite_at (gBuffer : Nat → BufferId_t → Buffer_t) (comNo : Nat) (id : BufferId_t)
    (value : Nat) : Nat → BufferId_t → Buffer_t :=
  Function.update gBuffer comNo
    (Function.update (gBuffer comNo) id (BufferWrite BUFFER_SIZE (gBuffer comNo id) value))

/-- A call of one of the two access functions of Buffer.c on one ring. -/
inductive BufferCall where
  | Write (value : Nat)
  | Read

/-- The ring after one call. -/
def BufferCall.exec (size : Nat) (b : Buffer_t) : BufferCall → Buffer_t
  | BufferCall.Write value => BufferWrite size b value
  | BufferCall.Read => (BufferRead size b).1

/-- The ring after a sequence of calls. -/
def runCalls (size : Nat) (b : Buffer_t) (calls : List BufferCall) : Buffer_t :=
  calls.foldl (BufferCall.exec size) b

end Buffer

namespace Ctrl
open NS16550

/-- Table gIoBase of Ctrl.c. -/
def gIoBase (comNo : Nat) : Nat :=
  [NS16550_COM1_IOBASE, NS16550_COM2_IOBASE, NS16550_COM3_IOBASE, NS16550_COM4_IOBASE].getD
    comNo 0

/-- CtrlInLSR of Ctrl.c: read one byte from the LSR port. -/
def CtrlInLSR (d : Device) (comNo : Nat) : Option (Device × Nat) :=
  LibMkIoPortInByte d (gIoBase comNo + NS16550_LSR)

/-- CtrlInRBR of Ctrl.c: read one byte from the RBR port. -/
def CtrlInRBR (d : Device) (comNo : Nat) : Option (Device × Nat) :=
  LibMkIoPortInByte d (gIoBase comNo + NS16550_RBR)

end Ctrl

namespace Receive
open NS16550 Buffer Buffer.BufferId_t Ctrl

/-- The state touched by the receive thread of the message-passing design: the array of
rings of Buffer.c, the sequence counter of main.c with the receive notices sent to the
main thread (sequence number and port), and the device. -/
structure RxEnv where
  gBuffer : Nat → BufferId_t → Buffer_t
  gSeqNoMsgRxNtc : Nat
  sent : List (Nat × Nat)
  dev : Device

/-- MainSendMsgRxNtc of main.c, along the path on which the message send succeeds: the
uint32 sequence counter is incremented and the notice for the port is sent with it. -/
def MainSendMsgRxNtc (s : RxEnv) (comNo : Nat) : RxEnv :=
  let seqNo := (s.gSeqNoMsgRxNtc + 1) % 4294967296
  { s with gSeqNoMsgRxNtc := seqNo, sent := s.sent ++ [(seqNo, comNo)] }

/-- The while loop of ProcInterruptRx of Receive.c: read RBR, write the byte to the
receive ring, read LSR, and leave the loop when its data-ready bit is clear.  The fuel
bounds the number of iterations. -/
def ProcInterruptRx_loop : Nat → RxEnv → Nat → Option RxEnv
  | 0, _, _ => none
  | fuel + 1, s, comNo =>
    match CtrlInRBR s.dev comNo with
    | none => none
    | some (d1, rbr) =>
      let g1 := BufferWrite_at s.gBuffer comNo BUFFER_ID_RECEIVE rbr
      match CtrlInLSR d1 comNo with
      | none => none
      | some (d2, lsr) =>
        if lsr &&& NS16550_LSR_DR = NS16550_LSR_DR_NO then
          some { s with gBuffer := g1, dev := d2 }
        else ProcInterruptRx_loop fuel { s with gBuffer := g1, dev := d2 } comNo

/-- ProcInterruptRx of Receive.c: read LSR and return when there is no received data;
otherwise run the loop and send the receive notice to the main thread.  Every iteration
of the loop consumes responses of the device, so their number bounds the iterations. -/
def ProcInterruptRx (s : RxEnv) (comNo : Nat) : Option RxEnv :=
  match CtrlInLSR s.dev comNo with
  | none => none
  | some (d1, lsr) =>
    if lsr &&& NS16550_LSR_DR = NS16550_LSR_DR_NO then some { s with dev := d1 }
    else
      match ProcInterruptRx_loop s.dev.input.length { s with dev := d1 } comNo with
      | none => none
      | some s2 => some (MainSendMsgRxNtc s2 comNo)

/-- The responses of a device that reports received data n times: each pair is an LSR
value followed by the RBR byte read after it; then comes the closing LSR value and
whatever the device would answer to later reads. -/
def responses (pairs : List (Nat × Nat)) (lsrEnd : Nat) (rest : List Nat) : List Nat :=
  (pairs.map (fun p => [p.1, p.2])).flatten ++ lsrEnd :: rest

/-- The ports read during a drain of n bytes on a port: LSR then RBR for each byte, and
the closing LSR read. -/
def drainReads (comNo : Nat) (n : Nat) : List Nat :=
  (List.replicate n [gIoBase comNo + NS16550_LSR, gIoBase comNo + NS16550_RBR]).flatten ++
    [gIoBase comNo + NS16550_LSR]

end Receive

namespace Filemng
open NS16550 NS16550.BufmngId_t NS16550.LibMvfsRet_t Bufmng Txctrl

/-- The opcode (as the event number of the request it answers) and the descriptor of a
VFS reply; none for the messages that are not replies. -/
def replyOf : Msg → Option (Nat × Nat)
  | Msg.VfsOpenResp globalFD _ => some (EVENT_VFSOPEN, globalFD)
  | Msg.VfsReadResp globalFD _ _ _ _ => some (EVENT_VFSREAD, globalFD)
  | Msg.VfsWriteResp globalFD _ _ _ => some (EVENT_VFSWRITE, globalFD)
  | Msg.VfsCloseResp globalFD _ => some (EVENT_VFSCLOSE, globalFD)
  | _ => none

/-- The replies sent along a trace, in order. -/
def replies (l : List Msg) : List (Nat × Nat) :=
  l.filterMap replyOf

end Filemng

namespace NS16550

/-- The spin-lock objects of the driver.  Txctrl.c and Filemng.c each declare their own
static array gLock[NS16550_COM_NUM]; an element is named by its array and its index. -/
inductive Lock_t where
  | Txctrl_gLock (comNo : Nat)
  | Filemng_gLock (comNo : Nat)
  deriving DecidableEq

/-- The steps of a function that matter to mutual exclusion on the transmit ring: taking
and releasing a spin lock, and an access to gBuffer[comNo][BUFMNG_ID_TX]. -/
inductive Step where
  | SpinLock (l : Lock_t)
  | SpinUnlock (l : Lock_t)
  | TxRing (comNo : Nat)
  deriving DecidableEq

/-- Two contexts running side by side: the steps each has left and the locks each
holds. -/
structure Contexts where
  left1 : List Step
  held1 : List Lock_t
  left2 : List Step
  held2 : List Lock_t
  deriving DecidableEq

/-- Modelled from the spec: one step of a context under the spin-lock discipline of MLib
(MLibSpin.h is not among the sources).  The arguments are the steps the context has left,
the locks it holds and the locks the other context holds.  MLibSpinLock on a lock held by
the other context spins, so the step cannot be taken; MLibSpinUnlock releases the
lock. -/
def stepContext (left : List Step) (held other : List Lock_t) :
    Option (List Step × List Lock_t) :=
  match left with
  | [] => none
  | Step.SpinLock l :: rest => if l ∈ other then none else some (rest, l :: held)
  | Step.SpinUnlock l :: rest => some (rest, held.erase l)
  | Step.TxRing _ :: rest => some (rest, held)

/-- Run a schedule: each entry names the context that takes the next step (false the
first, true the second).  No result when a scheduled step cannot be taken. -/
def schedule : Contexts → List Bool → Option Contexts
  | c, [] => some c
  | c, false :: rest =>
    match stepContext c.left1 c.held1 c.held2 with
    | none => none
    | some (l, h) => schedule { c with left1 := l, held1 := h } rest
  | c, true :: rest =>
    match stepContext c.left2 c.held2 c.held1 with
    | none => none
    | some (l, h) => schedule { c with left2 := l, held2 := h } rest

/-- Both contexts are about to access the transmit ring of the port. -/
def Contexts.overlap (c : Contexts) (comNo : Nat) : Prop :=
  c.left1.head? = some (Step.TxRing comNo) ∧ c.left2.head? = some (Step.TxRing comNo)

end NS16550

namespace Txctrl
open NS16550

/-- The lock and transmit-ring steps of TxctrlDo of Txctrl.c: the BufmngRead of the
transmit ring runs between MLibSpinLock and MLibSpinUnlock on gLock[comNo] of Txctrl.c;
the closing call of FilemngUpdateReadyWrite takes and releases gLock[comNo] of
Filemng.c. -/
def TxctrlDo_steps (comNo : Nat) : List Step :=
  [Step.SpinLock (Lock_t.Txctrl_gLock comNo), Step.TxRing comNo,
    Step.SpinUnlock (Lock_t.Txctrl_gLock comNo),
    Step.SpinLock (Lock_t.Filemng_gLock comNo), Step.SpinUnlock (Lock_t.Filemng_gLock comNo)]

end Txctrl

namespace Filemng
open NS16550

/-- The lock and transmit-ring steps of DoTask32 of Filemng.c: the BufmngWrite to the
transmit ring runs between MLibSpinLock and MLibSpinUnlock on gLock[pParam->comNo] of
Filemng.c; the closing call of TxctrlRequest takes and releases gLock[comNo] of
Txctrl.c. -/
def DoTask32_steps (comNo : Nat) : List Step :=
  [Step.SpinLock (Lock_t.Filemng_gLock comNo), Step.TxRing comNo,
    Step.SpinUnlock (Lock_t.Filemng_gLock comNo),
    Step.SpinLock (Lock_t.Txctrl_gLock comNo), Step.SpinUnlock (Lock_t.Txctrl_gLock comNo)]

end Filemng

namespace Filemng
open NS16550 NS16550.BufmngId_t NS16550.LibMvfsRet_t Bufmng Txctrl

/-- The arrival of one received byte on a port as Filemng.c and Bufmng.c see it: the byte
is written to the RX ring, then FilemngUpdateReadyRead is called. -/
def byteArrives (s : State) (comNo : Nat) (b : Nat) : State :=
  FilemngUpdateReadyRead (BufmngWrite s comNo BUFMNG_ID_RX [b]).1 comNo

/-- The booted driver after a byte arrived on COM1 while the port was still closed. -/
def closedByteState : State :=
  byteArrives (bootState 16) NS16550_COM1 0x41

/-- COM1 opened under descriptor 5 right after a byte arrived while it was closed. -/
def openedAfterClosedByte : State :=
  DoVfsOpen closedByteState 1 5 CONFIG_FILEPATH_SERIAL1

end Filemng
/-! Theorems -/

/-! Buffer.c: the ring as a queue -/

namespace Buffer

theorem UpdateReadIdx_eq (size : Nat) (b : Buffer_t) (hs : size < 4294967296)
    (hr : b.readIdx < size) :
    UpdateReadIdx size b = { b with readIdx := nextIdx size b.readIdx } := by
  unfold UpdateReadIdx nextIdx
  have h : (b.readIdx + 1) % 4294967296 ≥ size ↔ b.readIdx + 1 ≥ size := by omega
  by_cases hc : b.readIdx + 1 ≥ size
  · simp [h, hc]
  · have h2 : (b.readIdx + 1) % 4294967296 = b.readIdx + 1 := by omega
    simp [h, hc, h2]

theorem UpdateWriteIdx_eq (size : Nat) (b : Buffer_t) (hs : size < 4294967296)
    (hw : b.writeIdx < size) :
    UpdateWriteIdx size b = { b with writeIdx := nextIdx size b.writeIdx } := by
  unfold UpdateWriteIdx nextIdx
  have h : (b.writeIdx + 1) % 4294967296 ≥ size ↔ b.writeIdx + 1 ≥ size := by omega
  by_cases hc : b.writeIdx + 1 ≥ size
  · simp [h, hc]
  · have h2 : (b.writeIdx + 1) % 4294967296 = b.writeIdx + 1 := by omega
    simp [h, hc, h2]

theorem nextIdx_lt (size i : Nat) (h : 0 < size) : nextIdx size i < size := by
  unfold nextIdx; split <;> omega

theorem contentsFrom_length (size : Nat) (p : Nat → Nat) (k : Nat) :
    ∀ r, (contentsFrom size p r k).length = k := by
  induction k with
  | zero => intro r; simp [contentsFrom]
  | succ k ih => intro r; simp [contentsFrom, ih]

theorem contents_length (size : Nat) (b : Buffer_t) :
    (contents size b).length = count size b := by
  simp [contents, contentsFrom_length]

theorem count_lt (size : Nat) (b : Buffer_t) (h : WF size b) : count size b < size := by
  obtain ⟨hr, hw⟩ := h
  unfold count; split <;> omega

/-- Appending at the write position: the cell `w` lies `k` steps ahead of `r`. -/
theorem contentsFrom_update (size : Nat) (p : Nat → Nat) (w v : Nat) (hw : w < size) :
    ∀ (k r : Nat), r < size →
      (if r ≤ w then w - r else w + size - r) = k →
      contentsFrom size (Function.update p w v) r (k + 1) = contentsFrom size p r k ++ [v] := by
  intro k
  induction k with
  | zero =>
    intro r hr hd
    have : r = w := by split at hd <;> omega
    subst this
    simp [contentsFrom]
  | succ k ih =>
    intro r hr hd
    have hne : r ≠ w := by split at hd <;> omega
    have hn : nextIdx size r < size := nextIdx_lt size r (by omega)
    have hd2 : (if nextIdx size r ≤ w then w - nextIdx size r else w + size - nextIdx size r) = k := by
      unfold nextIdx
      split at hd <;> split <;> split <;> omega
    have := ih (nextIdx size r) hn hd2
    rw [contentsFrom, this]
    simp [contentsFrom, Function.update_noteq hne]

theorem BufferRead_empty (size : Nat) (b : Buffer_t) (h : b.readIdx = b.writeIdx) :
    BufferRead size b = (b, none) := by
  simp [BufferRead, h]

theorem contents_nil_iff (size : Nat) (b : Buffer_t) (h : WF size b) :
    contents size b = [] ↔ b.readIdx = b.writeIdx := by
  obtain ⟨hr, hw⟩ := h
  rw [← List.length_eq_zero, contents_length]
  unfold count; split <;> omega

theorem BufferRead_nonempty (size : Nat) (b : Buffer_t) (hs : size < 4294967296)
    (h : WF size b) (hne : b.readIdx ≠ b.writeIdx) :
    (BufferRead size b).2 = some (b.pBuffer b.readIdx) ∧
    WF size (BufferRead size b).1 ∧
    contents size b = b.pBuffer b.readIdx :: contents size (BufferRead size b).1 := by
  obtain ⟨hr, hw⟩ := h
  have hn : nextIdx size b.readIdx < size := nextIdx_lt size _ (by omega)
  simp only [BufferRead, hne, if_false, UpdateReadIdx_eq size b hs hr]
  refine ⟨trivial, ⟨hn, hw⟩, ?_⟩
  unfold contents
  have hc : count size b = count size { b with readIdx := nextIdx size b.readIdx } + 1 := by
    unfold count nextIdx
    simp only
    split <;> split <;> split <;> omega
  rw [hc, contentsFrom]

theorem BufferWrite_eq (size : Nat) (b : Buffer_t) (v : Nat) (hs : size < 4294967296)
    (h : WF size b) :
    BufferWrite size b v =
      if nextIdx size b.writeIdx = b.readIdx then
        ⟨Function.update b.pBuffer b.writeIdx v, nextIdx size b.readIdx, nextIdx size b.writeIdx⟩
      else ⟨Function.update b.pBuffer b.writeIdx v, b.readIdx, nextIdx size b.writeIdx⟩ := by
  obtain ⟨hr, hw⟩ := h
  have e1 := UpdateWriteIdx_eq size ⟨Function.update b.pBuffer b.writeIdx v, b.readIdx, b.writeIdx⟩ hs hw
  have e2 := UpdateReadIdx_eq size
    ⟨Function.update b.pBuffer b.writeIdx v, b.readIdx, nextIdx size b.writeIdx⟩ hs hr
  simp only [BufferWrite, e1, e2]

theorem BufferWrite_spec (size : Nat) (b : Buffer_t) (v : Nat) (hs : size < 4294967296)
    (h : WF size b) :
    WF size (BufferWrite size b v) ∧
    contents size (BufferWrite size b v) = (contents size b ++ [v]).drop (count size b + 2 - size) := by
  rw [BufferWrite_eq size b v hs h]
  obtain ⟨hr, hw⟩ := h
  have hnw : nextIdx size b.writeIdx < size := nextIdx_lt size _ (by omega)
  have hnr : nextIdx size b.readIdx < size := nextIdx_lt size _ (by omega)
  by_cases hfull : nextIdx size b.writeIdx = b.readIdx
  · simp only [hfull, if_true]
    refine ⟨⟨hnr, hr⟩, ?_⟩
    unfold contents
    simp only
    by_cases h1 : size = 1
    · subst h1
      have : b.readIdx = 0 := by omega
      have : b.writeIdx = 0 := by omega
      simp [count, nextIdx, contentsFrom, *]
    · have hcb : count size b = (size - 2) + 1 := by
        unfold count; unfold nextIdx at hfull
        split <;> split at hfull <;> omega
      have hcb' : count size (⟨Function.update b.pBuffer b.writeIdx v,
          nextIdx size b.readIdx, b.readIdx⟩ : Buffer_t) = (size - 2) + 1 := by
        unfold count nextIdx; simp only
        split <;> split <;> omega
      rw [hcb', hcb]
      have hd : (if nextIdx size b.readIdx ≤ b.writeIdx then b.writeIdx - nextIdx size b.readIdx
          else b.writeIdx + size - nextIdx size b.readIdx) = size - 2 := by
        unfold nextIdx; unfold nextIdx at hfull
        split <;> split <;> split at hfull <;> omega
      rw [contentsFrom_update size b.pBuffer b.writeIdx v hw (size - 2) _ hnr hd]
      have : size - 2 + 1 + 2 - size = 1 := by omega
      rw [this]
      simp [contentsFrom]
  · simp only [hfull, if_false]
    refine ⟨⟨hr, hnw⟩, ?_⟩
    unfold contents
    simp only
    have hcb' : count size (⟨Function.update b.pBuffer b.writeIdx v,
        b.readIdx, nextIdx size b.writeIdx⟩ : Buffer_t) = count size b + 1 := by
      simp only [count, nextIdx] at hfull ⊢
      split_ifs at hfull ⊢ <;> omega
    have hlt : count size b + 2 - size = 0 := by
      unfold count; unfold nextIdx at hfull
      split <;> split at hfull <;> omega
    rw [hcb', hlt, contentsFrom_update size b.pBuffer b.writeIdx v hw (count size b) _ hr rfl]
    simp

theorem lastN_of_le (k : Nat) (l : List Nat) (h : l.length ≤ k) : lastN k l = l := by
  unfold lastN
  have : l.length - k = 0 := by omega
  rw [this]; rfl

theorem lastN_drop_append (c d : Nat) (l t : List Nat) (h1 : d ≤ l.length)
    (h2 : d ≤ l.length + t.length - c) :
    lastN c (l.drop d ++ t) = lastN c (l ++ t) := by
  unfold lastN
  rw [← List.drop_append_of_le_length h1, List.drop_drop]
  congr 1
  simp only [List.length_drop, List.length_append]
  omega

theorem writeAll_spec (size : Nat) (hs : size < 4294967296) (s : List Nat) :
    ∀ b : Buffer_t, WF size b →
      WF size (writeAll size b s) ∧
      contents size (writeAll size b s) = lastN (size - 1) (contents size b ++ s) := by
  induction s with
  | nil =>
    intro b h
    refine ⟨h, ?_⟩
    have := count_lt size b h
    simp only [writeAll, List.foldl_nil, List.append_nil]
    rw [lastN_of_le]
    rw [contents_length]; omega
  | cons v t ih =>
    intro b h
    obtain ⟨hwf, hc⟩ := BufferWrite_spec size b v hs h
    obtain ⟨hwf2, hc2⟩ := ih (BufferWrite size b v) hwf
    have hlt := count_lt size b h
    have e : writeAll size b (v :: t) = writeAll size (BufferWrite size b v) t := rfl
    rw [e]
    refine ⟨hwf2, ?_⟩
    rw [hc2, hc, lastN_drop_append]
    · simp
    · simp [contents_length]; omega
    · simp [contents_length]; omega

theorem drain_spec (size : Nat) (hs : size < 4294967296) (fuel : Nat) :
    ∀ b : Buffer_t, WF size b → count size b ≤ fuel →
      (drain size fuel b).2 = contents size b ∧
      BufferRead size (drain size fuel b).1 = ((drain size fuel b).1, none) := by
  induction fuel with
  | zero =>
    intro b h hc
    have hnil : contents size b = [] := by
      rw [← List.length_eq_zero, contents_length]; omega
    have heq := (contents_nil_iff size b h).1 hnil
    simp [drain, hnil, BufferRead_empty size b heq]
  | succ fuel ih =>
    intro b h hc
    by_cases heq : b.readIdx = b.writeIdx
    · have hnil := (contents_nil_iff size b h).2 heq
      simp [drain, hnil, BufferRead_empty size b heq]
    · obtain ⟨h1, h2, h3⟩ := BufferRead_nonempty size b hs h heq
      have hr : BufferRead size b = (UpdateReadIdx size b, some (b.pBuffer b.readIdx)) := by
        simp [BufferRead, heq]
      rw [hr] at h2 h3
      have hlen : count size (UpdateReadIdx size b) ≤ fuel := by
        have := congrArg List.length h3
        simp only [List.length_cons, contents_length] at this
        omega
      obtain ⟨i1, i2⟩ := ih (UpdateReadIdx size b) h2 hlen
      simp only [drain, hr]
      exact ⟨by rw [i1, h3], i2⟩

theorem readTimes_spec (size : Nat) (hs : size < 4294967296) (k : Nat) :
    ∀ b : Buffer_t, WF size b → k ≤ count size b →
      (readTimes size k b).2 = ((contents size b).take k).map some ∧
      WF size (readTimes size k b).1 ∧
      contents size (readTimes size k b).1 = (contents size b).drop k := by
  induction k with
  | zero => intro b h _; simp [readTimes, h]
  | succ k ih =>
    intro b h hc
    have heq : b.readIdx ≠ b.writeIdx := by
      intro he
      have := (contents_nil_iff size b h).2 he
      have := congrArg List.length this
      simp only [contents_length, List.length_nil] at this
      omega
    obtain ⟨h1, h2, h3⟩ := BufferRead_nonempty size b hs h heq
    have hlen : k ≤ count size (BufferRead size b).1 := by
      have := congrArg List.length h3
      simp only [List.length_cons, contents_length] at this
      omega
    obtain ⟨i1, i2, i3⟩ := ih (BufferRead size b).1 h2 hlen
    simp only [readTimes]
    refine ⟨?_, i2, ?_⟩
    · rw [i1, h1, h3]; simp
    · rw [i3, h3]; simp

theorem BUFFER_SIZE_lt : BUFFER_SIZE < 4294967296 := by decide

theorem contents_empty (size : Nat) (m : Nat → Nat) (p : Nat) :
    contents size ⟨m, p, p⟩ = [] := by
  simp [contents, count, contentsFrom]

end Buffer

/-! Bufmng.c and Filemng.c: equations for the loops and the request handlers -/

namespace Bufmng
open NS16550 NS16550.BufmngId_t

theorem popLoop_eq (n : Nat) : ∀ r : MLibRingBuffer_t,
    popLoop r n = ({ r with data := r.data.drop n }, r.data.take n) := by
  induction n with
  | zero => intro r; simp [popLoop]
  | succ n ih =>
    intro r
    obtain ⟨data, cap⟩ := r
    cases data with
    | nil => simp [popLoop, MLibRingBufferPop]
    | cons v rest => simp [popLoop, MLibRingBufferPop, ih]

theorem pushLoop_eq (l : List Nat) : ∀ r : MLibRingBuffer_t,
    pushLoop r l =
      ({ r with data := r.data ++ l.take (r.capacity - r.data.length) },
        min l.length (r.capacity - r.data.length)) := by
  induction l with
  | nil => intro r; simp [pushLoop]
  | cons v rest ih =>
    intro r
    by_cases h : r.data.length < r.capacity
    · have e : r.capacity - r.data.length = (r.capacity - (r.data.length + 1)) + 1 := by omega
      simp only [pushLoop, MLibRingBufferPush, h, if_true, ih, List.length_append,
        List.length_singleton, List.length_cons]
      rw [e]
      simp [List.take_succ_cons, Nat.succ_min_succ]
    · have e : r.capacity - r.data.length = 0 := by omega
      simp [pushLoop, MLibRingBufferPush, h, e]

theorem BufmngRead_eq (s : State) (comNo : Nat) (id : BufmngId_t) (size : Nat) :
    BufmngRead s comNo id size =
      (s.setBuffer comNo id ⟨(s.gBuffer comNo id).data.drop size, (s.gBuffer comNo id).capacity⟩,
        (s.gBuffer comNo id).data.take size) := by
  simp [BufmngRead, popLoop_eq]

theorem BufmngWrite_TX_eq (s : State) (comNo : Nat) (pData : List Nat) :
    BufmngWrite s comNo BUFMNG_ID_TX pData =
      (s.setBuffer comNo BUFMNG_ID_TX
        ⟨(s.gBuffer comNo BUFMNG_ID_TX).data ++
            pData.take ((s.gBuffer comNo BUFMNG_ID_TX).capacity
              - (s.gBuffer comNo BUFMNG_ID_TX).data.length),
          (s.gBuffer comNo BUFMNG_ID_TX).capacity⟩,
        min pData.length ((s.gBuffer comNo BUFMNG_ID_TX).capacity
              - (s.gBuffer comNo BUFMNG_ID_TX).data.length)) := by
  simp [BufmngWrite, pushLoop_eq]

end Bufmng


namespace Filemng
open NS16550 NS16550.BufmngId_t NS16550.LibMvfsRet_t Bufmng Txctrl Ioctrl

theorem paths_ne : CONFIG_FILEPATH_SERIAL1 ≠ CONFIG_FILEPATH_SERIAL2 := by decide

theorem gpPath_COM1 : gpPath NS16550_COM1 = CONFIG_FILEPATH_SERIAL1 := rfl
theorem gpPath_COM2 : gpPath NS16550_COM2 = CONFIG_FILEPATH_SERIAL2 := rfl

theorem exec_no_transition (s : State) (comNo event : Nat) (p : Param)
    (h : s.gState comNo = STATE_INIT) (he : event ≠ EVENT_VFSOPEN) :
    MLibStateExec gStt s comNo event p = (s, false) := by
  have hb : (EVENT_VFSOPEN == event) = false := by
    rw [beq_eq_false_iff_ne]; exact fun e => he e.symm
  simp [MLibStateExec, gStt, h, STATE_INIT, STATE_OPENED, List.find?, hb]

theorem exec_open_init (s : State) (comNo : Nat) (p : Param) (h : s.gState comNo = STATE_INIT) :
    MLibStateExec gStt s comNo EVENT_VFSOPEN p =
      ({ (DoTask11 s p).1 with
          gState := Function.update (DoTask11 s p).1.gState comNo STATE_OPENED }, true) := by
  simp [MLibStateExec, gStt, h, STATE_INIT, STATE_OPENED, EVENT_VFSOPEN, List.find?, DoTask11]

theorem exec_opened (s : State) (comNo event : Nat) (p : Param) (task : State → Param → State × Nat)
    (next : Nat)
    (h : s.gState comNo = STATE_OPENED)
    (hrow : gStt.find? (fun t => t.state == STATE_OPENED && t.event == event)
      = some ⟨STATE_OPENED, event, task, [next, 0]⟩)
    (hret : (task s p).2 = next) :
    MLibStateExec gStt s comNo event p =
      ({ (task s p).1 with gState := Function.update (task s p).1.gState comNo next }, true) := by
  simp [MLibStateExec, h, hrow, hret]

theorem DoVfsOpen_resolved (s : State) (comNo pid gfd : Nat)
    (hc : comNo = NS16550_COM1 ∨ comNo = NS16550_COM2) :
    DoVfsOpen s pid gfd (gpPath comNo) =
      if (MLibStateExec gStt s comNo EVENT_VFSOPEN ⟨comNo, pid, gfd, 0, [], 0, true⟩).2 = false then
        SendVfsOpenResp (MLibStateExec gStt s comNo EVENT_VFSOPEN ⟨comNo, pid, gfd, 0, [], 0, true⟩).1
          gfd LIBMVFS_RET_FAILURE
      else (MLibStateExec gStt s comNo EVENT_VFSOPEN ⟨comNo, pid, gfd, 0, [], 0, true⟩).1 := by
  rcases hc with rfl | rfl
  · simp [DoVfsOpen, gpPath_COM1]
  · simp [DoVfsOpen, gpPath_COM2, paths_ne]

theorem DoVfsOpen_init (s : State) (comNo pid gfd : Nat)
    (hc : comNo = NS16550_COM1 ∨ comNo = NS16550_COM2) (h : s.gState comNo = STATE_INIT) :
    DoVfsOpen s pid gfd (gpPath comNo) =
      { s with
        gBuffer := Function.update s.gBuffer comNo
          (Function.update (s.gBuffer comNo) BUFMNG_ID_RX
            ⟨[], (s.gBuffer comNo BUFMNG_ID_RX).capacity⟩)
        gState := Function.update s.gState comNo STATE_OPENED
        gGlobalFD := Function.update s.gGlobalFD comNo gfd
        out := s.out ++ [Msg.VfsOpenResp gfd LIBMVFS_RET_SUCCESS] } := by
  rw [DoVfsOpen_resolved s comNo pid gfd hc, exec_open_init s comNo _ h]
  simp [DoTask11, BufmngClear, State.setBuffer, SendVfsOpenResp, State.send, MLibRingBufferClear]

theorem DoVfsOpen_opened (s : State) (comNo pid gfd : Nat)
    (hc : comNo = NS16550_COM1 ∨ comNo = NS16550_COM2) (h : s.gState comNo = STATE_OPENED) :
    DoVfsOpen s pid gfd (gpPath comNo) =
      { s with out := s.out ++ [Msg.VfsOpenResp gfd LIBMVFS_RET_FAILURE] } := by
  rw [DoVfsOpen_resolved s comNo pid gfd hc,
    exec_opened s comNo EVENT_VFSOPEN _ DoTask12 STATE_OPENED h rfl rfl]
  have hu : Function.update s.gState comNo STATE_OPENED = s.gState := by
    rw [← h]; exact Function.update_eq_self _ _
  simp [DoTask12, SendVfsOpenResp, State.send, hu]

theorem DoVfsClose_opened (s : State) (comNo g : Nat)
    (hr : ConvertGlobalFD s g = comNo) (hc : comNo ≠ NS16550_COM_NULL)
    (h : s.gState comNo = STATE_OPENED) :
    DoVfsClose s g =
      { s with
        gState := Function.update s.gState comNo STATE_INIT
        gGlobalFD := Function.update s.gGlobalFD comNo 0
        gReady := Function.update s.gReady comNo 0
        out := s.out ++ [Msg.VfsCloseResp g LIBMVFS_RET_SUCCESS] } := by
  unfold DoVfsClose
  simp only [hr, hc, if_false]
  rw [exec_opened s comNo EVENT_VFSCLOSE _ DoTask42 STATE_INIT h rfl rfl]
  simp [DoTask42, SendVfsCloseResp, State.send, State.setReady]

theorem ConvertGlobalFD_first (s : State) (comNo : Nat)
    (hc : comNo = NS16550_COM1 ∨ comNo = NS16550_COM2)
    (hfirst : ∀ c, c < comNo → s.gGlobalFD c ≠ s.gGlobalFD comNo) :
    ConvertGlobalFD s (s.gGlobalFD comNo) = comNo := by
  rcases hc with rfl | rfl
  · simp [ConvertGlobalFD]
  · have := hfirst NS16550_COM1 (by decide)
    simp [ConvertGlobalFD, this]

theorem ConvertGlobalFD_only (s : State) (comNo : Nat)
    (hc : comNo = NS16550_COM1 ∨ comNo = NS16550_COM2)
    (honly : ∀ c, c < NS16550_COM_NUM → c ≠ comNo → s.gGlobalFD c ≠ s.gGlobalFD comNo) :
    ConvertGlobalFD s (s.gGlobalFD comNo) = comNo := by
  apply ConvertGlobalFD_first s comNo hc
  intro c hlt
  have h2 : c < NS16550_COM_NUM := by
    rcases hc with rfl | rfl
    · exact absurd hlt (Nat.not_lt_zero c)
    · exact Nat.lt_trans hlt (by decide)
  exact honly c h2 (Nat.ne_of_lt hlt)

/-- The lookup fails exactly when neither port records the descriptor. -/
theorem ConvertGlobalFD_null_iff (s : State) (globalFD : Nat) :
    ConvertGlobalFD s globalFD = NS16550_COM_NULL ↔
      s.gGlobalFD NS16550_COM1 ≠ globalFD ∧ s.gGlobalFD NS16550_COM2 ≠ globalFD := by
  unfold ConvertGlobalFD
  split_ifs with h1 h2
  · simp [h1]; decide
  · simp [h1, h2]; decide
  · simp [h1, h2]

theorem DoTask22_ret (s : State) (p : Param) : (DoTask22 s p).2 = STATE_OPENED := by
  simp only [DoTask22]
  split_ifs <;> rfl

theorem DoVfsRead_opened (s : State) (comNo gfd idx size : Nat) (mallocOk : Bool)
    (hr : ConvertGlobalFD s gfd = comNo) (hc : comNo ≠ NS16550_COM_NULL)
    (h : s.gState comNo = STATE_OPENED) :
    DoVfsRead s gfd idx size mallocOk =
      { (DoTask22 s ⟨comNo, 0, gfd, idx, [], size, mallocOk⟩).1 with
        gState := Function.update
          (DoTask22 s ⟨comNo, 0, gfd, idx, [], size, mallocOk⟩).1.gState comNo STATE_OPENED } := by
  unfold DoVfsRead
  simp only [hr, hc, if_false]
  rw [exec_opened s comNo EVENT_VFSREAD _ DoTask22 STATE_OPENED h rfl
    (DoTask22_ret s _)]
  simp

theorem DoVfsWrite_opened (s : State) (comNo gfd idx : Nat) (pBuffer : List Nat)
    (hr : ConvertGlobalFD s gfd = comNo) (hc : comNo ≠ NS16550_COM_NULL)
    (h : s.gState comNo = STATE_OPENED) :
    DoVfsWrite s gfd idx pBuffer =
      { (DoTask32 s ⟨comNo, 0, gfd, idx, pBuffer, pBuffer.length, true⟩).1 with
        gState := Function.update
          (DoTask32 s ⟨comNo, 0, gfd, idx, pBuffer, pBuffer.length, true⟩).1.gState comNo
            STATE_OPENED } := by
  unfold DoVfsWrite
  simp only [hr, hc, if_false]
  rw [exec_opened s comNo EVENT_VFSWRITE _ DoTask32 STATE_OPENED h rfl rfl]
  simp

theorem clear_bit_land (g b : Nat) (h : (4294967295 ^^^ b) &&& b = 0) :
    (g &&& (4294967295 ^^^ b)) &&& b = 0 := by
  rw [Nat.land_assoc, h]; simp

theorem DoVfsRead_alloc (s : State) (comNo gfd idx N : Nat)
    (hres : ConvertGlobalFD s gfd = comNo)
    (hc : comNo = NS16550_COM1 ∨ comNo = NS16550_COM2)
    (hopen : s.gState comNo = STATE_OPENED) :
    (DoVfsRead s gfd idx N true).out =
      s.out ++
        [ if ((s.gBuffer comNo BUFMNG_ID_RX).data.take N).length = N then
            Msg.VfsReadResp gfd LIBMVFS_RET_SUCCESS MVFS_READY_READ
              (some ((s.gBuffer comNo BUFMNG_ID_RX).data.take N))
              ((s.gBuffer comNo BUFMNG_ID_RX).data.take N).length
          else if ((s.gBuffer comNo BUFMNG_ID_RX).data.take N).length ≠ 0 then
            Msg.VfsReadResp gfd LIBMVFS_RET_SUCCESS 0
              (some ((s.gBuffer comNo BUFMNG_ID_RX).data.take N))
              ((s.gBuffer comNo BUFMNG_ID_RX).data.take N).length
          else Msg.VfsReadResp gfd LIBMVFS_RET_FAILURE 0 none 0 ] ∧
    ((DoVfsRead s gfd idx N true).gBuffer comNo BUFMNG_ID_RX).data =
      (s.gBuffer comNo BUFMNG_ID_RX).data.drop N ∧
    (DoVfsRead s gfd idx N true).gReady comNo =
      (if ((s.gBuffer comNo BUFMNG_ID_RX).data.take N).length = N then
        s.gReady comNo ||| MVFS_READY_READ
       else s.gReady comNo &&& (4294967295 ^^^ MVFS_READY_READ)) ∧
    (DoVfsRead s gfd idx N true).gState comNo = STATE_OPENED := by
  have hnull : comNo ≠ NS16550_COM_NULL := by rcases hc with rfl | rfl <;> decide
  rw [DoVfsRead_opened s comNo gfd idx N true hres hnull hopen]
  simp only [DoTask22, BufmngRead_eq]
  split_ifs <;>
    simp_all [SendVfsReadResp, State.send, State.setReady, State.setBuffer]

theorem TxctrlRequest_out (s : State) (comNo : Nat) :
    (TxctrlRequest s comNo).out =
      s.out ++
        (if s.gTxState = TXSTATE_STOPED then
          [Msg.IoPortOut (gIoBase comNo + NS16550_IER)
            [(NS16550_IER_THR_ENABLE ||| ((s.gCtrlInfo comNo).ier &&& (255 ^^^ NS16550_IER_THR)))
              % 256]]
         else []) := by
  unfold TxctrlRequest
  split_ifs <;> simp [IoctrlSetIER, LibMkIoPortOutByte, State.send]

theorem TxctrlRequest_frame (s : State) (comNo : Nat) :
    (TxctrlRequest s comNo).gBuffer = s.gBuffer ∧
    (TxctrlRequest s comNo).gState = s.gState ∧
    (TxctrlRequest s comNo).gGlobalFD = s.gGlobalFD ∧
    (TxctrlRequest s comNo).gReady = s.gReady := by
  unfold TxctrlRequest
  split_ifs <;> simp [IoctrlSetIER, LibMkIoPortOutByte, State.send]

theorem DoTask32_reply_spec (s1 : State) (p : Param) (size : Nat) :
    (DoTask32_reply s1 p size).out =
      s1.out ++
        [ if size = p.size then
            Msg.VfsWriteResp p.globalFD LIBMVFS_RET_SUCCESS MVFS_READY_WRITE size
          else if size ≠ 0 then Msg.VfsWriteResp p.globalFD LIBMVFS_RET_SUCCESS 0 size
          else Msg.VfsWriteResp p.globalFD LIBMVFS_RET_FAILURE 0 0 ] ∧
    (DoTask32_reply s1 p size).gBuffer = s1.gBuffer ∧
    (DoTask32_reply s1 p size).gTxState = s1.gTxState ∧
    (DoTask32_reply s1 p size).gCtrlInfo = s1.gCtrlInfo := by
  unfold DoTask32_reply
  split_ifs <;> simp [SendVfsWriteResp, State.send, State.setReady]

end Filemng

/-! File manager: open, close and protocol violations -/

namespace Filemng
open NS16550 NS16550.BufmngId_t NS16550.LibMvfsRet_t Bufmng Txctrl Ioctrl

/-- C1: for either port in the OPENED state, every further VFS_OPEN on its configured
path, from any pid and with any gfd, appends exactly one OPEN/FAILURE reply and changes
nothing else of the driver state (so the state of the port, its recorded gfd, the rings
and the cached readiness mask are unchanged); this holds whatever the recorded gfd is.
When the recorded gfd is non-zero and recorded for that port only, VFS_CLOSE of the
recorded gfd is answered with exactly one CLOSE/SUCCESS reply and leaves the port CLOSED,
and the next VFS_OPEN on that path, from any pid and with any gfd, is answered with
exactly one OPEN/SUCCESS reply and leaves the port OPENED. -/
theorem double_open_rejected_until_close (s : State) (comNo : Nat)
    (hc : comNo = NS16550_COM1 ∨ comNo = NS16550_COM2)
    (hopen : s.gState comNo = STATE_OPENED) :
    (∀ pid gfd, DoVfsOpen s pid gfd (gpPath comNo) =
      { s with out := s.out ++ [Msg.VfsOpenResp gfd LIBMVFS_RET_FAILURE] }) ∧
    (s.gGlobalFD comNo ≠ 0 →
      (∀ c, c < NS16550_COM_NUM → c ≠ comNo → s.gGlobalFD c ≠ s.gGlobalFD comNo) →
      (DoVfsClose s (s.gGlobalFD comNo)).out =
        s.out ++ [Msg.VfsCloseResp (s.gGlobalFD comNo) LIBMVFS_RET_SUCCESS] ∧
      (DoVfsClose s (s.gGlobalFD comNo)).gState comNo = STATE_INIT ∧
      (∀ pid gfd,
        (DoVfsOpen (DoVfsClose s (s.gGlobalFD comNo)) pid gfd (gpPath comNo)).out =
          (DoVfsClose s (s.gGlobalFD comNo)).out ++
            [Msg.VfsOpenResp gfd LIBMVFS_RET_SUCCESS] ∧
        (DoVfsOpen (DoVfsClose s (s.gGlobalFD comNo)) pid gfd (gpPath comNo)).gState comNo =
          STATE_OPENED)) := by
  refine ⟨fun pid gfd => DoVfsOpen_opened s comNo pid gfd hc hopen, ?_⟩
  intro hnz honly
  have hnull : comNo ≠ NS16550_COM_NULL := by rcases hc with rfl | rfl <;> decide
  have hres := ConvertGlobalFD_only s comNo hc honly
  have hclose := DoVfsClose_opened s comNo _ hres hnull hopen
  have _ := hnz
  have hinit : (DoVfsClose s (s.gGlobalFD comNo)).gState comNo = STATE_INIT := by
    rw [hclose]; simp
  refine ⟨by rw [hclose], hinit, ?_⟩
  intro pid gfd
  rw [DoVfsOpen_init _ comNo pid gfd hc hinit]
  exact ⟨rfl, by simp⟩

/-- Witness for C1: COM2 is opened with descriptor 7 while COM1 is closed; a second open
of /serial2 is refused, the close of 7 succeeds and the re-open with descriptor 6
succeeds. -/
theorem double_open_rejected_until_close_witness :
    ((DoVfsOpen (bootState 16) 1 7 CONFIG_FILEPATH_SERIAL2).gState NS16550_COM2 = STATE_OPENED ∧
      (DoVfsOpen (bootState 16) 1 7 CONFIG_FILEPATH_SERIAL2).gGlobalFD NS16550_COM2 ≠ 0 ∧
      (∀ c, c < NS16550_COM_NUM → c ≠ NS16550_COM2 →
        (DoVfsOpen (bootState 16) 1 7 CONFIG_FILEPATH_SERIAL2).gGlobalFD c ≠
          (DoVfsOpen (bootState 16) 1 7 CONFIG_FILEPATH_SERIAL2).gGlobalFD NS16550_COM2)) ∧
    (DoVfsOpen (DoVfsOpen (bootState 16) 1 7 CONFIG_FILEPATH_SERIAL2) 2 6
        (gpPath NS16550_COM2)).out =
      (DoVfsOpen (bootState 16) 1 7 CONFIG_FILEPATH_SERIAL2).out ++
        [Msg.VfsOpenResp 6 LIBMVFS_RET_FAILURE] ∧
    (DoVfsOpen (DoVfsClose (DoVfsOpen (bootState 16) 1 7 CONFIG_FILEPATH_SERIAL2)
        ((DoVfsOpen (bootState 16) 1 7 CONFIG_FILEPATH_SERIAL2).gGlobalFD NS16550_COM2)) 2 6
        (gpPath NS16550_COM2)).out =
      (DoVfsClose (DoVfsOpen (bootState 16) 1 7 CONFIG_FILEPATH_SERIAL2)
        ((DoVfsOpen (bootState 16) 1 7 CONFIG_FILEPATH_SERIAL2).gGlobalFD NS16550_COM2)).out ++
        [Msg.VfsOpenResp 6 LIBMVFS_RET_SUCCESS] :=
  ⟨by decide,
   congrArg State.out
    ((double_open_rejected_until_close (DoVfsOpen (bootState 16) 1 7 CONFIG_FILEPATH_SERIAL2)
      NS16550_COM2 (Or.inr rfl) (by decide)).1 2 6),
   (((double_open_rejected_until_close (DoVfsOpen (bootState 16) 1 7 CONFIG_FILEPATH_SERIAL2)
      NS16550_COM2 (Or.inr rfl) (by decide)).2 (by decide) (by decide)).2.2 2 6).1⟩

/-- Why the descriptor has to be recorded for the port only: when both ports record the
same descriptor, VFS_CLOSE resolves to the first of them.  With COM1 and COM2 both opened
with descriptor 5, VFS_CLOSE of 5 is answered CLOSE/SUCCESS and closes COM1, so COM2
stays OPENED and the next VFS_OPEN on its path is answered OPEN/FAILURE. -/
theorem close_of_shared_gfd_leaves_port_opened :
    sharedFdState.gState NS16550_COM2 = STATE_OPENED ∧
    sharedFdState.gGlobalFD NS16550_COM2 = 5 ∧
    (DoVfsClose sharedFdState 5).out =
      sharedFdState.out ++ [Msg.VfsCloseResp 5 LIBMVFS_RET_SUCCESS] ∧
    (DoVfsOpen (DoVfsClose sharedFdState 5) 2 6 (gpPath NS16550_COM2)).out =
      (DoVfsClose sharedFdState 5).out ++ [Msg.VfsOpenResp 6 LIBMVFS_RET_FAILURE] := by
  decide

/-- C2: for a port in the CLOSED state, VFS_OPEN(pid, gfd, path) with the configured path
of that port records gfd as the descriptor of the port, empties its RX ring, sends
exactly one OPEN/SUCCESS reply keyed by gfd and moves the port to OPENED; state and
recorded gfd of every other port are unchanged. -/
theorem open_of_closed_port (s : State) (comNo pid gfd : Nat)
    (hc : comNo = NS16550_COM1 ∨ comNo = NS16550_COM2)
    (hclosed : s.gState comNo = STATE_INIT) :
    (DoVfsOpen s pid gfd (gpPath comNo)).gGlobalFD comNo = gfd ∧
    ((DoVfsOpen s pid gfd (gpPath comNo)).gBuffer comNo BUFMNG_ID_RX).data = [] ∧
    (DoVfsOpen s pid gfd (gpPath comNo)).out =
      s.out ++ [Msg.VfsOpenResp gfd LIBMVFS_RET_SUCCESS] ∧
    (DoVfsOpen s pid gfd (gpPath comNo)).gState comNo = STATE_OPENED ∧
    (∀ c, c ≠ comNo →
      (DoVfsOpen s pid gfd (gpPath comNo)).gState c = s.gState c ∧
      (DoVfsOpen s pid gfd (gpPath comNo)).gGlobalFD c = s.gGlobalFD c) := by
  rw [DoVfsOpen_init s comNo pid gfd hc hclosed]
  refine ⟨by simp, by simp, rfl, by simp, ?_⟩
  intro c hne
  simp [Function.update_noteq hne]

/-- Witness for C2: COM2 is closed after start-up and is opened with descriptor 9. -/
theorem open_of_closed_port_witness :
    (bootState 16).gState NS16550_COM2 = STATE_INIT ∧
    (DoVfsOpen (bootState 16) 7 9 (gpPath NS16550_COM2)).out =
      (bootState 16).out ++ [Msg.VfsOpenResp 9 LIBMVFS_RET_SUCCESS] ∧
    (DoVfsOpen (bootState 16) 7 9 (gpPath NS16550_COM2)).gState NS16550_COM2 = STATE_OPENED :=
  ⟨by decide,
   (open_of_closed_port (bootState 16) NS16550_COM2 7 9 (Or.inr rfl) (by decide)).2.2.1,
   (open_of_closed_port (bootState 16) NS16550_COM2 7 9 (Or.inr rfl) (by decide)).2.2.2.1⟩

/-- C3: for a port in the OPENED state whose recorded descriptor g is non-zero and
recorded for that port only, VFS_CLOSE(g) sends exactly one CLOSE/SUCCESS reply keyed by
g, sets the recorded gfd of the port to 0, resets its cached readiness mask to 0 and
moves the port to CLOSED; no ring is modified (in particular not the RX and TX rings of
the port) and the record of every other port (state, gfd, readiness mask) is
unchanged. -/
theorem close_of_opened_port (s : State) (comNo : Nat)
    (hc : comNo = NS16550_COM1 ∨ comNo = NS16550_COM2)
    (hopen : s.gState comNo = STATE_OPENED)
    (hnz : s.gGlobalFD comNo ≠ 0)
    (honly : ∀ c, c < NS16550_COM_NUM → c ≠ comNo → s.gGlobalFD c ≠ s.gGlobalFD comNo) :
    (DoVfsClose s (s.gGlobalFD comNo)).out =
      s.out ++ [Msg.VfsCloseResp (s.gGlobalFD comNo) LIBMVFS_RET_SUCCESS] ∧
    (DoVfsClose s (s.gGlobalFD comNo)).gGlobalFD comNo = 0 ∧
    (DoVfsClose s (s.gGlobalFD comNo)).gReady comNo = 0 ∧
    (DoVfsClose s (s.gGlobalFD comNo)).gState comNo = STATE_INIT ∧
    (DoVfsClose s (s.gGlobalFD comNo)).gBuffer = s.gBuffer ∧
    (∀ c, c ≠ comNo →
      (DoVfsClose s (s.gGlobalFD comNo)).gState c = s.gState c ∧
      (DoVfsClose s (s.gGlobalFD comNo)).gGlobalFD c = s.gGlobalFD c ∧
      (DoVfsClose s (s.gGlobalFD comNo)).gReady c = s.gReady c) := by
  have hnull : comNo ≠ NS16550_COM_NULL := by rcases hc with rfl | rfl <;> decide
  have hres := ConvertGlobalFD_only s comNo hc honly
  have _ := hnz
  rw [DoVfsClose_opened s comNo _ hres hnull hopen]
  refine ⟨rfl, by simp, by simp, by simp, rfl, ?_⟩
  intro c hne
  simp [Function.update_noteq hne]

/-- Witness for C3: COM1 opened with descriptor 5, RX ring 1,2 and TX ring 3. -/
theorem close_of_opened_port_witness :
    ((openedState 16 5 [1, 2] [3]).gState NS16550_COM1 = STATE_OPENED ∧
      (openedState 16 5 [1, 2] [3]).gGlobalFD NS16550_COM1 ≠ 0 ∧
      (∀ c, c < NS16550_COM_NUM → c ≠ NS16550_COM1 →
        (openedState 16 5 [1, 2] [3]).gGlobalFD c ≠
          (openedState 16 5 [1, 2] [3]).gGlobalFD NS16550_COM1)) ∧
    (DoVfsClose (openedState 16 5 [1, 2] [3])
        ((openedState 16 5 [1, 2] [3]).gGlobalFD NS16550_COM1)).gState NS16550_COM1 = STATE_INIT ∧
    (DoVfsClose (openedState 16 5 [1, 2] [3])
        ((openedState 16 5 [1, 2] [3]).gGlobalFD NS16550_COM1)).gBuffer =
      (openedState 16 5 [1, 2] [3]).gBuffer :=
  ⟨by decide,
   (close_of_opened_port (openedState 16 5 [1, 2] [3]) NS16550_COM1 (Or.inl rfl) (by decide)
      (by decide) (by decide)).2.2.2.1,
   (close_of_opened_port (openedState 16 5 [1, 2] [3]) NS16550_COM1 (Or.inl rfl) (by decide)
      (by decide) (by decide)).2.2.2.2.1⟩

/-- C4: a protocol-violating request (VFS_OPEN with a path different from both configured
paths; VFS_READ, VFS_WRITE or VFS_CLOSE whose descriptor equals no recorded gfd or
resolves to a port in the CLOSED state) appends exactly one FAILURE reply of the same
opcode keyed by the inbound descriptor, with readiness 0, no payload and size 0 where the
reply has those fields, and changes nothing else: state, recorded gfd, rings and cached
readiness mask of both ports stay as they were. -/
theorem protocol_violation_rejected (s : State) (r : Request) (hv : protocolViolation s r) :
    dispatch s r = { s with out := s.out ++ [failureReply r] } := by
  cases r with
  | VfsOpen pid gfd pPath =>
    obtain ⟨h1, h2⟩ := hv
    simp [dispatch, DoVfsOpen, failureReply, SendVfsOpenResp, State.send, Ne.symm h1, Ne.symm h2]
  | VfsRead gfd idx size mallocOk =>
    rcases hv with hv | hv
    · simp [dispatch, DoVfsRead, failureReply, SendVfsReadResp, State.send, hv]
    · by_cases hn : ConvertGlobalFD s gfd = NS16550_COM_NULL
      · simp [dispatch, DoVfsRead, failureReply, SendVfsReadResp, State.send, hn]
      · simp [dispatch, DoVfsRead, failureReply, SendVfsReadResp, State.send, hn,
          exec_no_transition s _ EVENT_VFSREAD _ hv (by decide)]
  | VfsWrite gfd idx pBuffer =>
    rcases hv with hv | hv
    · simp [dispatch, DoVfsWrite, failureReply, SendVfsWriteResp, State.send, hv]
    · by_cases hn : ConvertGlobalFD s gfd = NS16550_COM_NULL
      · simp [dispatch, DoVfsWrite, failureReply, SendVfsWriteResp, State.send, hn]
      · simp [dispatch, DoVfsWrite, failureReply, SendVfsWriteResp, State.send, hn,
          exec_no_transition s _ EVENT_VFSWRITE _ hv (by decide)]
  | VfsClose gfd =>
    rcases hv with hv | hv
    · simp [dispatch, DoVfsClose, failureReply, SendVfsCloseResp, State.send, hv]
    · by_cases hn : ConvertGlobalFD s gfd = NS16550_COM_NULL
      · simp [dispatch, DoVfsClose, failureReply, SendVfsCloseResp, State.send, hn]
      · simp [dispatch, DoVfsClose, failureReply, SendVfsCloseResp, State.send, hn,
          exec_no_transition s _ EVENT_VFSCLOSE _ hv (by decide)]

/-- Witness for C4: after start-up the descriptor 0 resolves to the closed COM1, so a
read on descriptor 0 is a protocol violation and is answered READ/FAILURE. -/
theorem protocol_violation_rejected_witness :
    protocolViolation (bootState 16) (Request.VfsRead 0 0 8 true) ∧
    dispatch (bootState 16) (Request.VfsRead 0 0 8 true) =
      { bootState 16 with
        out := (bootState 16).out ++ [Msg.VfsReadResp 0 LIBMVFS_RET_FAILURE 0 none 0] } :=
  ⟨Or.inr (by decide),
   protocol_violation_rejected (bootState 16) (Request.VfsRead 0 0 8 true) (Or.inr (by decide))⟩

end Filemng

/-! File manager: read and write -/

namespace Filemng
open NS16550 NS16550.BufmngId_t NS16550.LibMvfsRet_t Bufmng Txctrl Ioctrl

/-- C5 (short read): for an OPENED port whose RX ring holds k bytes b1..bk and a VFS_READ
of size N addressed to it with 0 < k < N, the allocation of the reply buffer succeeding,
the reply is READ/SUCCESS carrying exactly b1..bk in arrival order with size k and
readiness 0, the RX ring is empty afterwards, the READ bit of the cached mask is cleared
and the state stays OPENED. -/
theorem short_read (s : State) (comNo gfd idx N : Nat)
    (hres : ConvertGlobalFD s gfd = comNo)
    (hc : comNo = NS16550_COM1 ∨ comNo = NS16550_COM2)
    (hopen : s.gState comNo = STATE_OPENED)
    (hk : 0 < (s.gBuffer comNo BUFMNG_ID_RX).data.length)
    (hN : (s.gBuffer comNo BUFMNG_ID_RX).data.length < N) :
    (DoVfsRead s gfd idx N true).out =
      s.out ++ [Msg.VfsReadResp gfd LIBMVFS_RET_SUCCESS 0
        (some (s.gBuffer comNo BUFMNG_ID_RX).data) (s.gBuffer comNo BUFMNG_ID_RX).data.length] ∧
    ((DoVfsRead s gfd idx N true).gBuffer comNo BUFMNG_ID_RX).data = [] ∧
    (DoVfsRead s gfd idx N true).gReady comNo &&& MVFS_READY_READ = 0 ∧
    (DoVfsRead s gfd idx N true).gState comNo = STATE_OPENED := by
  obtain ⟨h1, h2, h3, h4⟩ := DoVfsRead_alloc s comNo gfd idx N hres hc hopen
  have ht : (s.gBuffer comNo BUFMNG_ID_RX).data.take N = (s.gBuffer comNo BUFMNG_ID_RX).data :=
    List.take_of_length_le (by omega)
  have hd : (s.gBuffer comNo BUFMNG_ID_RX).data.drop N = [] :=
    List.drop_of_length_le (by omega)
  rw [ht] at h1 h3
  have hne : ¬ (s.gBuffer comNo BUFMNG_ID_RX).data.length = N := by omega
  have hnz : (s.gBuffer comNo BUFMNG_ID_RX).data.length ≠ 0 := by omega
  rw [if_neg hne] at h1 h3
  rw [if_pos hnz] at h1
  refine ⟨h1, by rw [h2, hd], ?_, h4⟩
  rw [h3]
  exact clear_bit_land _ _ (by decide)

/-- Witness for C5: the RX ring holds 0x41, 0x42 and the client reads size 8. -/
theorem short_read_witness :
    ((0 < ((openedState 16 5 [0x41, 0x42] []).gBuffer NS16550_COM1 BUFMNG_ID_RX).data.length) ∧
     ((openedState 16 5 [0x41, 0x42] []).gBuffer NS16550_COM1 BUFMNG_ID_RX).data.length < 8) ∧
    (DoVfsRead (openedState 16 5 [0x41, 0x42] []) 5 0 8 true).out =
      (openedState 16 5 [0x41, 0x42] []).out ++
        [Msg.VfsReadResp 5 LIBMVFS_RET_SUCCESS 0
          (some ((openedState 16 5 [0x41, 0x42] []).gBuffer NS16550_COM1 BUFMNG_ID_RX).data)
          ((openedState 16 5 [0x41, 0x42] []).gBuffer NS16550_COM1 BUFMNG_ID_RX).data.length] :=
  ⟨by decide,
   (short_read (openedState 16 5 [0x41, 0x42] []) NS16550_COM1 5 0 8 (by decide) (Or.inl rfl)
      (by decide) (by decide) (by decide)).1⟩

/-- C6 (amended): for an OPENED port and every requested size N, the allocation
succeeding, VFS_READ removes the first min(N, RX ring size) bytes from the RX ring.  When
N = 0 or the RX ring is not empty the reply is READ/SUCCESS carrying exactly those bytes,
with their number as size (readiness READ when all N bytes were delivered, 0 otherwise);
when the RX ring is empty and N > 0 the reply is READ/FAILURE with readiness 0, no
payload and size 0. -/
theorem read_front_or_failure (s : State) (comNo gfd idx N : Nat)
    (hres : ConvertGlobalFD s gfd = comNo)
    (hc : comNo = NS16550_COM1 ∨ comNo = NS16550_COM2)
    (hopen : s.gState comNo = STATE_OPENED) :
    (DoVfsRead s gfd idx N true).out =
      s.out ++
        [ if N = 0 ∨ (s.gBuffer comNo BUFMNG_ID_RX).data ≠ [] then
            Msg.VfsReadResp gfd LIBMVFS_RET_SUCCESS
              (if N ≤ (s.gBuffer comNo BUFMNG_ID_RX).data.length then MVFS_READY_READ else 0)
              (some ((s.gBuffer comNo BUFMNG_ID_RX).data.take N))
              (min N (s.gBuffer comNo BUFMNG_ID_RX).data.length)
          else Msg.VfsReadResp gfd LIBMVFS_RET_FAILURE 0 none 0 ] ∧
    ((DoVfsRead s gfd idx N true).gBuffer comNo BUFMNG_ID_RX).data =
      (s.gBuffer comNo BUFMNG_ID_RX).data.drop N := by
  obtain ⟨h1, h2, _, _⟩ := DoVfsRead_alloc s comNo gfd idx N hres hc hopen
  refine ⟨?_, h2⟩
  rw [h1]
  congr 1
  simp only [List.length_take]
  by_cases hle : N ≤ (s.gBuffer comNo BUFMNG_ID_RX).data.length
  · have hm : min N (s.gBuffer comNo BUFMNG_ID_RX).data.length = N := by omega
    have hcond : N = 0 ∨ (s.gBuffer comNo BUFMNG_ID_RX).data ≠ [] := by
      by_cases h0 : N = 0
      · exact Or.inl h0
      · right; intro he; rw [he] at hle; simp at hle; exact h0 hle
    simp [hm, hle, hcond]
  · have hm : min N (s.gBuffer comNo BUFMNG_ID_RX).data.length
        = (s.gBuffer comNo BUFMNG_ID_RX).data.length := by omega
    have hne : ¬ (s.gBuffer comNo BUFMNG_ID_RX).data.length = N := by omega
    have h0 : ¬ N = 0 := by omega
    rw [hm]
    by_cases hnil : (s.gBuffer comNo BUFMNG_ID_RX).data = []
    · simp [hnil, h0, Ne.symm h0]
    · have hl : (s.gBuffer comNo BUFMNG_ID_RX).data.length ≠ 0 := by
        simpa [List.length_eq_zero] using hnil
      simp [hne, hl, hnil, hle]

/-- Witness for C6 (amended): the RX ring holds 1, 2, 3 and the client reads size 2. -/
theorem read_front_or_failure_witness :
    (openedState 16 5 [1, 2, 3] []).gState NS16550_COM1 = STATE_OPENED ∧
    ((DoVfsRead (openedState 16 5 [1, 2, 3] []) 5 0 2 true).gBuffer NS16550_COM1 BUFMNG_ID_RX).data
      = ((openedState 16 5 [1, 2, 3] []).gBuffer NS16550_COM1 BUFMNG_ID_RX).data.drop 2 :=
  ⟨by decide,
   (read_front_or_failure (openedState 16 5 [1, 2, 3] []) NS16550_COM1 5 0 2 (by decide)
      (Or.inl rfl) (by decide)).2⟩

/-- Counterexample to C6 as stated: COM1 is OPENED with an empty RX ring; a VFS_READ of
size 8 is answered READ/FAILURE without payload, not with a zero-byte READ/SUCCESS. -/
theorem read_of_empty_ring_is_failure :
    (openedState 16 5 [] []).gState NS16550_COM1 = STATE_OPENED ∧
    ((openedState 16 5 [] []).gBuffer NS16550_COM1 BUFMNG_ID_RX).data = [] ∧
    (DoVfsRead (openedState 16 5 [] []) 5 0 8 true).out =
      (openedState 16 5 [] []).out ++ [Msg.VfsReadResp 5 LIBMVFS_RET_FAILURE 0 none 0] := by
  decide

/-- C7 (amended): for an OPENED port and every VFS_WRITE of n bytes addressed to it, the
first min(n, room) bytes are pushed into the TX ring by the first step of the write task,
at a point where no reply has been sent yet, and the TX ring is not touched afterwards.
The one reply that follows is WRITE/SUCCESS whose size is the number of bytes pushed when
n = 0 or the TX ring has room (readiness WRITE when all n bytes were pushed, 0 on partial
progress); when the TX ring is full and n > 0 it is WRITE/FAILURE with readiness 0 and
size 0.  The only other output is the IER write of the transmit request when the
transmitter was stopped. -/
theorem write_pushes_then_replies (s : State) (comNo gfd idx : Nat) (pBuffer : List Nat)
    (hres : ConvertGlobalFD s gfd = comNo)
    (hc : comNo = NS16550_COM1 ∨ comNo = NS16550_COM2)
    (hopen : s.gState comNo = STATE_OPENED) :
    (DoTask32_push s ⟨comNo, 0, gfd, idx, pBuffer, pBuffer.length, true⟩).1.out = s.out ∧
    ((DoTask32_push s ⟨comNo, 0, gfd, idx, pBuffer, pBuffer.length, true⟩).1.gBuffer
        comNo BUFMNG_ID_TX).data =
      (s.gBuffer comNo BUFMNG_ID_TX).data ++
        pBuffer.take ((s.gBuffer comNo BUFMNG_ID_TX).capacity
          - (s.gBuffer comNo BUFMNG_ID_TX).data.length) ∧
    (DoVfsWrite s gfd idx pBuffer).gBuffer =
      (DoTask32_push s ⟨comNo, 0, gfd, idx, pBuffer, pBuffer.length, true⟩).1.gBuffer ∧
    (DoVfsWrite s gfd idx pBuffer).out =
      s.out ++
        ((if pBuffer = [] ∨ (s.gBuffer comNo BUFMNG_ID_TX).data.length
              < (s.gBuffer comNo BUFMNG_ID_TX).capacity then
            Msg.VfsWriteResp gfd LIBMVFS_RET_SUCCESS
              (if pBuffer.length ≤ (s.gBuffer comNo BUFMNG_ID_TX).capacity
                  - (s.gBuffer comNo BUFMNG_ID_TX).data.length then MVFS_READY_WRITE else 0)
              (min pBuffer.length ((s.gBuffer comNo BUFMNG_ID_TX).capacity
                  - (s.gBuffer comNo BUFMNG_ID_TX).data.length))
          else Msg.VfsWriteResp gfd LIBMVFS_RET_FAILURE 0 0) ::
         (if s.gTxState = TXSTATE_STOPED then
            [Msg.IoPortOut (gIoBase comNo + NS16550_IER)
              [(NS16550_IER_THR_ENABLE |||
                ((s.gCtrlInfo comNo).ier &&& (255 ^^^ NS16550_IER_THR))) % 256]]
          else [])) ∧
    (DoVfsWrite s gfd idx pBuffer).gState comNo = STATE_OPENED := by
  have hnull : comNo ≠ NS16550_COM_NULL := by rcases hc with rfl | rfl <;> decide
  rw [DoVfsWrite_opened s comNo gfd idx pBuffer hres hnull hopen]
  obtain ⟨r1, r2, r3, r4⟩ := DoTask32_reply_spec
    (DoTask32_push s ⟨comNo, 0, gfd, idx, pBuffer, pBuffer.length, true⟩).1
    ⟨comNo, 0, gfd, idx, pBuffer, pBuffer.length, true⟩
    (DoTask32_push s ⟨comNo, 0, gfd, idx, pBuffer, pBuffer.length, true⟩).2
  have hp : DoTask32_push s ⟨comNo, 0, gfd, idx, pBuffer, pBuffer.length, true⟩ = _ :=
    BufmngWrite_TX_eq s comNo pBuffer
  refine ⟨by rw [hp]; rfl, by rw [hp]; simp [State.setBuffer], ?_, ?_, by simp⟩
  · simp only [DoTask32]
    rw [(TxctrlRequest_frame _ comNo).1, r2]
  · simp only [DoTask32]
    rw [TxctrlRequest_out, r1, r3, r4]
    have e1 : (DoTask32_push s ⟨comNo, 0, gfd, idx, pBuffer, pBuffer.length, true⟩).1.out = s.out := by
      rw [hp]; rfl
    have e2 : (DoTask32_push s ⟨comNo, 0, gfd, idx, pBuffer, pBuffer.length, true⟩).1.gTxState
        = s.gTxState := by rw [hp]; rfl
    have e3 : (DoTask32_push s ⟨comNo, 0, gfd, idx, pBuffer, pBuffer.length, true⟩).1.gCtrlInfo
        = s.gCtrlInfo := by rw [hp]; rfl
    have e4 : (DoTask32_push s ⟨comNo, 0, gfd, idx, pBuffer, pBuffer.length, true⟩).2
        = min pBuffer.length ((s.gBuffer comNo BUFMNG_ID_TX).capacity
            - (s.gBuffer comNo BUFMNG_ID_TX).data.length) := by rw [hp]
    rw [e1, e2, e3, e4, List.append_assoc, List.singleton_append]
    congr 2
    by_cases hle : pBuffer.length ≤ (s.gBuffer comNo BUFMNG_ID_TX).capacity
        - (s.gBuffer comNo BUFMNG_ID_TX).data.length
    · have hm : min pBuffer.length ((s.gBuffer comNo BUFMNG_ID_TX).capacity
          - (s.gBuffer comNo BUFMNG_ID_TX).data.length) = pBuffer.length := by omega
      have hcond : pBuffer = [] ∨ (s.gBuffer comNo BUFMNG_ID_TX).data.length
          < (s.gBuffer comNo BUFMNG_ID_TX).capacity := by
        cases pBuffer with
        | nil => exact Or.inl rfl
        | cons a t => right; simp at hle; omega
      simp [hm, hle, hcond]
    · have hm : min pBuffer.length ((s.gBuffer comNo BUFMNG_ID_TX).capacity
          - (s.gBuffer comNo BUFMNG_ID_TX).data.length) = (s.gBuffer comNo BUFMNG_ID_TX).capacity
          - (s.gBuffer comNo BUFMNG_ID_TX).data.length := by omega
      have hne : ¬ (s.gBuffer comNo BUFMNG_ID_TX).capacity
          - (s.gBuffer comNo BUFMNG_ID_TX).data.length = pBuffer.length := by omega
      have hnil : pBuffer ≠ [] := by
        intro he; rw [he] at hle; simp at hle
      rw [hm]
      by_cases hfull : (s.gBuffer comNo BUFMNG_ID_TX).data.length
          < (s.gBuffer comNo BUFMNG_ID_TX).capacity
      · have : (s.gBuffer comNo BUFMNG_ID_TX).capacity
          - (s.gBuffer comNo BUFMNG_ID_TX).data.length ≠ 0 := by omega
        simp [hne, hle, hfull, this]
      · have : (s.gBuffer comNo BUFMNG_ID_TX).capacity
          - (s.gBuffer comNo BUFMNG_ID_TX).data.length = 0 := by omega
        simp [hne, hfull, this, hnil, Ne.symm (List.length_pos.2 hnil).ne']

/-- Witness for C7 (amended): the TX ring of capacity 4 holds 1, 2, 3 and the client
writes 8, 9. -/
theorem write_pushes_then_replies_witness :
    (openedState 4 5 [] [1, 2, 3]).gState NS16550_COM1 = STATE_OPENED ∧
    ((DoTask32_push (openedState 4 5 [] [1, 2, 3])
        ⟨NS16550_COM1, 0, 5, 0, [8, 9], [8, 9].length, true⟩).1.gBuffer
          NS16550_COM1 BUFMNG_ID_TX).data =
      ((openedState 4 5 [] [1, 2, 3]).gBuffer NS16550_COM1 BUFMNG_ID_TX).data ++
        [8, 9].take (((openedState 4 5 [] [1, 2, 3]).gBuffer NS16550_COM1 BUFMNG_ID_TX).capacity
          - ((openedState 4 5 [] [1, 2, 3]).gBuffer NS16550_COM1 BUFMNG_ID_TX).data.length) :=
  ⟨by decide,
   (write_pushes_then_replies (openedState 4 5 [] [1, 2, 3]) NS16550_COM1 5 0 [8, 9] (by decide)
      (Or.inl rfl) (by decide)).2.1⟩

/-- Counterexample to C7 as stated: COM1 is OPENED and its TX ring of capacity 4 is full;
a VFS_WRITE of one byte is answered WRITE/FAILURE with size 0, not WRITE/SUCCESS, and the
ring is unchanged. -/
theorem write_to_full_ring_is_failure :
    (openedState 4 5 [] [1, 2, 3, 4]).gState NS16550_COM1 = STATE_OPENED ∧
    (DoVfsWrite (openedState 4 5 [] [1, 2, 3, 4]) 5 0 [9]).out =
      (openedState 4 5 [] [1, 2, 3, 4]).out ++ [Msg.VfsWriteResp 5 LIBMVFS_RET_FAILURE 0 0] ∧
    ((DoVfsWrite (openedState 4 5 [] [1, 2, 3, 4]) 5 0 [9]).gBuffer NS16550_COM1 BUFMNG_ID_TX).data
      = [1, 2, 3, 4] := by
  decide

end Filemng

/-! Bufmng.c: reject-on-full transmit ring -/

namespace Bufmng
open NS16550 NS16550.BufmngId_t

/-- C8 (reject law): BufmngWrite on the TX ring of a port with room r (capacity minus
current size) and n input bytes returns min(n, r) and leaves in the ring the bytes
already queued, unaltered and in front, followed by exactly the first min(n, r) input
bytes in order; the capacity is unchanged.  Hence it returns 0 on a full ring and n
whenever n is at most r. -/
theorem tx_reject_law (s : State) (comNo : Nat) (pData : List Nat) :
    (BufmngWrite s comNo BUFMNG_ID_TX pData).2 =
      min pData.length ((s.gBuffer comNo BUFMNG_ID_TX).capacity
        - (s.gBuffer comNo BUFMNG_ID_TX).data.length) ∧
    ((BufmngWrite s comNo BUFMNG_ID_TX pData).1.gBuffer comNo BUFMNG_ID_TX).data =
      (s.gBuffer comNo BUFMNG_ID_TX).data ++
        pData.take (min pData.length ((s.gBuffer comNo BUFMNG_ID_TX).capacity
          - (s.gBuffer comNo BUFMNG_ID_TX).data.length)) ∧
    ((BufmngWrite s comNo BUFMNG_ID_TX pData).1.gBuffer comNo BUFMNG_ID_TX).capacity =
      (s.gBuffer comNo BUFMNG_ID_TX).capacity := by
  rw [BufmngWrite_TX_eq]
  refine ⟨rfl, ?_, by simp [State.setBuffer]⟩
  simp only [State.setBuffer, Function.update_same]
  congr 1
  rw [List.take_eq_take]
  simp
  omega

end Bufmng

/-! Buffer.c: round trip and overwrite law -/

namespace Buffer

/-- C9 (amended): after N > BUFFER_SIZE - 1 pushes of a byte sequence s with BufferWrite
into an initially empty ring (read and write position equal, anywhere in the buffer),
draining the ring with BufferRead until it reports empty yields exactly the last
BUFFER_SIZE - 1 = 4095 bytes of s, in order: one cell of the 4096-byte buffer is never
readable.  Any fuel of at least 4095 lets the drain loop reach the empty report.  For a
ring of buffer size 4 and pushes 1,2,3,4,5,6 the drain yields 4,5,6. -/
theorem overwrite_keeps_last_bytes (p : Nat) (m : Nat → Nat) (s : List Nat) (fuel : Nat)
    (hp : p < BUFFER_SIZE) (hN : BUFFER_SIZE - 1 < s.length) (hf : BUFFER_SIZE - 1 ≤ fuel) :
    (drain BUFFER_SIZE fuel (writeAll BUFFER_SIZE ⟨m, p, p⟩ s)).2
        = s.drop (s.length - (BUFFER_SIZE - 1)) ∧
    (drain BUFFER_SIZE fuel (writeAll BUFFER_SIZE ⟨m, p, p⟩ s)).2.length = 4095 ∧
    BufferRead BUFFER_SIZE (drain BUFFER_SIZE fuel (writeAll BUFFER_SIZE ⟨m, p, p⟩ s)).1
        = ((drain BUFFER_SIZE fuel (writeAll BUFFER_SIZE ⟨m, p, p⟩ s)).1, none) ∧
    (drain 4 6 (writeAll 4 ⟨fun _ => 0, 0, 0⟩ [1, 2, 3, 4, 5, 6])).2 = [4, 5, 6] := by
  have hwf : WF BUFFER_SIZE ⟨m, p, p⟩ := ⟨hp, hp⟩
  obtain ⟨w1, w2⟩ := writeAll_spec BUFFER_SIZE BUFFER_SIZE_lt s _ hwf
  rw [contents_empty, List.nil_append] at w2
  have hsz : BUFFER_SIZE = 4096 := rfl
  have hc : count BUFFER_SIZE (writeAll BUFFER_SIZE ⟨m, p, p⟩ s) ≤ fuel := by
    have := count_lt BUFFER_SIZE _ w1
    omega
  obtain ⟨d1, d2⟩ := drain_spec BUFFER_SIZE BUFFER_SIZE_lt fuel _ w1 hc
  refine ⟨by rw [d1, w2]; rfl, ?_, d2, by decide⟩
  rw [d1, w2]; unfold lastN; simp only [List.length_drop]; omega

/-- Witness for C9 (amended): 4096 pushes of the byte 7 into the zero-initialised ring. -/
theorem overwrite_keeps_last_bytes_witness :
    (0 < BUFFER_SIZE ∧ BUFFER_SIZE - 1 < (List.replicate 4096 7).length ∧
      BUFFER_SIZE - 1 ≤ 4095) ∧
    (drain BUFFER_SIZE 4095
      (writeAll BUFFER_SIZE ⟨fun _ => 0, 0, 0⟩ (List.replicate 4096 7))).2.length = 4095 :=
  ⟨⟨by decide, by rw [List.length_replicate]; decide, by decide⟩,
   (overwrite_keeps_last_bytes 0 (fun _ => 0) (List.replicate 4096 7) 4095 (by decide)
      (by rw [List.length_replicate]; decide) (by decide)).2.1⟩

/-- Counterexample to C9 as stated: after the 4097 pushes 0,1,..,4096 into the
zero-initialised ring of BUFFER_SIZE 4096 the drain does not yield the last 4096 bytes of
the sequence (it yields 4095 bytes), and for a buffer of size 4 and pushes 1,2,3,4,5,6
the drain yields 4,5,6, not 3,4,5,6. -/
theorem overwrite_law_with_full_capacity_fails :
    (drain BUFFER_SIZE 4097 (writeAll BUFFER_SIZE ⟨fun _ => 0, 0, 0⟩ (List.range 4097))).2
        ≠ (List.range 4097).drop (4097 - BUFFER_SIZE) ∧
    (drain 4 6 (writeAll 4 ⟨fun _ => 0, 0, 0⟩ [1, 2, 3, 4, 5, 6])).2 = [4, 5, 6] ∧
    (drain 4 6 (writeAll 4 ⟨fun _ => 0, 0, 0⟩ [1, 2, 3, 4, 5, 6])).2 ≠ [3, 4, 5, 6] := by
  refine ⟨?_, by decide, by decide⟩
  intro h
  have hwf : WF BUFFER_SIZE ⟨fun _ => 0, 0, 0⟩ := ⟨by decide, by decide⟩
  obtain ⟨w1, _⟩ := writeAll_spec BUFFER_SIZE BUFFER_SIZE_lt (List.range 4097) _ hwf
  have hsz : BUFFER_SIZE = 4096 := rfl
  have hlt := count_lt BUFFER_SIZE _ w1
  have hc : count BUFFER_SIZE (writeAll BUFFER_SIZE ⟨fun _ => 0, 0, 0⟩ (List.range 4097))
      ≤ 4097 := by omega
  obtain ⟨d1, _⟩ := drain_spec BUFFER_SIZE BUFFER_SIZE_lt 4097 _ w1 hc
  have hl := congrArg List.length h
  rw [d1, contents_length] at hl
  simp only [List.length_drop, List.length_range] at hl
  omega

/-- C10 (write-then-drain round trip): starting from any empty ring state, readIdx =
writeIdx = p for any p < BUFFER_SIZE (so including positions where the indices wrap) and
any buffer contents, writing k <= BUFFER_SIZE - 1 bytes with BufferWrite and then calling
BufferRead k times returns exactly those k bytes in the order written, each call
returning true (a result some b), and a (k+1)-th BufferRead returns false (the result
none) and leaves the ring unchanged. -/
theorem write_then_drain_roundtrip (p : Nat) (m : Nat → Nat) (s : List Nat)
    (hp : p < BUFFER_SIZE) (hk : s.length ≤ BUFFER_SIZE - 1) :
    (readTimes BUFFER_SIZE s.length (writeAll BUFFER_SIZE ⟨m, p, p⟩ s)).2 = s.map some ∧
    BufferRead BUFFER_SIZE (readTimes BUFFER_SIZE s.length (writeAll BUFFER_SIZE ⟨m, p, p⟩ s)).1
      = ((readTimes BUFFER_SIZE s.length (writeAll BUFFER_SIZE ⟨m, p, p⟩ s)).1, none) := by
  have hwf : WF BUFFER_SIZE ⟨m, p, p⟩ := ⟨hp, hp⟩
  obtain ⟨w1, w2⟩ := writeAll_spec BUFFER_SIZE BUFFER_SIZE_lt s _ hwf
  rw [contents_empty, List.nil_append, lastN_of_le _ _ hk] at w2
  have hc : s.length ≤ count BUFFER_SIZE (writeAll BUFFER_SIZE ⟨m, p, p⟩ s) := by
    rw [← contents_length, w2]
  obtain ⟨r1, r2, r3⟩ := readTimes_spec BUFFER_SIZE BUFFER_SIZE_lt s.length _ w1 hc
  rw [w2] at r1 r3
  refine ⟨by simpa using r1, ?_⟩
  apply BufferRead_empty
  apply (contents_nil_iff BUFFER_SIZE _ r2).1
  simpa using r3

/-- Witness for C10: three bytes written at the last cell of the buffer, so that both
positions wrap around. -/
theorem write_then_drain_roundtrip_witness :
    (4095 < BUFFER_SIZE ∧ [10, 20, 30].length ≤ BUFFER_SIZE - 1) ∧
    (readTimes BUFFER_SIZE [10, 20, 30].length
      (writeAll BUFFER_SIZE ⟨fun _ => 0, 4095, 4095⟩ [10, 20, 30])).2 =
        [10, 20, 30].map some :=
  ⟨by decide,
   (write_then_drain_roundtrip 4095 (fun _ => 0) [10, 20, 30] (by decide) (by decide)).1⟩

end Buffer

/-! Readiness notices, register setters and the transmit controller -/

namespace NS16550

theorem land_lor_absorb (x y : Nat) : (x &&& y) ||| y = y := by
  apply Nat.eq_of_testBit_eq
  intro i
  rw [Nat.testBit_or, Nat.testBit_and]
  cases x.testBit i <;> cases y.testBit i <;> rfl

theorem lor_land_self (g b : Nat) : (g ||| b) &&& b = b := by
  rw [Nat.and_distrib_right, Nat.and_self, land_lor_absorb]

theorem lor_land_other (g b c : Nat) (h : b &&& c = 0) : (g ||| b) &&& c = g &&& c := by
  rw [Nat.and_distrib_right, h, Nat.or_zero]

theorem clear_land_other (g b c : Nat) (h : (4294967295 ^^^ b) &&& c = c) :
    (g &&& (4294967295 ^^^ b)) &&& c = g &&& c := by
  rw [Nat.land_assoc, h]

theorem byte_lor_mod (v x m : Nat) (hv : v < 256) (hx : x < 256) :
    (v ||| (x &&& (255 ^^^ m))) % 256 = v ||| (x &&& (255 ^^^ m)) := by
  apply Nat.mod_eq_of_lt
  have h1 : x &&& (255 ^^^ m) < 2 ^ 8 := Nat.lt_of_le_of_lt Nat.and_le_left hx
  exact Nat.or_lt_two_pow (n := 8) hv h1

end NS16550

namespace Filemng
open NS16550 NS16550.BufmngId_t NS16550.LibMvfsRet_t Bufmng Txctrl Ioctrl

theorem FilemngUpdateReadyRead_eq (s : State) (comNo : Nat) :
    FilemngUpdateReadyRead s comNo =
      if s.gReady comNo &&& MVFS_READY_READ = 0 then
        { s with
          gReady := Function.update s.gReady comNo (s.gReady comNo ||| MVFS_READY_READ)
          out := s.out ++ [Msg.VfsReadyNtc (gpPath comNo) (s.gReady comNo ||| MVFS_READY_READ)] }
      else s := by
  unfold FilemngUpdateReadyRead
  split_ifs <;> simp [State.setReady, SendVfsReadyNtc, State.send]

theorem FilemngUpdateReadyWrite_eq (s : State) (comNo : Nat) :
    FilemngUpdateReadyWrite s comNo =
      if s.gReady comNo &&& MVFS_READY_WRITE = 0 then
        { s with
          gReady := Function.update s.gReady comNo (s.gReady comNo ||| MVFS_READY_WRITE)
          out := s.out ++ [Msg.VfsReadyNtc (gpPath comNo) (s.gReady comNo ||| MVFS_READY_WRITE)] }
      else s := by
  unfold FilemngUpdateReadyWrite
  split_ifs <;> simp [State.setReady, SendVfsReadyNtc, State.send]

theorem FilemngUpdateReadyRead_bit (s : State) (comNo : Nat) :
    (FilemngUpdateReadyRead s comNo).gReady comNo &&& MVFS_READY_READ ≠ 0 := by
  rw [FilemngUpdateReadyRead_eq]
  split_ifs with h
  · simp only [Function.update_same]
    rw [lor_land_self]; decide
  · exact h

theorem FilemngUpdateReadyWrite_bit (s : State) (comNo : Nat) :
    (FilemngUpdateReadyWrite s comNo).gReady comNo &&& MVFS_READY_WRITE ≠ 0 := by
  rw [FilemngUpdateReadyWrite_eq]
  split_ifs with h
  · simp only [Function.update_same]
    rw [lor_land_self]; decide
  · exact h

/-- C11: FilemngUpdateReadyRead(port) sends a VfsReady notice, carrying the path of the
port and the updated mask, if and only if the READ bit of the cached readiness mask of
the port was 0 before the call; afterwards the READ bit is set and the WRITE bit is
unchanged, and a second consecutive call sends nothing, so two consecutive calls send at
most one notice.  The same holds for FilemngUpdateReadyWrite with the roles of READ and
WRITE exchanged. -/
theorem ready_notice_iff_bit_was_clear (s : State) (comNo : Nat) :
    ((FilemngUpdateReadyRead s comNo).out =
        s.out ++ (if s.gReady comNo &&& MVFS_READY_READ = 0 then
          [Msg.VfsReadyNtc (gpPath comNo) ((FilemngUpdateReadyRead s comNo).gReady comNo)]
          else []) ∧
      (FilemngUpdateReadyRead s comNo).gReady comNo &&& MVFS_READY_READ ≠ 0 ∧
      (FilemngUpdateReadyRead s comNo).gReady comNo &&& MVFS_READY_WRITE =
        s.gReady comNo &&& MVFS_READY_WRITE ∧
      (FilemngUpdateReadyRead (FilemngUpdateReadyRead s comNo) comNo).out =
        (FilemngUpdateReadyRead s comNo).out) ∧
    ((FilemngUpdateReadyWrite s comNo).out =
        s.out ++ (if s.gReady comNo &&& MVFS_READY_WRITE = 0 then
          [Msg.VfsReadyNtc (gpPath comNo) ((FilemngUpdateReadyWrite s comNo).gReady comNo)]
          else []) ∧
      (FilemngUpdateReadyWrite s comNo).gReady comNo &&& MVFS_READY_WRITE ≠ 0 ∧
      (FilemngUpdateReadyWrite s comNo).gReady comNo &&& MVFS_READY_READ =
        s.gReady comNo &&& MVFS_READY_READ ∧
      (FilemngUpdateReadyWrite (FilemngUpdateReadyWrite s comNo) comNo).out =
        (FilemngUpdateReadyWrite s comNo).out) := by
  refine ⟨⟨?_, FilemngUpdateReadyRead_bit s comNo, ?_, ?_⟩,
          ⟨?_, FilemngUpdateReadyWrite_bit s comNo, ?_, ?_⟩⟩
  · rw [FilemngUpdateReadyRead_eq]; split_ifs <;> simp
  · rw [FilemngUpdateReadyRead_eq]; split_ifs
    · simp only [Function.update_same]
      exact lor_land_other _ _ _ (by decide)
    · rfl
  · have hb := FilemngUpdateReadyRead_bit s comNo
    rw [FilemngUpdateReadyRead_eq (FilemngUpdateReadyRead s comNo), if_neg hb]
  · rw [FilemngUpdateReadyWrite_eq]; split_ifs <;> simp
  · rw [FilemngUpdateReadyWrite_eq]; split_ifs
    · simp only [Function.update_same]
      exact lor_land_other _ _ _ (by decide)
    · rfl
  · have hb := FilemngUpdateReadyWrite_bit s comNo
    rw [FilemngUpdateReadyWrite_eq (FilemngUpdateReadyWrite s comNo), if_neg hb]

end Filemng

namespace Ioctrl
open NS16550

theorem IoctrlSetIER_eq (s : State) (comNo mask value : Nat) :
    IoctrlSetIER s comNo mask value =
      { s with
        gCtrlInfo := Function.update s.gCtrlInfo comNo
          { s.gCtrlInfo comNo with
            ier := (value ||| ((s.gCtrlInfo comNo).ier &&& (255 ^^^ mask))) % 256 }
        out := s.out ++ [Msg.IoPortOut (gIoBase comNo + NS16550_IER)
          [(value ||| ((s.gCtrlInfo comNo).ier &&& (255 ^^^ mask))) % 256]] } := by
  simp [IoctrlSetIER, LibMkIoPortOutByte, State.send]

theorem IoctrlSetLCR_eq (s : State) (comNo mask value : Nat) :
    IoctrlSetLCR s comNo mask value =
      { s with
        gCtrlInfo := Function.update s.gCtrlInfo comNo
          { s.gCtrlInfo comNo with
            lcr := (value ||| ((s.gCtrlInfo comNo).lcr &&& (255 ^^^ mask))) % 256 }
        out := s.out ++ [Msg.IoPortOut (gIoBase comNo + NS16550_LCR)
          [(value ||| ((s.gCtrlInfo comNo).lcr &&& (255 ^^^ mask))) % 256]] } := by
  simp [IoctrlSetLCR, LibMkIoPortOutByte, State.send, State.setCtrlInfo]

theorem IoctrlSetMCR_eq (s : State) (comNo mask value : Nat) :
    IoctrlSetMCR s comNo mask value =
      { s with
        gCtrlInfo := Function.update s.gCtrlInfo comNo
          { s.gCtrlInfo comNo with
            mcr := (value ||| ((s.gCtrlInfo comNo).mcr &&& (255 ^^^ mask))) % 256 }
        out := s.out ++ [Msg.IoPortOut (gIoBase comNo + NS16550_MCR)
          [(value ||| ((s.gCtrlInfo comNo).mcr &&& (255 ^^^ mask))) % 256]] } := by
  simp [IoctrlSetMCR, LibMkIoPortOutByte, State.send, State.setCtrlInfo]

theorem masked_value_form (x m v : Nat) (h : v &&& m = v) :
    v ||| (x &&& (255 ^^^ m)) = (x &&& (255 ^^^ m)) ||| (v &&& m) := by
  rw [h, Nat.or_comm]

/-- C18 (amended): for each of IoctrlSetIER, IoctrlSetLCR and IoctrlSetMCR and for every
prior 8-bit shadow value s and 8-bit value v, and every mask m, the new shadow of that
register is v | (s & ~m): the value is not masked.  Exactly that byte is written to the
I/O port of the register (port base + register offset), and the shadows of the other
registers and of the other port are unchanged.  When v has no bit outside m (v & m = v)
the new shadow equals (s & ~m) | (v & m). -/
theorem shadow_setters_merge_unmasked_value (s : State) (comNo m v : Nat)
    (hv : v < 256)
    (hier : (s.gCtrlInfo comNo).ier < 256)
    (hlcr : (s.gCtrlInfo comNo).lcr < 256)
    (hmcr : (s.gCtrlInfo comNo).mcr < 256) :
    IoctrlSetIER s comNo m v =
      { s with
        gCtrlInfo := Function.update s.gCtrlInfo comNo
          { s.gCtrlInfo comNo with ier := v ||| ((s.gCtrlInfo comNo).ier &&& (255 ^^^ m)) }
        out := s.out ++ [Msg.IoPortOut (gIoBase comNo + NS16550_IER)
          [v ||| ((s.gCtrlInfo comNo).ier &&& (255 ^^^ m))]] } ∧
    IoctrlSetLCR s comNo m v =
      { s with
        gCtrlInfo := Function.update s.gCtrlInfo comNo
          { s.gCtrlInfo comNo with lcr := v ||| ((s.gCtrlInfo comNo).lcr &&& (255 ^^^ m)) }
        out := s.out ++ [Msg.IoPortOut (gIoBase comNo + NS16550_LCR)
          [v ||| ((s.gCtrlInfo comNo).lcr &&& (255 ^^^ m))]] } ∧
    IoctrlSetMCR s comNo m v =
      { s with
        gCtrlInfo := Function.update s.gCtrlInfo comNo
          { s.gCtrlInfo comNo with mcr := v ||| ((s.gCtrlInfo comNo).mcr &&& (255 ^^^ m)) }
        out := s.out ++ [Msg.IoPortOut (gIoBase comNo + NS16550_MCR)
          [v ||| ((s.gCtrlInfo comNo).mcr &&& (255 ^^^ m))]] } ∧
    (v &&& m = v →
      v ||| ((s.gCtrlInfo comNo).ier &&& (255 ^^^ m)) =
        ((s.gCtrlInfo comNo).ier &&& (255 ^^^ m)) ||| (v &&& m) ∧
      v ||| ((s.gCtrlInfo comNo).lcr &&& (255 ^^^ m)) =
        ((s.gCtrlInfo comNo).lcr &&& (255 ^^^ m)) ||| (v &&& m) ∧
      v ||| ((s.gCtrlInfo comNo).mcr &&& (255 ^^^ m)) =
        ((s.gCtrlInfo comNo).mcr &&& (255 ^^^ m)) ||| (v &&& m)) := by
  refine ⟨?_, ?_, ?_, fun h => ⟨masked_value_form _ _ _ h, masked_value_form _ _ _ h,
    masked_value_form _ _ _ h⟩⟩
  · rw [IoctrlSetIER_eq, byte_lor_mod v _ m hv hier]
  · rw [IoctrlSetLCR_eq, byte_lor_mod v _ m hv hlcr]
  · rw [IoctrlSetMCR_eq, byte_lor_mod v _ m hv hmcr]

/-- Witness for C18 (amended): the IER shadow of COM1 is 0x0F after the interrupt
initialisation; the THR bit is cleared with mask 0x02 and value 0x00. -/
theorem shadow_setters_merge_unmasked_value_witness :
    ((0 : Nat) < 256 ∧
      ((Intmng.StartThread_init (IoctrlInit (Filemng.bootState 16))).gCtrlInfo NS16550_COM1).ier
        < 256) ∧
    ((IoctrlSetIER (Intmng.StartThread_init (IoctrlInit (Filemng.bootState 16)))
        NS16550_COM1 0x02 0).gCtrlInfo NS16550_COM1).ier = 0x0D :=
  ⟨by decide,
   by
    rw [(shadow_setters_merge_unmasked_value
      (Intmng.StartThread_init (IoctrlInit (Filemng.bootState 16))) NS16550_COM1 0x02 0
      (by decide) (by decide) (by decide) (by decide)).1]
    decide⟩

/-- Counterexample to C18 as stated: with the IER shadow of COM1 at 0, mask 0x02 and
value 0x03, IoctrlSetIER stores and writes 0x03, whereas (s & ~m) | (v & m) is 0x02. -/
theorem setter_keeps_value_bits_outside_mask :
    ((Filemng.bootState 16).gCtrlInfo NS16550_COM1).ier = 0 ∧
    ((IoctrlSetIER (Filemng.bootState 16) NS16550_COM1 0x02 0x03).gCtrlInfo NS16550_COM1).ier
      = 0x03 ∧
    (IoctrlSetIER (Filemng.bootState 16) NS16550_COM1 0x02 0x03).out =
      (Filemng.bootState 16).out ++ [Msg.IoPortOut (0x03F8 + 1) [0x03]] ∧
    ((0 &&& (255 ^^^ 0x02)) ||| (0x03 &&& 0x02) : Nat) = 0x02 := by
  decide

end Ioctrl

namespace Txctrl
open NS16550 NS16550.BufmngId_t Bufmng Ioctrl Filemng

set_option maxRecDepth 100000 in
theorem thr_disable_byte : ∀ x, x < 256 →
    (NS16550_IER_THR_DISABLE ||| (x &&& (255 ^^^ NS16550_IER_THR))) % 256
        = x &&& (255 ^^^ NS16550_IER_THR) ∧
    (x &&& (255 ^^^ NS16550_IER_THR)) &&& NS16550_IER_THR = 0 ∧
    (x &&& (255 ^^^ NS16550_IER_THR)) &&& (255 ^^^ NS16550_IER_THR)
        = x &&& (255 ^^^ NS16550_IER_THR) := by
  decide

set_option maxRecDepth 100000 in
theorem thr_enable_byte : ∀ x, x < 256 →
    (NS16550_IER_THR_ENABLE ||| (x &&& (255 ^^^ NS16550_IER_THR))) % 256
        = x ||| NS16550_IER_THR ∧
    (x ||| NS16550_IER_THR) &&& NS16550_IER_THR = NS16550_IER_THR ∧
    (x ||| NS16550_IER_THR) &&& (255 ^^^ NS16550_IER_THR)
        = x &&& (255 ^^^ NS16550_IER_THR) := by
  decide

/-- The state of TxctrlDo before the final readiness update, when the ring holds data. -/
theorem TxctrlDo_nonempty (s : State) (comNo : Nat)
    (h : (s.gBuffer comNo BUFMNG_ID_TX).data ≠ []) :
    TxctrlDo s comNo =
      FilemngUpdateReadyWrite
        { s with
          gBuffer := Function.update s.gBuffer comNo
            (Function.update (s.gBuffer comNo) BUFMNG_ID_TX
              ⟨(s.gBuffer comNo BUFMNG_ID_TX).data.drop 16,
                (s.gBuffer comNo BUFMNG_ID_TX).capacity⟩)
          out := s.out ++ [Msg.IoPortOut (gIoBase comNo + NS16550_THR)
            ((s.gBuffer comNo BUFMNG_ID_TX).data.take 16)] } comNo := by
  have hl : ¬ (List.take 16 (s.gBuffer comNo BUFMNG_ID_TX).data).length = 0 := by
    rw [List.length_take]
    have : 0 < (s.gBuffer comNo BUFMNG_ID_TX).data.length := List.length_pos.2 h
    omega
  simp only [TxctrlDo, BufmngRead_eq, NS16550_TRANSMIT_BUFFER_SIZE, ne_eq, hl,
    not_false_eq_true, if_true]
  simp [IoctrlOutTHR, LibMkIoPortOutByte, State.send, State.setBuffer]

theorem TxctrlDo_empty (s : State) (comNo : Nat)
    (h : (s.gBuffer comNo BUFMNG_ID_TX).data = []) :
    TxctrlDo s comNo =
      FilemngUpdateReadyWrite
        { s with
          gTxState := TXSTATE_STOPED
          gCtrlInfo := Function.update s.gCtrlInfo comNo
            { s.gCtrlInfo comNo with
              ier := (NS16550_IER_THR_DISABLE |||
                ((s.gCtrlInfo comNo).ier &&& (255 ^^^ NS16550_IER_THR))) % 256 }
          out := s.out ++ [Msg.IoPortOut (gIoBase comNo + NS16550_IER)
            [(NS16550_IER_THR_DISABLE |||
                ((s.gCtrlInfo comNo).ier &&& (255 ^^^ NS16550_IER_THR))) % 256]] } comNo := by
  have hself : Function.update s.gBuffer comNo
      (Function.update (s.gBuffer comNo) BUFMNG_ID_TX
        ⟨[], (s.gBuffer comNo BUFMNG_ID_TX).capacity⟩) = s.gBuffer := by
    have e : (⟨[], (s.gBuffer comNo BUFMNG_ID_TX).capacity⟩ : MLibRingBuffer_t)
        = s.gBuffer comNo BUFMNG_ID_TX := by
      cases hb : s.gBuffer comNo BUFMNG_ID_TX with
      | mk d c => rw [hb] at h; simp at h; simp [h]
    rw [e, Function.update_eq_self, Function.update_eq_self]
  simp only [TxctrlDo, BufmngRead_eq, NS16550_TRANSMIT_BUFFER_SIZE, h, List.take_nil,
    List.drop_nil, List.length_nil, ne_eq, not_true_eq_false, if_false, IoctrlSetIER_eq]
  simp [State.setBuffer, hself]

/-- C19: TxctrlDo(port).  If the TX ring of the port holds k > 0 bytes, the first
min(k, 16) bytes are popped and exactly those bytes are written, in FIFO order, to THR
in one batch; the register shadows and the TX state are untouched.  If the ring is
empty, nothing is written to THR, the THR bit of the IER shadow of the port is cleared
with the other IER bits unchanged, the new IER byte is written to the device and the TX
state becomes STOPPED.  In both cases FilemngUpdateReadyWrite(port) runs last, so the
WRITE bit of the cached mask is set afterwards. -/
theorem TxctrlDo_batch_or_stop (s : State) (comNo : Nat)
    (hier : (s.gCtrlInfo comNo).ier < 256) :
    ((s.gBuffer comNo BUFMNG_ID_TX).data ≠ [] →
      (TxctrlDo s comNo).out =
        s.out ++ [Msg.IoPortOut (gIoBase comNo + NS16550_THR)
            ((s.gBuffer comNo BUFMNG_ID_TX).data.take 16)] ++
          (if s.gReady comNo &&& MVFS_READY_WRITE = 0 then
            [Msg.VfsReadyNtc (gpPath comNo) (s.gReady comNo ||| MVFS_READY_WRITE)] else []) ∧
      ((TxctrlDo s comNo).gBuffer comNo BUFMNG_ID_TX).data =
        (s.gBuffer comNo BUFMNG_ID_TX).data.drop 16 ∧
      (TxctrlDo s comNo).gCtrlInfo = s.gCtrlInfo ∧
      (TxctrlDo s comNo).gTxState = s.gTxState) ∧
    ((s.gBuffer comNo BUFMNG_ID_TX).data = [] →
      (TxctrlDo s comNo).out =
        s.out ++ [Msg.IoPortOut (gIoBase comNo + NS16550_IER)
            [(s.gCtrlInfo comNo).ier &&& (255 ^^^ NS16550_IER_THR)]] ++
          (if s.gReady comNo &&& MVFS_READY_WRITE = 0 then
            [Msg.VfsReadyNtc (gpPath comNo) (s.gReady comNo ||| MVFS_READY_WRITE)] else []) ∧
      (TxctrlDo s comNo).gCtrlInfo = Function.update s.gCtrlInfo comNo
        { s.gCtrlInfo comNo with ier := (s.gCtrlInfo comNo).ier &&& (255 ^^^ NS16550_IER_THR) } ∧
      ((s.gCtrlInfo comNo).ier &&& (255 ^^^ NS16550_IER_THR)) &&& NS16550_IER_THR = 0 ∧
      ((s.gCtrlInfo comNo).ier &&& (255 ^^^ NS16550_IER_THR)) &&& (255 ^^^ NS16550_IER_THR) =
        (s.gCtrlInfo comNo).ier &&& (255 ^^^ NS16550_IER_THR) ∧
      (TxctrlDo s comNo).gTxState = TXSTATE_STOPED ∧
      (TxctrlDo s comNo).gBuffer = s.gBuffer) ∧
    (TxctrlDo s comNo).gReady comNo &&& MVFS_READY_WRITE ≠ 0 := by
  obtain ⟨b1, b2, b3⟩ := thr_disable_byte _ hier
  refine ⟨fun h => ?_, fun h => ?_, ?_⟩
  · rw [TxctrlDo_nonempty s comNo h, FilemngUpdateReadyWrite_eq]
    split_ifs <;> simp
  · rw [TxctrlDo_empty s comNo h, FilemngUpdateReadyWrite_eq, b1]
    refine ⟨?_, ?_, b2, b3, ?_, ?_⟩ <;> split_ifs <;> simp
  · by_cases h : (s.gBuffer comNo BUFMNG_ID_TX).data = []
    · rw [TxctrlDo_empty s comNo h]; exact FilemngUpdateReadyWrite_bit _ _
    · rw [TxctrlDo_nonempty s comNo h]; exact FilemngUpdateReadyWrite_bit _ _

/-- Witness for C19: COM1 opened, its TX ring holding 1, 2, 3. -/
theorem TxctrlDo_batch_or_stop_witness :
    (((openedState 16 5 [] [1, 2, 3]).gCtrlInfo NS16550_COM1).ier < 256 ∧
      ((openedState 16 5 [] [1, 2, 3]).gBuffer NS16550_COM1 BUFMNG_ID_TX).data ≠ []) ∧
    ((TxctrlDo (openedState 16 5 [] [1, 2, 3]) NS16550_COM1).gBuffer
        NS16550_COM1 BUFMNG_ID_TX).data =
      ((openedState 16 5 [] [1, 2, 3]).gBuffer NS16550_COM1 BUFMNG_ID_TX).data.drop 16 :=
  ⟨by decide,
   ((TxctrlDo_batch_or_stop (openedState 16 5 [] [1, 2, 3]) NS16550_COM1 (by decide)).1
      (by decide)).2.1⟩

/-- C20: TxctrlRequest(port).  If the TX state is STOPPED, the THR bit is set in the IER
shadow of the port with the other IER bits unchanged, the new IER byte is written to the
device and the TX state becomes STARTED.  If the TX state is STARTED, there is no device
write and neither the IER shadow nor the TX state changes (the whole state is
unchanged).  In neither case is a ring touched. -/
theorem TxctrlRequest_starts_when_stopped (s : State) (comNo : Nat)
    (hier : (s.gCtrlInfo comNo).ier < 256) :
    (s.gTxState = TXSTATE_STOPED →
      TxctrlRequest s comNo =
        { s with
          gTxState := TXSTATE_STARTED
          gCtrlInfo := Function.update s.gCtrlInfo comNo
            { s.gCtrlInfo comNo with ier := (s.gCtrlInfo comNo).ier ||| NS16550_IER_THR }
          out := s.out ++ [Msg.IoPortOut (gIoBase comNo + NS16550_IER)
            [(s.gCtrlInfo comNo).ier ||| NS16550_IER_THR]] } ∧
      ((s.gCtrlInfo comNo).ier ||| NS16550_IER_THR) &&& NS16550_IER_THR = NS16550_IER_THR ∧
      ((s.gCtrlInfo comNo).ier ||| NS16550_IER_THR) &&& (255 ^^^ NS16550_IER_THR) =
        (s.gCtrlInfo comNo).ier &&& (255 ^^^ NS16550_IER_THR)) ∧
    (s.gTxState = TXSTATE_STARTED → TxctrlRequest s comNo = s) ∧
    (TxctrlRequest s comNo).gBuffer = s.gBuffer := by
  obtain ⟨b1, b2, b3⟩ := thr_enable_byte _ hier
  refine ⟨fun h => ⟨?_, b2, b3⟩, fun h => ?_, (TxctrlRequest_frame s comNo).1⟩
  · simp only [TxctrlRequest, h, if_true, IoctrlSetIER_eq, b1]
  · have hne : ¬ s.gTxState = TXSTATE_STOPED := by rw [h]; decide
    simp only [TxctrlRequest, hne, if_false]

/-- Witness for C20: after a TxctrlDo on the empty TX ring of COM1 the transmitter is
stopped; the request sets the THR bit again and starts it. -/
theorem TxctrlRequest_starts_when_stopped_witness :
    (((TxctrlDo (bootState 16) NS16550_COM1).gCtrlInfo NS16550_COM1).ier < 256 ∧
      (TxctrlDo (bootState 16) NS16550_COM1).gTxState = TXSTATE_STOPED) ∧
    (TxctrlRequest (TxctrlDo (bootState 16) NS16550_COM1) NS16550_COM1).gTxState
      = TXSTATE_STARTED :=
  ⟨by decide,
   by
    rw [((TxctrlRequest_starts_when_stopped (TxctrlDo (bootState 16) NS16550_COM1)
      NS16550_COM1 (by decide)).1 (by decide)).1]⟩

end Txctrl

/-! Readiness edge scenario -/

namespace Filemng
open NS16550 NS16550.BufmngId_t NS16550.LibMvfsRet_t Bufmng Txctrl Ioctrl

theorem ConvertGlobalFD_congr (s t : State) (g : Nat) (h : t.gGlobalFD = s.gGlobalFD) :
    ConvertGlobalFD t g = ConvertGlobalFD s g := by
  simp [ConvertGlobalFD, h]

theorem DoVfsRead_alloc_ring (s : State) (comNo gfd idx N : Nat)
    (hres : ConvertGlobalFD s gfd = comNo)
    (hc : comNo = NS16550_COM1 ∨ comNo = NS16550_COM2)
    (hopen : s.gState comNo = STATE_OPENED) :
    (DoVfsRead s gfd idx N true).gBuffer comNo BUFMNG_ID_RX =
      ⟨(s.gBuffer comNo BUFMNG_ID_RX).data.drop N, (s.gBuffer comNo BUFMNG_ID_RX).capacity⟩ ∧
    (DoVfsRead s gfd idx N true).gGlobalFD = s.gGlobalFD ∧
    (DoVfsRead s gfd idx N true).gState = s.gState := by
  have hnull : comNo ≠ NS16550_COM_NULL := by rcases hc with rfl | rfl <;> decide
  have hu : Function.update s.gState comNo STATE_OPENED = s.gState := by
    rw [← hopen]; exact Function.update_eq_self _ _
  rw [DoVfsRead_opened s comNo gfd idx N true hres hnull hopen]
  simp only [DoTask22, BufmngRead_eq]
  split_ifs <;>
    simp_all [SendVfsReadResp, State.send, State.setReady, State.setBuffer]

end Filemng

namespace Rxctrl
open NS16550 NS16550.BufmngId_t NS16550.LibMvfsRet_t Bufmng Filemng

theorem BufmngWrite_RX_one (s : State) (comNo b : Nat)
    (hroom : (s.gBuffer comNo BUFMNG_ID_RX).data.length < (s.gBuffer comNo BUFMNG_ID_RX).capacity) :
    (BufmngWrite s comNo BUFMNG_ID_RX [b]).1 =
      s.setBuffer comNo BUFMNG_ID_RX
        ⟨(s.gBuffer comNo BUFMNG_ID_RX).data ++ [b], (s.gBuffer comNo BUFMNG_ID_RX).capacity⟩ := by
  simp [BufmngWrite, pushOWLoop, MLibRingBufferPushOW, hroom]

theorem receive_one (s : State) (comNo b : Nat)
    (hroom : (s.gBuffer comNo BUFMNG_ID_RX).data.length < (s.gBuffer comNo BUFMNG_ID_RX).capacity) :
    (receive s comNo [b]).gBuffer comNo BUFMNG_ID_RX =
      ⟨(s.gBuffer comNo BUFMNG_ID_RX).data ++ [b], (s.gBuffer comNo BUFMNG_ID_RX).capacity⟩ ∧
    (receive s comNo [b]).gState = s.gState ∧
    (receive s comNo [b]).gGlobalFD = s.gGlobalFD ∧
    (receive s comNo [b]).out =
      s.out ++ (if s.gReady comNo &&& MVFS_READY_READ = 0 then
        [Msg.VfsReadyNtc (gpPath comNo) (s.gReady comNo ||| MVFS_READY_READ)] else []) ∧
    (receive s comNo [b]).gReady comNo =
      (if s.gReady comNo &&& MVFS_READY_READ = 0 then s.gReady comNo ||| MVFS_READY_READ
       else s.gReady comNo) := by
  unfold receive
  rw [BufmngWrite_RX_one s comNo b hroom, FilemngUpdateReadyRead_eq]
  simp only [State.setBuffer]
  split_ifs <;> simp

/-- C12 (amended): readiness-edge scenario.  On an open port with empty RX ring (of
capacity at least 2) and cached mask 0, the first received byte, followed by
FilemngUpdateReadyRead, sends one VfsReady(READ) notice and the second received byte
sends none.  A VFS_READ whose size N is larger than the number of buffered bytes returns
both bytes, leaves the RX ring empty and clears the READ bit of the cached mask, so the
next received byte sends a new VfsReady(READ) notice. -/
theorem readiness_edge_after_short_read (s : State) (comNo gfd idx N b1 b2 b3 : Nat)
    (hc : comNo = NS16550_COM1 ∨ comNo = NS16550_COM2)
    (hres : ConvertGlobalFD s gfd = comNo)
    (hopen : s.gState comNo = STATE_OPENED)
    (hempty : (s.gBuffer comNo BUFMNG_ID_RX).data = [])
    (hcap : 2 ≤ (s.gBuffer comNo BUFMNG_ID_RX).capacity)
    (hmask : s.gReady comNo = 0)
    (hN : 2 < N) :
    (receive s comNo [b1]).out = s.out ++ [Msg.VfsReadyNtc (gpPath comNo) MVFS_READY_READ] ∧
    (receive (receive s comNo [b1]) comNo [b2]).out = (receive s comNo [b1]).out ∧
    (DoVfsRead (receive (receive s comNo [b1]) comNo [b2]) gfd idx N true).out =
      (receive (receive s comNo [b1]) comNo [b2]).out ++
        [Msg.VfsReadResp gfd LIBMVFS_RET_SUCCESS 0 (some [b1, b2]) 2] ∧
    ((DoVfsRead (receive (receive s comNo [b1]) comNo [b2]) gfd idx N true).gBuffer
      comNo BUFMNG_ID_RX).data = [] ∧
    (DoVfsRead (receive (receive s comNo [b1]) comNo [b2]) gfd idx N true).gReady comNo
      &&& MVFS_READY_READ = 0 ∧
    (receive (DoVfsRead (receive (receive s comNo [b1]) comNo [b2]) gfd idx N true)
      comNo [b3]).out =
      (DoVfsRead (receive (receive s comNo [b1]) comNo [b2]) gfd idx N true).out ++
        [Msg.VfsReadyNtc (gpPath comNo) MVFS_READY_READ] := by
  -- first byte
  have hroom1 : (s.gBuffer comNo BUFMNG_ID_RX).data.length
      < (s.gBuffer comNo BUFMNG_ID_RX).capacity := by rw [hempty]; simp; omega
  obtain ⟨a1, a2, a3, a4, a5⟩ := receive_one s comNo b1 hroom1
  rw [hmask] at a4 a5
  simp only [Nat.zero_and, if_true, Nat.zero_or] at a4 a5
  rw [hempty, List.nil_append] at a1
  -- second byte
  have hroom2 : ((receive s comNo [b1]).gBuffer comNo BUFMNG_ID_RX).data.length
      < ((receive s comNo [b1]).gBuffer comNo BUFMNG_ID_RX).capacity := by
    rw [a1]; simp; omega
  obtain ⟨c1, c2, c3, c4, c5⟩ := receive_one (receive s comNo [b1]) comNo b2 hroom2
  have hbit : ¬ (MVFS_READY_READ &&& MVFS_READY_READ = 0) := by decide
  rw [a5] at c4 c5
  rw [if_neg hbit] at c4 c5
  rw [a1] at c1
  simp only [List.singleton_append, List.append_nil] at c1 c4
  -- the read
  have hres2 : ConvertGlobalFD (receive (receive s comNo [b1]) comNo [b2]) gfd = comNo := by
    exact (ConvertGlobalFD_congr s _ gfd (by rw [c3, a3])).trans hres
  have hopen2 : (receive (receive s comNo [b1]) comNo [b2]).gState comNo = STATE_OPENED := by
    rw [c2, a2]; exact hopen
  obtain ⟨r1, r2, r3, _⟩ := DoVfsRead_alloc _ comNo gfd idx N hres2 hc hopen2
  obtain ⟨q1, _, _⟩ := DoVfsRead_alloc_ring _ comNo gfd idx N hres2 hc hopen2
  rw [c1] at r1 r2 r3 q1
  have ht : List.take N [b1, b2] = [b1, b2] := List.take_of_length_le (by simp; omega)
  have hd : List.drop N [b1, b2] = [] := List.drop_of_length_le (by simp; omega)
  have h2 : ([b1, b2] : List Nat).length = 2 := rfl
  have hne : ¬ (2 = N) := by omega
  simp only [ht, hd] at r1 r2 r3 q1
  rw [h2] at r1 r3
  rw [if_neg hne] at r1 r3
  rw [if_pos (by decide : (2 : Nat) ≠ 0)] at r1
  rw [c5] at r3
  have hclr : (DoVfsRead (receive (receive s comNo [b1]) comNo [b2]) gfd idx N true).gReady
      comNo = 0 := by rw [r3]; decide
  -- third byte
  have hroom3 : ((DoVfsRead (receive (receive s comNo [b1]) comNo [b2]) gfd idx N
      true).gBuffer comNo BUFMNG_ID_RX).data.length
      < ((DoVfsRead (receive (receive s comNo [b1]) comNo [b2]) gfd idx N
      true).gBuffer comNo BUFMNG_ID_RX).capacity := by
    rw [q1]; simp; omega
  obtain ⟨_, _, _, d4, _⟩ := receive_one _ comNo b3 hroom3
  rw [hclr] at d4
  simp only [Nat.zero_and, if_true, Nat.zero_or] at d4
  exact ⟨a4, c4, r1, r2, by rw [hclr]; rfl, d4⟩

/-- Witness for C12 (amended): COM1 opened with descriptor 5 and empty rings of capacity
16; the bytes 0x61, 0x62 arrive, the client reads size 8, then 0x63 arrives. -/
theorem readiness_edge_after_short_read_witness :
    (ConvertGlobalFD (openedState 16 5 [] []) 5 = NS16550_COM1 ∧
      (openedState 16 5 [] []).gState NS16550_COM1 = STATE_OPENED ∧
      ((openedState 16 5 [] []).gBuffer NS16550_COM1 BUFMNG_ID_RX).data = [] ∧
      2 ≤ ((openedState 16 5 [] []).gBuffer NS16550_COM1 BUFMNG_ID_RX).capacity ∧
      (openedState 16 5 [] []).gReady NS16550_COM1 = 0 ∧ 2 < 8) ∧
    (receive (DoVfsRead (receive (receive (openedState 16 5 [] []) NS16550_COM1 [0x61])
        NS16550_COM1 [0x62]) 5 0 8 true) NS16550_COM1 [0x63]).out =
      (DoVfsRead (receive (receive (openedState 16 5 [] []) NS16550_COM1 [0x61])
        NS16550_COM1 [0x62]) 5 0 8 true).out ++
        [Msg.VfsReadyNtc (gpPath NS16550_COM1) MVFS_READY_READ] :=
  ⟨by decide,
   (readiness_edge_after_short_read (openedState 16 5 [] []) NS16550_COM1 5 0 8 0x61 0x62 0x63
      (Or.inl rfl) (by decide) (by decide) (by decide) (by decide) (by decide)
      (by decide)).2.2.2.2.2⟩

/-- Counterexample to C12 as stated: with the two bytes 0x61, 0x62 buffered, a VFS_READ
of size 2 (equal to the number of buffered bytes) returns both bytes and leaves the RX
ring empty, but the READ bit of the cached mask stays set and the next received byte
sends no VfsReady notice. -/
theorem exact_size_read_suppresses_next_notice :
    (DoVfsRead (receive (receive (openedState 16 5 [] []) NS16550_COM1 [0x61])
        NS16550_COM1 [0x62]) 5 0 2 true).out =
      (receive (receive (openedState 16 5 [] []) NS16550_COM1 [0x61]) NS16550_COM1 [0x62]).out
        ++ [Msg.VfsReadResp 5 LIBMVFS_RET_SUCCESS MVFS_READY_READ (some [0x61, 0x62]) 2] ∧
    ((DoVfsRead (receive (receive (openedState 16 5 [] []) NS16550_COM1 [0x61])
        NS16550_COM1 [0x62]) 5 0 2 true).gBuffer NS16550_COM1 BUFMNG_ID_RX).data = [] ∧
    (DoVfsRead (receive (receive (openedState 16 5 [] []) NS16550_COM1 [0x61])
        NS16550_COM1 [0x62]) 5 0 2 true).gReady NS16550_COM1 &&& MVFS_READY_READ
      = MVFS_READY_READ ∧
    (receive (DoVfsRead (receive (receive (openedState 16 5 [] []) NS16550_COM1 [0x61])
        NS16550_COM1 [0x62]) 5 0 2 true) NS16550_COM1 [0x63]).out =
      (DoVfsRead (receive (receive (openedState 16 5 [] []) NS16550_COM1 [0x61])
        NS16550_COM1 [0x62]) 5 0 2 true).out := by
  decide

end Rxctrl

/-! THR self-clock -/

namespace Txctrl
open NS16550 NS16550.BufmngId_t Bufmng Ioctrl Filemng

theorem thrWrites_append (comNo : Nat) (l1 l2 : List Msg) :
    thrWrites comNo (l1 ++ l2) = thrWrites comNo l1 ++ thrWrites comNo l2 := by
  induction l1 with
  | nil => rfl
  | cons m rest ih =>
    cases m with
    | IoPortOut port data =>
      simp only [List.cons_append, thrWrites]
      split_ifs <;> simp [ih]
    | _ => simp [thrWrites, ih]

theorem thrWrites_notice (comNo : Nat) (b : Prop) [Decidable b] (m : Msg)
    (hm : thrWrites comNo [m] = []) :
    thrWrites comNo (if b then [m] else []) = [] := by
  split_ifs
  · exact hm
  · rfl

theorem TxctrlDo_nonempty_spec (s : State) (comNo : Nat)
    (h : (s.gBuffer comNo BUFMNG_ID_TX).data ≠ []) :
    thrWrites comNo (TxctrlDo s comNo).out =
      thrWrites comNo s.out ++ [(s.gBuffer comNo BUFMNG_ID_TX).data.take 16] ∧
    ((TxctrlDo s comNo).gBuffer comNo BUFMNG_ID_TX).data =
      (s.gBuffer comNo BUFMNG_ID_TX).data.drop 16 ∧
    (TxctrlDo s comNo).gCtrlInfo = s.gCtrlInfo ∧
    (TxctrlDo s comNo).gTxState = s.gTxState := by
  rw [TxctrlDo_nonempty s comNo h, FilemngUpdateReadyWrite_eq]
  split_ifs <;> simp [thrWrites_append, thrWrites]

theorem TxctrlDo_empty_spec (s : State) (comNo : Nat)
    (h : (s.gBuffer comNo BUFMNG_ID_TX).data = []) :
    thrWrites comNo (TxctrlDo s comNo).out = thrWrites comNo s.out ∧
    ((TxctrlDo s comNo).gCtrlInfo comNo).ier =
      (NS16550_IER_THR_DISABLE ||| ((s.gCtrlInfo comNo).ier &&& (255 ^^^ NS16550_IER_THR)))
        % 256 ∧
    (TxctrlDo s comNo).gTxState = TXSTATE_STOPED := by
  have hport : ¬ (gIoBase comNo + NS16550_IER = gIoBase comNo + NS16550_THR) := by
    simp [NS16550_IER, NS16550_THR]
  rw [TxctrlDo_empty s comNo h, FilemngUpdateReadyWrite_eq]
  split_ifs <;> simp [thrWrites_append, thrWrites, hport]

theorem TxctrlDo_times_last (comNo : Nat) (k : Nat) : ∀ s : State,
    TxctrlDo_times comNo (k + 1) s = TxctrlDo (TxctrlDo_times comNo k s) comNo := by
  induction k with
  | zero => intro s; rfl
  | succ k ih => intro s; rw [TxctrlDo_times, ih (TxctrlDo s comNo)]; rfl

theorem TxctrlDo_times_spec (comNo : Nat) (k : Nat) : ∀ s : State,
    16 * k < (s.gBuffer comNo BUFMNG_ID_TX).data.length + 16 →
    thrWrites comNo (TxctrlDo_times comNo k s).out =
      thrWrites comNo s.out ++ batches k (s.gBuffer comNo BUFMNG_ID_TX).data ∧
    ((TxctrlDo_times comNo k s).gBuffer comNo BUFMNG_ID_TX).data =
      (s.gBuffer comNo BUFMNG_ID_TX).data.drop (16 * k) ∧
    (TxctrlDo_times comNo k s).gCtrlInfo = s.gCtrlInfo ∧
    (TxctrlDo_times comNo k s).gTxState = s.gTxState := by
  induction k with
  | zero => intro s _; simp [TxctrlDo_times, batches]
  | succ k ih =>
    intro s hk
    have hne : (s.gBuffer comNo BUFMNG_ID_TX).data ≠ [] := by
      intro he; rw [he, List.length_nil] at hk; omega
    obtain ⟨d1, d2, d3, d4⟩ := TxctrlDo_nonempty_spec s comNo hne
    have hk2 : 16 * k < ((TxctrlDo s comNo).gBuffer comNo BUFMNG_ID_TX).data.length + 16 := by
      rw [d2, List.length_drop]; omega
    obtain ⟨i1, i2, i3, i4⟩ := ih (TxctrlDo s comNo) hk2
    rw [TxctrlDo_times]
    refine ⟨?_, ?_, by rw [i3, d3], by rw [i4, d4]⟩
    · rw [i1, d1, d2, List.append_assoc]
      simp [batches, hne]
    · rw [i2, d2, List.drop_drop]
      first | done | (congr 1; omega)

theorem batches_join (k : Nat) : ∀ l : List Nat, (batches k l).flatten = l.take (16 * k) := by
  induction k with
  | zero => intro l; simp [batches]
  | succ k ih =>
    intro l
    by_cases h : l = []
    · simp [batches, h]
    · have e : 16 * (k + 1) = 16 + 16 * k := by omega
      simp only [batches, h, if_false, List.flatten_cons, ih]
      rw [e, List.take_add]

theorem batches_lengths (q : Nat) : ∀ (l : List Nat) (r : Nat), r < 16 → l.length = 16 * q + r →
    (batches (q + (if r = 0 then 0 else 1)) l).map List.length =
      List.replicate q 16 ++ (if r = 0 then [] else [r]) := by
  induction q with
  | zero =>
    intro l r hr hl
    by_cases h0 : r = 0
    · simp [h0, batches]
    · have hne : l ≠ [] := by intro he; rw [he, List.length_nil] at hl; omega
      simp only [h0, if_false, Nat.zero_add, batches, hne, List.map_cons, List.map_nil,
        List.length_take, List.replicate_zero, List.nil_append]
      congr 1; omega
  | succ q ih =>
    intro l r hr hl
    have hne : l ≠ [] := by intro he; rw [he, List.length_nil] at hl; omega
    have e : q + 1 + (if r = 0 then 0 else 1) = (q + (if r = 0 then 0 else 1)) + 1 := by omega
    have hd : (l.drop 16).length = 16 * q + r := by rw [List.length_drop]; omega
    rw [e]
    simp only [batches, hne, if_false, List.map_cons, ih (l.drop 16) r hr hd, List.length_take,
      List.replicate_succ, List.cons_append]
    congr 1; omega

end Txctrl

namespace Txctrl
open NS16550 NS16550.BufmngId_t Bufmng Ioctrl Filemng

/-- C17 (amended): THR self-clock.  With a TX ring holding n > 0 bytes, the first
ceil(n / 16) successive TxctrlDo calls (one per THR-empty interrupt) write the n bytes to
THR in FIFO order, in batches of 16 followed by a final shorter batch when 16 does not
divide n, and empty the ring; none of these calls, the one writing the final batch
included, changes the IER shadow or the TX state.  It is the next call, which finds the
ring empty and writes nothing to THR, that disables the THR interrupt source and sets the
TX state to STOPPED (for n = 100: six batches of 16, then the batch of the last 4
bytes, and only the eighth call clears IER.THR and stops the transmitter). -/
theorem thr_self_clock (s : State) (comNo : Nat) (data : List Nat)
    (hdata : (s.gBuffer comNo BUFMNG_ID_TX).data = data)
    (hn : data ≠ [])
    (hier : (s.gCtrlInfo comNo).ier < 256) :
    thrWrites comNo (TxctrlDo_times comNo ((data.length + 15) / 16) s).out =
      thrWrites comNo s.out ++ batches ((data.length + 15) / 16) data ∧
    (batches ((data.length + 15) / 16) data).flatten = data ∧
    (batches ((data.length + 15) / 16) data).map List.length =
      List.replicate (data.length / 16) 16 ++
        (if data.length % 16 = 0 then [] else [data.length % 16]) ∧
    ((TxctrlDo_times comNo ((data.length + 15) / 16) s).gBuffer comNo BUFMNG_ID_TX).data = [] ∧
    (TxctrlDo_times comNo ((data.length + 15) / 16) s).gCtrlInfo = s.gCtrlInfo ∧
    (TxctrlDo_times comNo ((data.length + 15) / 16) s).gTxState = s.gTxState ∧
    thrWrites comNo (TxctrlDo_times comNo ((data.length + 15) / 16 + 1) s).out =
      thrWrites comNo (TxctrlDo_times comNo ((data.length + 15) / 16) s).out ∧
    ((TxctrlDo_times comNo ((data.length + 15) / 16 + 1) s).gCtrlInfo comNo).ier
      &&& NS16550_IER_THR = 0 ∧
    (TxctrlDo_times comNo ((data.length + 15) / 16 + 1) s).gTxState = TXSTATE_STOPED := by
  have hpos : 0 < data.length := List.length_pos.2 hn
  have hk : 16 * ((data.length + 15) / 16)
      < (s.gBuffer comNo BUFMNG_ID_TX).data.length + 16 := by rw [hdata]; omega
  obtain ⟨t1, t2, t3, t4⟩ := TxctrlDo_times_spec comNo ((data.length + 15) / 16) s hk
  rw [hdata] at t1 t2
  have hempty : ((TxctrlDo_times comNo ((data.length + 15) / 16) s).gBuffer comNo
      BUFMNG_ID_TX).data = [] := by
    rw [t2]; exact List.drop_of_length_le (by omega)
  obtain ⟨e1, e2, e3⟩ := TxctrlDo_empty_spec _ comNo hempty
  have hq : (data.length + 15) / 16
      = data.length / 16 + (if data.length % 16 = 0 then 0 else 1) := by
    split_ifs <;> omega
  refine ⟨t1, ?_, ?_, hempty, t3, t4, ?_, ?_, ?_⟩
  · rw [batches_join]; exact List.take_of_length_le (by omega)
  · rw [hq]
    exact batches_lengths (data.length / 16) data (data.length % 16) (by omega) (by omega)
  · rw [TxctrlDo_times_last]; exact e1
  · rw [TxctrlDo_times_last, e2, t3]
    obtain ⟨b1, b2, _⟩ := thr_disable_byte _ hier
    rw [b1]; exact b2
  · rw [TxctrlDo_times_last]; exact e3

set_option maxRecDepth 100000 in
/-- Witness for C17 (amended): COM1 opened after the full initialisation and 100 bytes
written to it. -/
theorem thr_self_clock_witness :
    (((writtenState 128 (List.range 100)).gBuffer NS16550_COM1 BUFMNG_ID_TX).data
        = List.range 100 ∧
      List.range 100 ≠ [] ∧
      ((writtenState 128 (List.range 100)).gCtrlInfo NS16550_COM1).ier < 256) ∧
    (batches (((List.range 100).length + 15) / 16) (List.range 100)).map List.length =
      List.replicate ((List.range 100).length / 16) 16 ++
        (if (List.range 100).length % 16 = 0 then [] else [(List.range 100).length % 16]) ∧
    (TxctrlDo_times NS16550_COM1 (((List.range 100).length + 15) / 16 + 1)
      (writtenState 128 (List.range 100))).gTxState = TXSTATE_STOPED :=
  ⟨by decide,
   (thr_self_clock (writtenState 128 (List.range 100)) NS16550_COM1 (List.range 100)
      (by decide) (by decide) (by decide)).2.2.1,
   (thr_self_clock (writtenState 128 (List.range 100)) NS16550_COM1 (List.range 100)
      (by decide) (by decide) (by decide)).2.2.2.2.2.2.2.2⟩

set_option maxRecDepth 100000 in
/-- Counterexample to C17 as stated: with 100 bytes in the TX ring of COM1, the seventh
TxctrlDo call writes the final batch 96..99 and empties the ring, but after it the THR
bit of the IER shadow is still set and the TX state is still STARTED. -/
theorem final_batch_call_does_not_stop :
    thrWrites NS16550_COM1 (TxctrlDo_times NS16550_COM1 7
        (writtenState 128 (List.range 100))).out =
      thrWrites NS16550_COM1 (writtenState 128 (List.range 100)).out ++
      [List.range 16, (List.range 16).map (· + 16), (List.range 16).map (· + 32),
        (List.range 16).map (· + 48), (List.range 16).map (· + 64),
        (List.range 16).map (· + 80), [96, 97, 98, 99]] ∧
    ((TxctrlDo_times NS16550_COM1 7 (writtenState 128 (List.range 100))).gBuffer
      NS16550_COM1 BUFMNG_ID_TX).data = [] ∧
    ((TxctrlDo_times NS16550_COM1 7 (writtenState 128 (List.range 100))).gCtrlInfo
      NS16550_COM1).ier &&& NS16550_IER_THR = NS16550_IER_THR ∧
    (TxctrlDo_times NS16550_COM1 7 (writtenState 128 (List.range 100))).gTxState
      = TXSTATE_STARTED := by
  decide

end Txctrl

/-! Shared transmit state and readiness reports -/

namespace Txctrl
open NS16550 NS16550.BufmngId_t Bufmng Ioctrl Filemng

/-- C16 (code defect): Txctrl.c keeps the TX state in the single variable gTxState, shared
by both ports, while the IER shadow is per port.  After the initialisation (both IER
shadows have THR set, state STARTED), TxctrlDo on COM1 with an empty TX ring clears
IER.THR of COM1 and stops the transmitter; TxctrlRequest on COM2 then sets the shared
state to STARTED.  In the resulting state the THR bit of the IER shadow of COM1 is 0
while its TX state is STARTED. -/
theorem shared_tx_state_breaks_thr_link :
    ((driverBoot 16).gCtrlInfo NS16550_COM1).ier &&& NS16550_IER_THR = NS16550_IER_THR ∧
    ((driverBoot 16).gCtrlInfo NS16550_COM2).ier &&& NS16550_IER_THR = NS16550_IER_THR ∧
    (driverBoot 16).gTxState = TXSTATE_STARTED ∧
    ((runTx (driverBoot 16) [TxCall.Do NS16550_COM1, TxCall.Request NS16550_COM2]).gCtrlInfo
      NS16550_COM1).ier &&& NS16550_IER_THR = 0 ∧
    (runTx (driverBoot 16) [TxCall.Do NS16550_COM1, TxCall.Request NS16550_COM2]).gTxState
      = TXSTATE_STARTED := by
  decide

end Txctrl

namespace Filemng
open NS16550 NS16550.BufmngId_t NS16550.LibMvfsRet_t Bufmng Txctrl Ioctrl

theorem reported_append (l1 l2 : List Msg) : reported (l1 ++ l2) = reported l1 ++ reported l2 := by
  simp [reported, List.filterMap_append]

theorem DoVfsRead_nomem (s : State) (comNo gfd idx N : Nat)
    (hres : ConvertGlobalFD s gfd = comNo)
    (hc : comNo = NS16550_COM1 ∨ comNo = NS16550_COM2)
    (hopen : s.gState comNo = STATE_OPENED) :
    DoVfsRead s gfd idx N false =
      { s with
        gReady := Function.update s.gReady comNo (s.gReady comNo ||| MVFS_READY_READ)
        out := s.out ++ [Msg.VfsReadResp gfd LIBMVFS_RET_FAILURE MVFS_READY_READ none 0] } := by
  have hnull : comNo ≠ NS16550_COM_NULL := by rcases hc with rfl | rfl <;> decide
  have hu : Function.update s.gState comNo STATE_OPENED = s.gState := by
    rw [← hopen]; exact Function.update_eq_self _ _
  rw [DoVfsRead_opened s comNo gfd idx N false hres hnull hopen]
  simp [DoTask22, SendVfsReadResp, State.send, State.setReady, hu]

theorem DoTask32_reply_ready (s1 : State) (p : Param) (size : Nat) :
    (DoTask32_reply s1 p size).gReady p.comNo =
      (if size = p.size then s1.gReady p.comNo ||| MVFS_READY_WRITE
       else s1.gReady p.comNo &&& (4294967295 ^^^ MVFS_READY_WRITE)) ∧
    (DoTask32_reply s1 p size).gState = s1.gState ∧
    (DoTask32_reply s1 p size).gGlobalFD = s1.gGlobalFD := by
  unfold DoTask32_reply
  split_ifs <;> simp [SendVfsWriteResp, State.send, State.setReady]

theorem DoVfsWrite_spec (s : State) (comNo gfd idx : Nat) (pBuffer : List Nat)
    (hres : ConvertGlobalFD s gfd = comNo)
    (hc : comNo = NS16550_COM1 ∨ comNo = NS16550_COM2)
    (hopen : s.gState comNo = STATE_OPENED) :
    (DoVfsWrite s gfd idx pBuffer).out =
      s.out ++
        [ if min pBuffer.length ((s.gBuffer comNo BUFMNG_ID_TX).capacity
              - (s.gBuffer comNo BUFMNG_ID_TX).data.length) = pBuffer.length then
            Msg.VfsWriteResp gfd LIBMVFS_RET_SUCCESS MVFS_READY_WRITE
              (min pBuffer.length ((s.gBuffer comNo BUFMNG_ID_TX).capacity
                - (s.gBuffer comNo BUFMNG_ID_TX).data.length))
          else if min pBuffer.length ((s.gBuffer comNo BUFMNG_ID_TX).capacity
              - (s.gBuffer comNo BUFMNG_ID_TX).data.length) ≠ 0 then
            Msg.VfsWriteResp gfd LIBMVFS_RET_SUCCESS 0
              (min pBuffer.length ((s.gBuffer comNo BUFMNG_ID_TX).capacity
                - (s.gBuffer comNo BUFMNG_ID_TX).data.length))
          else Msg.VfsWriteResp gfd LIBMVFS_RET_FAILURE 0 0 ] ++
        (if s.gTxState = TXSTATE_STOPED then
          [Msg.IoPortOut (gIoBase comNo + NS16550_IER)
            [(NS16550_IER_THR_ENABLE |||
              ((s.gCtrlInfo comNo).ier &&& (255 ^^^ NS16550_IER_THR))) % 256]]
         else []) ∧
    (DoVfsWrite s gfd idx pBuffer).gReady comNo =
      (if min pBuffer.length ((s.gBuffer comNo BUFMNG_ID_TX).capacity
            - (s.gBuffer comNo BUFMNG_ID_TX).data.length) = pBuffer.length then
        s.gReady comNo ||| MVFS_READY_WRITE
       else s.gReady comNo &&& (4294967295 ^^^ MVFS_READY_WRITE)) ∧
    (DoVfsWrite s gfd idx pBuffer).gState = s.gState ∧
    (DoVfsWrite s gfd idx pBuffer).gGlobalFD = s.gGlobalFD := by
  have hnull : comNo ≠ NS16550_COM_NULL := by rcases hc with rfl | rfl <;> decide
  have hu : Function.update s.gState comNo STATE_OPENED = s.gState := by
    rw [← hopen]; exact Function.update_eq_self _ _
  rw [DoVfsWrite_opened s comNo gfd idx pBuffer hres hnull hopen]
  obtain ⟨r1, _, r3, r4⟩ := DoTask32_reply_spec
    (DoTask32_push s ⟨comNo, 0, gfd, idx, pBuffer, pBuffer.length, true⟩).1
    ⟨comNo, 0, gfd, idx, pBuffer, pBuffer.length, true⟩
    (DoTask32_push s ⟨comNo, 0, gfd, idx, pBuffer, pBuffer.length, true⟩).2
  obtain ⟨g1, g2, g3⟩ := DoTask32_reply_ready
    (DoTask32_push s ⟨comNo, 0, gfd, idx, pBuffer, pBuffer.length, true⟩).1
    ⟨comNo, 0, gfd, idx, pBuffer, pBuffer.length, true⟩
    (DoTask32_push s ⟨comNo, 0, gfd, idx, pBuffer, pBuffer.length, true⟩).2
  have hp : DoTask32_push s ⟨comNo, 0, gfd, idx, pBuffer, pBuffer.length, true⟩ = _ :=
    BufmngWrite_TX_eq s comNo pBuffer
  obtain ⟨f1, f2, f3, f4⟩ := TxctrlRequest_frame
    (DoTask32_reply (DoTask32_push s ⟨comNo, 0, gfd, idx, pBuffer, pBuffer.length, true⟩).1
      ⟨comNo, 0, gfd, idx, pBuffer, pBuffer.length, true⟩
      (DoTask32_push s ⟨comNo, 0, gfd, idx, pBuffer, pBuffer.length, true⟩).2) comNo
  simp only [DoTask32]
  refine ⟨?_, ?_, ?_, ?_⟩
  · rw [TxctrlRequest_out, r1, r3, r4, hp]
    simp [State.setBuffer]
  · show (TxctrlRequest _ comNo).gReady comNo = _
    rw [f4]
    simp only at g1
    rw [g1, hp]
    simp [State.setBuffer]
  · show Function.update (TxctrlRequest _ comNo).gState comNo STATE_OPENED = _
    rw [f2, g2, hp]
    simp [State.setBuffer, hu]
  · show (TxctrlRequest _ comNo).gGlobalFD = _
    rw [f3, g3, hp]
    simp [State.setBuffer]

/-- C14 (amended): what a readiness report is justified by.  For a read addressed to an
OPENED port, the reply reports READ, and the cached READ bit is set afterwards, exactly
when the allocation failed or all N requested bytes were delivered, that is when the RX
ring held at least N bytes before the read; otherwise the reply reports 0 and the bit is
cleared.  For a write addressed to an OPENED port, the reply reports WRITE, and the
cached WRITE bit is set afterwards, exactly when all n bytes were pushed, that is when
the TX ring had room for all n bytes before the write; otherwise the reply reports 0 and
the bit is cleared.  Nothing is promised about the rings after the transfer. -/
theorem readiness_reports_complete_transfer (s : State) (comNo gfd idx N : Nat)
    (pBuffer : List Nat) (mallocOk : Bool)
    (hres : ConvertGlobalFD s gfd = comNo)
    (hc : comNo = NS16550_COM1 ∨ comNo = NS16550_COM2)
    (hopen : s.gState comNo = STATE_OPENED) :
    reported (DoVfsRead s gfd idx N mallocOk).out =
      reported s.out ++
        [if mallocOk = false ∨ N ≤ (s.gBuffer comNo BUFMNG_ID_RX).data.length
          then MVFS_READY_READ else 0] ∧
    (DoVfsRead s gfd idx N mallocOk).gReady comNo &&& MVFS_READY_READ =
      (if mallocOk = false ∨ N ≤ (s.gBuffer comNo BUFMNG_ID_RX).data.length
        then MVFS_READY_READ else 0) ∧
    reported (DoVfsWrite s gfd idx pBuffer).out =
      reported s.out ++
        [if pBuffer.length ≤ (s.gBuffer comNo BUFMNG_ID_TX).capacity
            - (s.gBuffer comNo BUFMNG_ID_TX).data.length
          then MVFS_READY_WRITE else 0] ∧
    (DoVfsWrite s gfd idx pBuffer).gReady comNo &&& MVFS_READY_WRITE =
      (if pBuffer.length ≤ (s.gBuffer comNo BUFMNG_ID_TX).capacity
          - (s.gBuffer comNo BUFMNG_ID_TX).data.length
        then MVFS_READY_WRITE else 0) := by
  obtain ⟨w1, w2, _, _⟩ := DoVfsWrite_spec s comNo gfd idx pBuffer hres hc hopen
  have hread :
      reported (DoVfsRead s gfd idx N mallocOk).out =
        reported s.out ++
          [if mallocOk = false ∨ N ≤ (s.gBuffer comNo BUFMNG_ID_RX).data.length
            then MVFS_READY_READ else 0] ∧
      (DoVfsRead s gfd idx N mallocOk).gReady comNo &&& MVFS_READY_READ =
        (if mallocOk = false ∨ N ≤ (s.gBuffer comNo BUFMNG_ID_RX).data.length
          then MVFS_READY_READ else 0) := by
    cases mallocOk with
    | false =>
      rw [DoVfsRead_nomem s comNo gfd idx N hres hc hopen]
      simp only [Function.update_same, true_or, if_true]
      exact ⟨by simp [reported_append, reported, Msg.readiness], lor_land_self _ _⟩
    | true =>
      obtain ⟨r1, _, r3, _⟩ := DoVfsRead_alloc s comNo gfd idx N hres hc hopen
      rw [r1, r3, reported_append, List.length_take]
      by_cases hle : N ≤ (s.gBuffer comNo BUFMNG_ID_RX).data.length
      · have hm : min N (s.gBuffer comNo BUFMNG_ID_RX).data.length = N := by omega
        simp only [hm, hle, or_true, if_true, Bool.true_eq_false, false_or]
        exact ⟨by simp [reported, Msg.readiness], lor_land_self _ _⟩
      · have hm : ¬ min N (s.gBuffer comNo BUFMNG_ID_RX).data.length = N := by omega
        simp only [hm, hle, or_false, if_false, Bool.true_eq_false]
        refine ⟨?_, clear_bit_land _ _ (by decide)⟩
        split_ifs <;> simp [reported, Msg.readiness]
  refine ⟨hread.1, hread.2, ?_, ?_⟩
  · rw [w1, reported_append, reported_append]
    by_cases hle : pBuffer.length ≤ (s.gBuffer comNo BUFMNG_ID_TX).capacity
        - (s.gBuffer comNo BUFMNG_ID_TX).data.length
    · have hm : min pBuffer.length ((s.gBuffer comNo BUFMNG_ID_TX).capacity
          - (s.gBuffer comNo BUFMNG_ID_TX).data.length) = pBuffer.length := by omega
      simp only [hm, hle, if_true]
      split_ifs <;> simp [reported, Msg.readiness]
    · have hm : ¬ min pBuffer.length ((s.gBuffer comNo BUFMNG_ID_TX).capacity
          - (s.gBuffer comNo BUFMNG_ID_TX).data.length) = pBuffer.length := by omega
      simp only [hm, hle, if_false]
      split_ifs <;> simp [reported, Msg.readiness]
  · rw [w2]
    by_cases hle : pBuffer.length ≤ (s.gBuffer comNo BUFMNG_ID_TX).capacity
        - (s.gBuffer comNo BUFMNG_ID_TX).data.length
    · have hm : min pBuffer.length ((s.gBuffer comNo BUFMNG_ID_TX).capacity
          - (s.gBuffer comNo BUFMNG_ID_TX).data.length) = pBuffer.length := by omega
      simp only [hm, hle, if_true]
      exact lor_land_self _ _
    · have hm : ¬ min pBuffer.length ((s.gBuffer comNo BUFMNG_ID_TX).capacity
          - (s.gBuffer comNo BUFMNG_ID_TX).data.length) = pBuffer.length := by omega
      simp only [hm, hle, if_false]
      exact clear_bit_land _ _ (by decide)

/-- Witness for C14 (amended): COM1 opened with descriptor 5, RX ring 1 and TX ring
1, 2, 3 of capacity 4; the client reads one byte and writes one byte. -/
theorem readiness_reports_complete_transfer_witness :
    (ConvertGlobalFD (openedState 4 5 [1] [1, 2, 3]) 5 = NS16550_COM1 ∧
      (openedState 4 5 [1] [1, 2, 3]).gState NS16550_COM1 = STATE_OPENED) ∧
    reported (DoVfsRead (openedState 4 5 [1] [1, 2, 3]) 5 0 1 true).out =
      reported (openedState 4 5 [1] [1, 2, 3]).out ++
        [if true = false ∨
            1 ≤ ((openedState 4 5 [1] [1, 2, 3]).gBuffer NS16550_COM1 BUFMNG_ID_RX).data.length
          then MVFS_READY_READ else 0] :=
  ⟨by decide,
   (readiness_reports_complete_transfer (openedState 4 5 [1] [1, 2, 3]) NS16550_COM1 5 0 1 [9]
      true (by decide) (Or.inl rfl) (by decide)).1⟩

/-- Counterexample to C14 as stated: COM1 is open with one byte in the RX ring and three
bytes in the TX ring of capacity 4.  A read of size 1 is answered with readiness READ
and leaves READ cached although the RX ring is empty at that moment; a write of one byte
is answered with readiness WRITE and leaves WRITE cached although the TX ring is full at
that moment. -/
theorem readiness_reported_with_empty_rx_and_full_tx :
    (DoVfsRead (openedState 4 5 [1] [1, 2, 3]) 5 0 1 true).out =
      (openedState 4 5 [1] [1, 2, 3]).out ++
        [Msg.VfsReadResp 5 LIBMVFS_RET_SUCCESS MVFS_READY_READ (some [1]) 1] ∧
    ((DoVfsRead (openedState 4 5 [1] [1, 2, 3]) 5 0 1 true).gBuffer
      NS16550_COM1 BUFMNG_ID_RX).data = [] ∧
    (DoVfsRead (openedState 4 5 [1] [1, 2, 3]) 5 0 1 true).gReady NS16550_COM1
      &&& MVFS_READY_READ = MVFS_READY_READ ∧
    (DoVfsWrite (openedState 4 5 [1] [1, 2, 3]) 5 0 [9]).out =
      (openedState 4 5 [1] [1, 2, 3]).out ++
        [Msg.VfsWriteResp 5 LIBMVFS_RET_SUCCESS MVFS_READY_WRITE 1] ∧
    ((DoVfsWrite (openedState 4 5 [1] [1, 2, 3]) 5 0 [9]).gBuffer
      NS16550_COM1 BUFMNG_ID_TX).data.length =
      ((DoVfsWrite (openedState 4 5 [1] [1, 2, 3]) 5 0 [9]).gBuffer
        NS16550_COM1 BUFMNG_ID_TX).capacity ∧
    (DoVfsWrite (openedState 4 5 [1] [1, 2, 3]) 5 0 [9]).gReady NS16550_COM1
      &&& MVFS_READY_WRITE = MVFS_READY_WRITE := by
  decide

end Filemng

/-! Edge-only notifications over runs -/

namespace Filemng
open NS16550 NS16550.BufmngId_t NS16550.LibMvfsRet_t Bufmng Txctrl Ioctrl

theorem noticeCount_append (pPath : String) (l1 l2 : List Msg) :
    noticeCount pPath (l1 ++ l2) = noticeCount pPath l1 + noticeCount pPath l2 := by
  simp [noticeCount, List.countP_append]

theorem noticeCount_send (pPath : String) (s : State) (m : Msg) (h : isNotice pPath m = false) :
    noticeCount pPath (s.send m).out = noticeCount pPath s.out := by
  simp [State.send, noticeCount_append, noticeCount, List.countP_cons, h]

theorem TxctrlRequest_notice (pPath : String) (s : State) (comNo : Nat) :
    noticeCount pPath (TxctrlRequest s comNo).out = noticeCount pPath s.out := by
  rw [TxctrlRequest_out, noticeCount_append]
  split_ifs <;> simp [noticeCount, isNotice]

theorem task_notice (pPath : String) (t : MLibStateTransition_t) (ht : t ∈ gStt)
    (s : State) (p : Param) :
    noticeCount pPath (t.task s p).1.out = noticeCount pPath s.out := by
  simp only [gStt, List.mem_cons, List.mem_singleton, List.not_mem_nil, or_false] at ht
  rcases ht with rfl | rfl | rfl | rfl | rfl
  · simp [DoTask11, SendVfsOpenResp, BufmngClear, State.setBuffer, State.send,
      noticeCount_append, noticeCount, isNotice]
  · simp [DoTask12, SendVfsOpenResp, State.send, noticeCount_append, noticeCount, isNotice]
  · simp only [DoTask22, BufmngRead_eq]
    split_ifs <;>
      simp [SendVfsReadResp, State.setBuffer, State.setReady, State.send,
        noticeCount_append, noticeCount, isNotice]
  · simp only [DoTask32]
    rw [TxctrlRequest_notice, (DoTask32_reply_spec _ _ _).1, noticeCount_append]
    have hp : (DoTask32_push s p).1.out = s.out := by
      simp [DoTask32_push, BufmngWrite, State.setBuffer]
    rw [hp]
    split_ifs <;> simp [noticeCount, isNotice]
  · simp [DoTask42, SendVfsCloseResp, State.setReady, State.send,
      noticeCount_append, noticeCount, isNotice]

theorem exec_notice (pPath : String) (s : State) (comNo event : Nat) (p : Param) :
    noticeCount pPath (MLibStateExec gStt s comNo event p).1.out = noticeCount pPath s.out := by
  unfold MLibStateExec
  cases hf : gStt.find? (fun t => t.state == s.gState comNo && t.event == event) with
  | none => rfl
  | some t =>
    have hmem : t ∈ gStt := List.mem_of_find?_eq_some hf
    have := task_notice pPath t hmem s p
    simp only
    split_ifs <;> simpa using this

theorem dispatch_notice (pPath : String) (s : State) (r : Request) :
    noticeCount pPath (dispatch s r).out = noticeCount pPath s.out := by
  cases r with
  | VfsOpen pid gfd path =>
    simp only [dispatch, DoVfsOpen]
    split_ifs <;>
      simp [SendVfsOpenResp, noticeCount_send, isNotice, exec_notice]
  | VfsRead gfd idx size mallocOk =>
    simp only [dispatch, DoVfsRead]
    split_ifs <;>
      simp [SendVfsReadResp, noticeCount_send, isNotice, exec_notice]
  | VfsWrite gfd idx pBuffer =>
    simp only [dispatch, DoVfsWrite]
    split_ifs <;>
      simp [SendVfsWriteResp, noticeCount_send, isNotice, exec_notice]
  | VfsClose gfd =>
    simp only [dispatch, DoVfsClose]
    split_ifs <;>
      simp [SendVfsCloseResp, noticeCount_send, isNotice, exec_notice]

end Filemng

namespace Filemng
open NS16550 NS16550.BufmngId_t NS16550.LibMvfsRet_t Bufmng Txctrl Ioctrl

theorem rises_self (g : Nat) : rises g g = 0 := by
  unfold rises
  have h1 : ¬ (g &&& MVFS_READY_READ = 0 ∧ g &&& MVFS_READY_READ ≠ 0) := fun h => h.2 h.1
  have h2 : ¬ (g &&& MVFS_READY_WRITE = 0 ∧ g &&& MVFS_READY_WRITE ≠ 0) := fun h => h.2 h.1
  rw [if_neg h1, if_neg h2]

theorem rises_set_read (g : Nat) (h : g &&& MVFS_READY_READ = 0) :
    rises g (g ||| MVFS_READY_READ) = 1 := by
  unfold rises
  have h1 : g &&& MVFS_READY_READ = 0 ∧ (g ||| MVFS_READY_READ) &&& MVFS_READY_READ ≠ 0 :=
    ⟨h, by rw [lor_land_self]; decide⟩
  have h2 : ¬ (g &&& MVFS_READY_WRITE = 0 ∧
      (g ||| MVFS_READY_READ) &&& MVFS_READY_WRITE ≠ 0) := by
    rw [lor_land_other g _ _ (by decide)]
    exact fun h => h.2 h.1
  rw [if_pos h1, if_neg h2]

theorem rises_set_write (g : Nat) (h : g &&& MVFS_READY_WRITE = 0) :
    rises g (g ||| MVFS_READY_WRITE) = 1 := by
  unfold rises
  have h1 : ¬ (g &&& MVFS_READY_READ = 0 ∧
      (g ||| MVFS_READY_WRITE) &&& MVFS_READY_READ ≠ 0) := by
    rw [lor_land_other g _ _ (by decide)]
    exact fun h => h.2 h.1
  have h2 : g &&& MVFS_READY_WRITE = 0 ∧ (g ||| MVFS_READY_WRITE) &&& MVFS_READY_WRITE ≠ 0 :=
    ⟨h, by rw [lor_land_self]; decide⟩
  rw [if_neg h1, if_pos h2]

theorem gpPath_ne (c comNo : Nat)
    (hc : c = NS16550_COM1 ∨ c = NS16550_COM2)
    (hp : comNo = NS16550_COM1 ∨ comNo = NS16550_COM2) (hne : c ≠ comNo) :
    (gpPath c == gpPath comNo) = false := by
  rcases hc with rfl | rfl <;> rcases hp with rfl | rfl
  · exact absurd rfl hne
  · decide
  · decide
  · exact absurd rfl hne

theorem update_read_step (s : State) (c comNo : Nat)
    (hc : c = NS16550_COM1 ∨ c = NS16550_COM2)
    (hp : comNo = NS16550_COM1 ∨ comNo = NS16550_COM2) :
    noticeCount (gpPath comNo) (FilemngUpdateReadyRead s c).out =
      noticeCount (gpPath comNo) s.out +
        rises (s.gReady comNo) ((FilemngUpdateReadyRead s c).gReady comNo) := by
  rw [FilemngUpdateReadyRead_eq]
  by_cases hbit : s.gReady c &&& MVFS_READY_READ = 0
  · simp only [hbit, if_true]
    by_cases hcc : c = comNo
    · subst hcc
      simp [noticeCount_append, noticeCount, isNotice, rises_set_read _ hbit]
    · simp [noticeCount_append, noticeCount, isNotice, gpPath_ne c comNo hc hp hcc,
        Function.update_noteq (Ne.symm hcc), rises_self]
  · simp [hbit, rises_self]

theorem update_write_step (s : State) (c comNo : Nat)
    (hc : c = NS16550_COM1 ∨ c = NS16550_COM2)
    (hp : comNo = NS16550_COM1 ∨ comNo = NS16550_COM2) :
    noticeCount (gpPath comNo) (FilemngUpdateReadyWrite s c).out =
      noticeCount (gpPath comNo) s.out +
        rises (s.gReady comNo) ((FilemngUpdateReadyWrite s c).gReady comNo) := by
  rw [FilemngUpdateReadyWrite_eq]
  by_cases hbit : s.gReady c &&& MVFS_READY_WRITE = 0
  · simp only [hbit, if_true]
    by_cases hcc : c = comNo
    · subst hcc
      simp [noticeCount_append, noticeCount, isNotice, rises_set_write _ hbit]
    · simp [noticeCount_append, noticeCount, isNotice, gpPath_ne c comNo hc hp hcc,
        Function.update_noteq (Ne.symm hcc), rises_self]
  · simp [hbit, rises_self]

theorem valid_port (c : Nat) (h : (c == NS16550_COM1 || c == NS16550_COM2) = true) :
    c = NS16550_COM1 ∨ c = NS16550_COM2 := by
  simpa using h

/-- C13 (amended): edge-only notifications.  For every run of operations (VFS requests
and interrupt-side calls of FilemngUpdateReadyRead / FilemngUpdateReadyWrite on the two
ports) and every port, the number of VfsReady notices sent for that port during the run
equals the number of 0-to-1 transitions of the bits of the cached readiness mask of that
port made by the readiness updates of the run.  The VFS requests send no notice, so this
number never exceeds the number of all 0-to-1 transitions of the run: a read or write
reply can itself set a bit, which it reports in the reply instead. -/
theorem notices_equal_update_edges (s : State) (ops : List Op) (comNo : Nat)
    (hp : comNo = NS16550_COM1 ∨ comNo = NS16550_COM2)
    (hv : ∀ op ∈ ops, op.valid = true) :
    noticeCount (gpPath comNo) (run s ops).out =
      noticeCount (gpPath comNo) s.out + risesOfUpdates comNo s ops ∧
    risesOfUpdates comNo s ops ≤ risesOfRun comNo s ops := by
  induction ops generalizing s with
  | nil => simp [run, risesOfUpdates, risesOfRun]
  | cons op rest ih =>
    have hrest : ∀ o ∈ rest, o.valid = true := fun o ho => hv o (List.mem_cons_of_mem _ ho)
    have hop : op.valid = true := hv op (List.mem_cons_self _ _)
    obtain ⟨i1, i2⟩ := ih (Op.exec s op) hrest
    have hrun : run s (op :: rest) = run (Op.exec s op) rest := rfl
    rw [hrun, i1]
    have hstep : noticeCount (gpPath comNo) (Op.exec s op).out =
        noticeCount (gpPath comNo) s.out +
          (if op.isUpdate then rises (s.gReady comNo) ((Op.exec s op).gReady comNo) else 0) := by
      cases op with
      | request r => simp [Op.exec, Op.isUpdate, dispatch_notice]
      | readyRead c =>
        simp only [Op.exec, Op.isUpdate, if_true]
        exact update_read_step s c comNo (valid_port c hop) hp
      | readyWrite c =>
        simp only [Op.exec, Op.isUpdate, if_true]
        exact update_write_step s c comNo (valid_port c hop) hp
    refine ⟨?_, ?_⟩
    · rw [hstep]; simp only [risesOfUpdates]; omega
    · simp only [risesOfUpdates, risesOfRun]
      split_ifs <;> omega

/-- Witness for C13 (amended): a byte-arrival update, a read of one byte and a second
update on the open COM1. -/
theorem notices_equal_update_edges_witness :
    (∀ op ∈ [Op.readyRead NS16550_COM1, Op.request (Request.VfsRead 5 0 8 true),
        Op.readyRead NS16550_COM1], op.valid = true) ∧
    noticeCount (gpPath NS16550_COM1)
        (run (openedState 16 5 [1] [])
          [Op.readyRead NS16550_COM1, Op.request (Request.VfsRead 5 0 8 true),
            Op.readyRead NS16550_COM1]).out =
      noticeCount (gpPath NS16550_COM1) (openedState 16 5 [1] []).out +
        risesOfUpdates NS16550_COM1 (openedState 16 5 [1] [])
          [Op.readyRead NS16550_COM1, Op.request (Request.VfsRead 5 0 8 true),
            Op.readyRead NS16550_COM1] :=
  ⟨by decide,
   (notices_equal_update_edges (openedState 16 5 [1] [])
      [Op.readyRead NS16550_COM1, Op.request (Request.VfsRead 5 0 8 true),
        Op.readyRead NS16550_COM1] NS16550_COM1 (Or.inl rfl) (by decide)).1⟩

/-- Counterexample to C13 as stated: on the open COM1 with one byte in the RX ring and
cached mask 0, the run consisting of one VFS_READ of size 1 sets the READ bit of the
cached mask (one 0-to-1 transition) and sends no VfsReady notice. -/
theorem read_sets_bit_without_notice :
    (openedState 16 5 [1] []).gReady NS16550_COM1 = 0 ∧
    risesOfRun NS16550_COM1 (openedState 16 5 [1] [])
      [Op.request (Request.VfsRead 5 0 1 true)] = 1 ∧
    noticeCount (gpPath NS16550_COM1)
      (run (openedState 16 5 [1] []) [Op.request (Request.VfsRead 5 0 1 true)]).out =
      noticeCount (gpPath NS16550_COM1) (openedState 16 5 [1] []).out := by
  decide

end Filemng

/-! State invariant of the file manager -/

namespace Filemng
open NS16550 NS16550.BufmngId_t NS16550.LibMvfsRet_t Bufmng Txctrl Ioctrl

theorem ConvertGlobalFD_range (s : State) (g : Nat) :
    ConvertGlobalFD s g = NS16550_COM_NULL ∨
      (ConvertGlobalFD s g = NS16550_COM1 ∨ ConvertGlobalFD s g = NS16550_COM2) := by
  unfold ConvertGlobalFD
  split_ifs <;> simp

theorem DoTask22_frame (s : State) (p : Param) :
    (DoTask22 s p).1.gState = s.gState ∧ (DoTask22 s p).1.gGlobalFD = s.gGlobalFD := by
  simp only [DoTask22, BufmngRead_eq]
  split_ifs <;> simp [SendVfsReadResp, State.setBuffer, State.setReady, State.send]

theorem open_effect (s : State) (comNo pid g c : Nat)
    (hp : comNo = NS16550_COM1 ∨ comNo = NS16550_COM2)
    (hst : s.gState comNo = STATE_INIT ∨ s.gState comNo = STATE_OPENED) :
    effect s (DoVfsOpen s pid g (gpPath comNo)) (Request.VfsOpen pid g (gpPath comNo)) c := by
  rcases hst with hst | hst
  · rw [DoVfsOpen_init s comNo pid g hp hst]
    by_cases hcc : c = comNo
    · subst hcc
      exact Or.inr (Or.inl ⟨by simp, pid, g, gpPath c, rfl, by simp⟩)
    · exact Or.inl ⟨by simp [Function.update_noteq hcc], by simp [Function.update_noteq hcc]⟩
  · rw [DoVfsOpen_opened s comNo pid g hp hst]
    exact Or.inl ⟨rfl, rfl⟩

theorem dispatch_effect (s : State) (r : Request)
    (hinv : ∀ c, (c = NS16550_COM1 ∨ c = NS16550_COM2) →
      s.gState c = STATE_INIT ∨ s.gState c = STATE_OPENED)
    (c : Nat) :
    effect s (dispatch s r) r c := by
  cases r with
  | VfsOpen pid g path =>
    by_cases h1 : CONFIG_FILEPATH_SERIAL1 = path
    · subst h1
      exact open_effect s NS16550_COM1 pid g c (Or.inl rfl) (hinv _ (Or.inl rfl))
    · by_cases h2 : CONFIG_FILEPATH_SERIAL2 = path
      · subst h2
        exact open_effect s NS16550_COM2 pid g c (Or.inr rfl) (hinv _ (Or.inr rfl))
      · exact Or.inl (by simp [dispatch, DoVfsOpen, h1, h2, SendVfsOpenResp, State.send])
  | VfsRead g idx size mallocOk =>
    rcases ConvertGlobalFD_range s g with hn | hr
    · exact Or.inl (by simp [dispatch, DoVfsRead, hn, SendVfsReadResp, State.send])
    · have hnull : ConvertGlobalFD s g ≠ NS16550_COM_NULL := by
        rcases hr with h | h <;> rw [h] <;> decide
      rcases hinv _ hr with hst | hst
      · exact Or.inl (by
          simp [dispatch, DoVfsRead, hnull, SendVfsReadResp, State.send,
            exec_no_transition s _ EVENT_VFSREAD _ hst (by decide)])
      · have hu : Function.update s.gState (ConvertGlobalFD s g) STATE_OPENED = s.gState := by
          rw [← hst]; exact Function.update_eq_self _ _
        obtain ⟨f1, f2⟩ := DoTask22_frame s ⟨ConvertGlobalFD s g, 0, g, idx, [], size, mallocOk⟩
        refine Or.inl ?_
        simp only [dispatch]
        rw [DoVfsRead_opened s _ g idx size mallocOk rfl hnull hst]
        simp only [f1, f2, hu, and_self]
  | VfsWrite g idx pBuffer =>
    rcases ConvertGlobalFD_range s g with hn | hr
    · exact Or.inl (by simp [dispatch, DoVfsWrite, hn, SendVfsWriteResp, State.send])
    · have hnull : ConvertGlobalFD s g ≠ NS16550_COM_NULL := by
        rcases hr with h | h <;> rw [h] <;> decide
      rcases hinv _ hr with hst | hst
      · exact Or.inl (by
          simp [dispatch, DoVfsWrite, hnull, SendVfsWriteResp, State.send,
            exec_no_transition s _ EVENT_VFSWRITE _ hst (by decide)])
      · obtain ⟨_, _, w3, w4⟩ := DoVfsWrite_spec s _ g idx pBuffer rfl hr hst
        exact Or.inl (by simp only [dispatch, w3, w4, and_self])
  | VfsClose g =>
    rcases ConvertGlobalFD_range s g with hn | hr
    · exact Or.inl (by simp [dispatch, DoVfsClose, hn, SendVfsCloseResp, State.send])
    · have hnull : ConvertGlobalFD s g ≠ NS16550_COM_NULL := by
        rcases hr with h | h <;> rw [h] <;> decide
      rcases hinv _ hr with hst | hst
      · exact Or.inl (by
          simp [dispatch, DoVfsClose, hnull, SendVfsCloseResp, State.send,
            exec_no_transition s _ EVENT_VFSCLOSE _ hst (by decide)])
      · simp only [dispatch]
        rw [DoVfsClose_opened s _ g rfl hnull hst]
        by_cases hcc : c = ConvertGlobalFD s g
        · exact Or.inr (Or.inr (by rw [hcc]; simp))
        · exact Or.inl ⟨by simp [Function.update_noteq hcc],
            by simp [Function.update_noteq hcc]⟩

theorem FilemngInit_state (s0 : State) (c : Nat)
    (hc : c = NS16550_COM1 ∨ c = NS16550_COM2) :
    (FilemngInit s0).gState c = STATE_INIT := by
  rcases hc with rfl | rfl <;>
    simp [FilemngInit, Init, CreateFile, State.send, State.setReady, Function.update,
      NS16550_COM1, NS16550_COM2, NS16550_COM_MAX]

theorem runRequests_invariant (rs : List Request) : ∀ s : State,
    (∀ c, (c = NS16550_COM1 ∨ c = NS16550_COM2) →
      s.gState c = STATE_INIT ∨ s.gState c = STATE_OPENED) →
    (∀ c, (c = NS16550_COM1 ∨ c = NS16550_COM2) →
      (runRequests s rs).gState c = STATE_INIT ∨ (runRequests s rs).gState c = STATE_OPENED) ∧
    ((∀ r ∈ rs, r.gfdNonZero) →
      (∀ c, (c = NS16550_COM1 ∨ c = NS16550_COM2) →
        s.gState c = STATE_OPENED → s.gGlobalFD c ≠ 0) →
      ∀ c, (c = NS16550_COM1 ∨ c = NS16550_COM2) →
        (runRequests s rs).gState c = STATE_OPENED → (runRequests s rs).gGlobalFD c ≠ 0) := by
  induction rs with
  | nil => intro s h; exact ⟨h, fun _ h2 => h2⟩
  | cons r rest ih =>
    intro s hinv
    have hinv1 : ∀ c, (c = NS16550_COM1 ∨ c = NS16550_COM2) →
        (dispatch s r).gState c = STATE_INIT ∨ (dispatch s r).gState c = STATE_OPENED := by
      intro c hc
      rcases dispatch_effect s r hinv c with ⟨h1, _⟩ | ⟨h1, _⟩ | h1
      · rw [h1]; exact hinv c hc
      · exact Or.inr h1
      · exact Or.inl h1
    obtain ⟨i1, i2⟩ := ih (dispatch s r) hinv1
    refine ⟨i1, ?_⟩
    intro hnz hfd
    apply i2 (fun q hq => hnz q (List.mem_cons_of_mem _ hq))
    intro c hc hopen
    have hr : r.gfdNonZero := hnz r (List.mem_cons_self _ _)
    rcases dispatch_effect s r hinv c with ⟨h1, h2⟩ | ⟨_, pid, g, path, hreq, h2⟩ | h1
    · rw [h2]; exact hfd c hc (by rw [← h1]; exact hopen)
    · rw [h2]; subst hreq; exact hr
    · rw [h1] at hopen; exact absurd hopen (by decide)

/-- C15 (amended): in every state reached from the initialisation by any sequence of
VFS_OPEN / VFS_READ / VFS_WRITE / VFS_CLOSE requests with arbitrary arguments, the state
of each port is CLOSED or OPENED; and when every VFS_OPEN of the sequence carries a
non-zero gfd, a port in the OPENED state has a recorded gfd different from 0. -/
theorem state_closed_or_opened_with_gfd (s0 : State) (rs : List Request) (comNo : Nat)
    (hp : comNo = NS16550_COM1 ∨ comNo = NS16550_COM2) :
    ((runRequests (FilemngInit s0) rs).gState comNo = STATE_INIT ∨
      (runRequests (FilemngInit s0) rs).gState comNo = STATE_OPENED) ∧
    ((∀ r ∈ rs, r.gfdNonZero) →
      (runRequests (FilemngInit s0) rs).gState comNo = STATE_OPENED →
      (runRequests (FilemngInit s0) rs).gGlobalFD comNo ≠ 0) := by
  have hinit : ∀ c, (c = NS16550_COM1 ∨ c = NS16550_COM2) →
      (FilemngInit s0).gState c = STATE_INIT ∨ (FilemngInit s0).gState c = STATE_OPENED :=
    fun c hc => Or.inl (FilemngInit_state s0 c hc)
  obtain ⟨i1, i2⟩ := runRequests_invariant rs (FilemngInit s0) hinit
  refine ⟨i1 comNo hp, fun hnz => ?_⟩
  apply i2 hnz _ comNo hp
  intro c hc hopen
  rw [FilemngInit_state s0 c hc] at hopen
  exact absurd hopen (by decide)

/-- Witness for C15 (amended): open of /serial1 with descriptor 5, a write, and a read on
an unknown descriptor. -/
theorem state_closed_or_opened_with_gfd_witness :
    ((NS16550_COM1 = NS16550_COM1 ∨ NS16550_COM1 = NS16550_COM2) ∧
      (∀ r ∈ [Request.VfsOpen 1 5 CONFIG_FILEPATH_SERIAL1, Request.VfsWrite 5 0 [1, 2],
          Request.VfsRead 9 0 4 true], r.gfdNonZero)) ∧
    ((runRequests (FilemngInit (bootState 16))
        [Request.VfsOpen 1 5 CONFIG_FILEPATH_SERIAL1, Request.VfsWrite 5 0 [1, 2],
          Request.VfsRead 9 0 4 true]).gState NS16550_COM1 = STATE_OPENED →
      (runRequests (FilemngInit (bootState 16))
        [Request.VfsOpen 1 5 CONFIG_FILEPATH_SERIAL1, Request.VfsWrite 5 0 [1, 2],
          Request.VfsRead 9 0 4 true]).gGlobalFD NS16550_COM1 ≠ 0) :=
  ⟨⟨Or.inl rfl, by simp [Request.gfdNonZero]⟩,
   (state_closed_or_opened_with_gfd (bootState 16)
      [Request.VfsOpen 1 5 CONFIG_FILEPATH_SERIAL1, Request.VfsWrite 5 0 [1, 2],
        Request.VfsRead 9 0 4 true] NS16550_COM1 (Or.inl rfl)).2
      (by simp [Request.gfdNonZero])⟩

/-- Counterexample to C15 as stated: after the initialisation, VFS_OPEN of /serial1 with
gfd 0 is answered OPEN/SUCCESS and leaves COM1 in the OPENED state with recorded gfd
0. -/
theorem open_with_gfd_zero :
    (runRequests (FilemngInit (bootState 16))
      [Request.VfsOpen 1 0 CONFIG_FILEPATH_SERIAL1]).out =
      (FilemngInit (bootState 16)).out ++ [Msg.VfsOpenResp 0 LIBMVFS_RET_SUCCESS] ∧
    (runRequests (FilemngInit (bootState 16))
      [Request.VfsOpen 1 0 CONFIG_FILEPATH_SERIAL1]).gState NS16550_COM1 = STATE_OPENED ∧
    (runRequests (FilemngInit (bootState 16))
      [Request.VfsOpen 1 0 CONFIG_FILEPATH_SERIAL1]).gGlobalFD NS16550_COM1 = 0 := by
  decide

end Filemng

/-! Ioctrl.c: the divisor latch and the initial register values -/

namespace Ioctrl
open NS16550

set_option maxRecDepth 100000 in
theorem dlab_bytes : ∀ x, x < 256 →
    (NS16550_LCR_DLAB_ON ||| (x &&& (255 ^^^ NS16550_LCR_DLAB))) % 256 = x ||| 0x80 ∧
    (NS16550_LCR_DLAB_OFF ||| ((x ||| 0x80) &&& (255 ^^^ NS16550_LCR_DLAB))) % 256
      = x &&& 0x7F ∧
    (x &&& 0x7F) &&& 0x80 = 0 ∧ (x &&& 0x7F) ||| (x &&& 0x80) = x := by
  decide

theorem divisor_bytes (d : Nat) (h : d < 65536) :
    (d &&& 0xFF) % 256 = d &&& 0xFF ∧ ((d >>> 8) &&& 0xFF) % 256 = (d >>> 8) &&& 0xFF ∧
    (d &&& 0xFF) ||| (((d >>> 8) &&& 0xFF) <<< 8) = d := by
  have h1 : d &&& 0xFF < 256 := Nat.lt_of_le_of_lt Nat.and_le_right (by decide)
  have h2 : (d >>> 8) &&& 0xFF < 256 := Nat.lt_of_le_of_lt Nat.and_le_right (by decide)
  refine ⟨Nat.mod_eq_of_lt h1, Nat.mod_eq_of_lt h2, ?_⟩
  apply Nat.eq_of_testBit_eq
  intro i
  simp only [Nat.testBit_or, Nat.testBit_and, Nat.testBit_shiftLeft, Nat.testBit_shiftRight]
  have h255 : ∀ j, Nat.testBit 255 j = decide (j < 8) := by
    intro j
    have : (255 : Nat) = 2 ^ 8 - 1 := by decide
    rw [this, Nat.testBit_two_pow_sub_one]
  by_cases hi : i < 8
  · have : ¬ (i ≥ 8) := by omega
    simp [h255, hi, this]
  · have hge : i ≥ 8 := by omega
    by_cases hi2 : i < 16
    · have : i - 8 < 8 := by omega
      have e : 8 + (i - 8) = i := by omega
      simp [h255, hi, hge, this, e]
    · have : Nat.testBit d i = false := by
        apply Nat.testBit_lt_two_pow
        calc d < 65536 := h
          _ = 2 ^ 16 := by decide
          _ ≤ 2 ^ i := Nat.pow_le_pow_right (by decide) (by omega)
      have e : 8 + (i - 8) = i := by omega
      simp [h255, hi, this, e]

/-- C26: IoctrlSetDivisorLatch(port, d), for a 16-bit d and a prior 8-bit LCR shadow L,
appends exactly four port writes to the trace, in this order: L | 0x80 to LCR, d & 0xFF to
DLL, (d >> 8) & 0xFF to DLM, L & 0x7F to LCR; the two divisor bytes recombine to d;
afterwards the divisor shadow is d, the LCR shadow is L & 0x7F, which has the DLAB bit
clear and agrees with L on all other bits, and the IER, FCR and MCR shadows of the port,
the shadows of the other ports and the rest of the state are unchanged. -/
theorem IoctrlSetDivisorLatch_four_writes (s : State) (comNo d : Nat)
    (hd : d < 65536) (hl : (s.gCtrlInfo comNo).lcr < 256) :
    (IoctrlSetDivisorLatch s comNo d).out = s.out ++
      [Msg.IoPortOut (gIoBase comNo + NS16550_LCR) [(s.gCtrlInfo comNo).lcr ||| 0x80],
       Msg.IoPortOut (gIoBase comNo + NS16550_DLL) [d &&& 0xFF],
       Msg.IoPortOut (gIoBase comNo + NS16550_DLM) [(d >>> 8) &&& 0xFF],
       Msg.IoPortOut (gIoBase comNo + NS16550_LCR) [(s.gCtrlInfo comNo).lcr &&& 0x7F]] ∧
    (d &&& 0xFF) ||| (((d >>> 8) &&& 0xFF) <<< 8) = d ∧
    ((IoctrlSetDivisorLatch s comNo d).gCtrlInfo comNo).dl = d ∧
    ((IoctrlSetDivisorLatch s comNo d).gCtrlInfo comNo).lcr = (s.gCtrlInfo comNo).lcr &&& 0x7F ∧
    ((s.gCtrlInfo comNo).lcr &&& 0x7F) &&& NS16550_LCR_DLAB = 0 ∧
    ((s.gCtrlInfo comNo).lcr &&& 0x7F) ||| ((s.gCtrlInfo comNo).lcr &&& NS16550_LCR_DLAB)
      = (s.gCtrlInfo comNo).lcr ∧
    ((IoctrlSetDivisorLatch s comNo d).gCtrlInfo comNo).ier = (s.gCtrlInfo comNo).ier ∧
    ((IoctrlSetDivisorLatch s comNo d).gCtrlInfo comNo).fcr = (s.gCtrlInfo comNo).fcr ∧
    ((IoctrlSetDivisorLatch s comNo d).gCtrlInfo comNo).mcr = (s.gCtrlInfo comNo).mcr ∧
    (∀ c, c ≠ comNo → (IoctrlSetDivisorLatch s comNo d).gCtrlInfo c = s.gCtrlInfo c) ∧
    (IoctrlSetDivisorLatch s comNo d).gBuffer = s.gBuffer ∧
    (IoctrlSetDivisorLatch s comNo d).gState = s.gState ∧
    (IoctrlSetDivisorLatch s comNo d).gGlobalFD = s.gGlobalFD ∧
    (IoctrlSetDivisorLatch s comNo d).gReady = s.gReady ∧
    (IoctrlSetDivisorLatch s comNo d).gTxState = s.gTxState := by
  obtain ⟨b1, b2, b3, b4⟩ := dlab_bytes _ hl
  obtain ⟨d1, d2, d3⟩ := divisor_bytes d hd
  have e : (IoctrlSetDivisorLatch s comNo d) =
      { s with
        gCtrlInfo := Function.update s.gCtrlInfo comNo
          { s.gCtrlInfo comNo with dl := d, lcr := (s.gCtrlInfo comNo).lcr &&& 0x7F }
        out := s.out ++
          [Msg.IoPortOut (gIoBase comNo + NS16550_LCR) [(s.gCtrlInfo comNo).lcr ||| 0x80],
           Msg.IoPortOut (gIoBase comNo + NS16550_DLL) [d &&& 0xFF],
           Msg.IoPortOut (gIoBase comNo + NS16550_DLM) [(d >>> 8) &&& 0xFF],
           Msg.IoPortOut (gIoBase comNo + NS16550_LCR) [(s.gCtrlInfo comNo).lcr &&& 0x7F]] } := by
    simp only [IoctrlSetDivisorLatch, IoctrlSetLCR_eq, LibMkIoPortOutByte, State.send,
      State.setCtrlInfo, Function.update_same, Function.update_idem, d1, d2, b1, b2,
      List.append_assoc, List.singleton_append, List.cons_append, List.nil_append]
  rw [e]
  refine ⟨rfl, d3, ?_, ?_, b3, b4, ?_, ?_, ?_, ?_, rfl, rfl, rfl, rfl, rfl⟩
  · simp
  · simp
  · simp
  · simp
  · simp
  · intro c hc
    simp [Function.update_noteq hc]

/-- Witness for C26: COM1 with LCR shadow 0x1B and divisor 0x0180 on the booted driver
state. -/
theorem IoctrlSetDivisorLatch_four_writes_witness :
    (IoctrlSetDivisorLatch
        ((Filemng.bootState 16).setCtrlInfo NS16550_COM1 ⟨0, 0, 0, 0x1B, 0⟩)
        NS16550_COM1 0x0180).out =
      ((Filemng.bootState 16).setCtrlInfo NS16550_COM1 ⟨0, 0, 0, 0x1B, 0⟩).out ++
        [Msg.IoPortOut 0x3FB [0x9B], Msg.IoPortOut 0x3F8 [0x80], Msg.IoPortOut 0x3F9 [0x01],
         Msg.IoPortOut 0x3FB [0x1B]] :=
  (IoctrlSetDivisorLatch_four_writes
    ((Filemng.bootState 16).setCtrlInfo NS16550_COM1 ⟨0, 0, 0, 0x1B, 0⟩)
    NS16550_COM1 0x0180 (by decide) (by decide)).1

/-- C27: after Init of Ioctrl.c on a port, whatever the state held before, the IER shadow
of the port is 0x00, its LCR shadow 0x03, its divisor shadow 0x000C, its FCR shadow 0xC1
(which is 0xC7 with the two FIFO reset bits cleared) and its MCR shadow 0x08; the port
writes of the initialisation are, in order, IER 0x00, MCR 0x08, LCR 0x03, LCR 0x83,
DLL 0x0C, DLM 0x00, LCR 0x03 and FCR 0xC7, so the byte written to FCR is 0xC7. -/
theorem Init_register_values (s : State) (comNo : Nat) :
    ((Init s comNo).gCtrlInfo comNo).ier = 0x00 ∧
    ((Init s comNo).gCtrlInfo comNo).lcr = 0x03 ∧
    ((Init s comNo).gCtrlInfo comNo).dl = 0x000C ∧
    ((Init s comNo).gCtrlInfo comNo).fcr = 0xC1 ∧
    0xC7 &&& (255 ^^^ (NS16550_FCR_TXFIFO ||| NS16550_FCR_RXFIFO)) = 0xC1 ∧
    ((Init s comNo).gCtrlInfo comNo).mcr = 0x08 ∧
    (Init s comNo).out = s.out ++
      [Msg.IoPortOut (gIoBase comNo + NS16550_IER) [0x00],
       Msg.IoPortOut (gIoBase comNo + NS16550_MCR) [0x08],
       Msg.IoPortOut (gIoBase comNo + NS16550_LCR) [0x03],
       Msg.IoPortOut (gIoBase comNo + NS16550_LCR) [0x83],
       Msg.IoPortOut (gIoBase comNo + NS16550_DLL) [0x0C],
       Msg.IoPortOut (gIoBase comNo + NS16550_DLM) [0x00],
       Msg.IoPortOut (gIoBase comNo + NS16550_LCR) [0x03],
       Msg.IoPortOut (gIoBase comNo + NS16550_FCR) [0xC7]] := by
  have e : Init s comNo =
      { s with
        gCtrlInfo := Function.update s.gCtrlInfo comNo ⟨0x000C, 0x00, 0xC1, 0x03, 0x08⟩
        out := s.out ++
          [Msg.IoPortOut (gIoBase comNo + NS16550_IER) [0x00],
           Msg.IoPortOut (gIoBase comNo + NS16550_MCR) [0x08],
           Msg.IoPortOut (gIoBase comNo + NS16550_LCR) [0x03],
           Msg.IoPortOut (gIoBase comNo + NS16550_LCR) [0x83],
           Msg.IoPortOut (gIoBase comNo + NS16550_DLL) [0x0C],
           Msg.IoPortOut (gIoBase comNo + NS16550_DLM) [0x00],
           Msg.IoPortOut (gIoBase comNo + NS16550_LCR) [0x03],
           Msg.IoPortOut (gIoBase comNo + NS16550_FCR) [0xC7]] } := by
    simp only [Init, IoctrlSetDivisorLatch, IoctrlSetFCR, IoctrlSetIER_eq, IoctrlSetMCR_eq,
      IoctrlSetLCR_eq, LibMkIoPortOutByte, State.send,
      State.setCtrlInfo, Function.update_same, Function.update_idem,
      List.append_assoc, List.singleton_append, List.cons_append, List.nil_append]
    rfl
  rw [e]
  refine ⟨?_, ?_, ?_, ?_, by decide, ?_, rfl⟩ <;> simp

end Ioctrl

/-! Buffer.c: every run of calls stays in bounds -/

namespace Buffer

theorem BufferCall_exec_WF (size : Nat) (hs : size < 4294967296) (b : Buffer_t)
    (h : WF size b) (c : BufferCall) : WF size (BufferCall.exec size b c) := by
  cases c with
  | Write value => exact (BufferWrite_spec size b value hs h).1
  | Read =>
    by_cases he : b.readIdx = b.writeIdx
    · simp only [BufferCall.exec, BufferRead_empty size b he]
      exact h
    · exact (BufferRead_nonempty size b hs h he).2.1

theorem runCalls_WF (size : Nat) (hs : size < 4294967296) (calls : List BufferCall) :
    ∀ b : Buffer_t, WF size b → WF size (runCalls size b calls) := by
  induction calls with
  | nil => intro b h; exact h
  | cons c t ih =>
    intro b h
    simp only [runCalls, List.foldl_cons]
    exact ih _ (BufferCall_exec_WF size hs b h c)

theorem runCalls_writes (size : Nat) (b : Buffer_t) (l : List Nat) :
    runCalls size b (l.map BufferCall.Write) = writeAll size b l := by
  simp only [runCalls, writeAll, List.foldl_map]
  rfl

theorem BufferInit_WF : WF BUFFER_SIZE BufferInit := by
  constructor <;> decide

/-- C30: for the ring of Buffer.c with BUFFER_SIZE = 4096 and every sequence of BufferWrite
and BufferRead calls from the zero-initialised ring: readIdx and writeIdx stay below
BUFFER_SIZE; the ring holds at most 4095 readable bytes, and 4095 writes from the initial
ring reach that bound; BufferRead returns false (no value) exactly when readIdx equals
writeIdx; and a BufferWrite of a byte v into the ring when it holds 4095 bytes leaves the
ring holding 4095 bytes, namely the former contents without their oldest byte followed by
v. -/
theorem ring_stays_in_bounds (calls : List BufferCall) :
    (runCalls BUFFER_SIZE BufferInit calls).readIdx < BUFFER_SIZE ∧
    (runCalls BUFFER_SIZE BufferInit calls).writeIdx < BUFFER_SIZE ∧
    (contents BUFFER_SIZE (runCalls BUFFER_SIZE BufferInit calls)).length ≤ 4095 ∧
    (contents BUFFER_SIZE
      (runCalls BUFFER_SIZE BufferInit ((List.replicate 4095 0).map BufferCall.Write))).length
        = 4095 ∧
    ((BufferRead BUFFER_SIZE (runCalls BUFFER_SIZE BufferInit calls)).2 = none ↔
      (runCalls BUFFER_SIZE BufferInit calls).readIdx =
        (runCalls BUFFER_SIZE BufferInit calls).writeIdx) ∧
    (∀ v, (contents BUFFER_SIZE (runCalls BUFFER_SIZE BufferInit calls)).length = 4095 →
      contents BUFFER_SIZE (BufferWrite BUFFER_SIZE (runCalls BUFFER_SIZE BufferInit calls) v) =
        (contents BUFFER_SIZE (runCalls BUFFER_SIZE BufferInit calls)).drop 1 ++ [v] ∧
      (contents BUFFER_SIZE
        (BufferWrite BUFFER_SIZE (runCalls BUFFER_SIZE BufferInit calls) v)).length = 4095) := by
  have hwf := runCalls_WF BUFFER_SIZE BUFFER_SIZE_lt calls BufferInit BufferInit_WF
  have hlt := count_lt BUFFER_SIZE _ hwf
  have hsz : BUFFER_SIZE = 4096 := rfl
  refine ⟨hwf.1, hwf.2, ?_, ?_, ?_, ?_⟩
  · rw [contents_length]; omega
  · rw [runCalls_writes,
      (writeAll_spec BUFFER_SIZE BUFFER_SIZE_lt (List.replicate 4095 0) BufferInit
        BufferInit_WF).2]
    have h0 : contents BUFFER_SIZE BufferInit = [] := contents_empty BUFFER_SIZE _ 0
    rw [h0, List.nil_append, lastN_of_le]
    · exact List.length_replicate _ _
    · rw [List.length_replicate, hsz]
  · by_cases he : (runCalls BUFFER_SIZE BufferInit calls).readIdx =
        (runCalls BUFFER_SIZE BufferInit calls).writeIdx
    · simp [BufferRead_empty BUFFER_SIZE _ he, he]
    · simp [(BufferRead_nonempty BUFFER_SIZE _ BUFFER_SIZE_lt hwf he).1, he]
  · intro v hfull
    have hc : count BUFFER_SIZE (runCalls BUFFER_SIZE BufferInit calls) = 4095 := by
      rw [← contents_length]; exact hfull
    have hw := (BufferWrite_spec BUFFER_SIZE _ v BUFFER_SIZE_lt hwf).2
    have e : count BUFFER_SIZE (runCalls BUFFER_SIZE BufferInit calls) + 2 - BUFFER_SIZE = 1 := by
      rw [hc]; rfl
    rw [e] at hw
    refine ⟨?_, ?_⟩
    · rw [hw, List.drop_append_of_le_length (by rw [hfull]; decide)]
    · rw [hw, List.length_drop, List.length_append, hfull]
      rfl

end Buffer

/-! Filemng.c: one reply per request -/

namespace Filemng
open NS16550 NS16550.BufmngId_t NS16550.LibMvfsRet_t Bufmng Txctrl Ioctrl

theorem replies_append (l1 l2 : List Msg) : replies (l1 ++ l2) = replies l1 ++ replies l2 := by
  simp [replies, List.filterMap_append]

theorem TxctrlRequest_replies (s : State) (comNo : Nat) :
    replies (TxctrlRequest s comNo).out = replies s.out := by
  rw [TxctrlRequest_out, replies_append]
  split_ifs <;> simp [replies, replyOf]

/-- Every task of the transition table sends exactly one reply, of the opcode of its row
and keyed by the descriptor of the parameter, and returns a state its row admits. -/
theorem task_reply (t : MLibStateTransition_t) (ht : t ∈ gStt) (s : State) (p : Param) :
    replies (t.task s p).1.out = replies s.out ++ [(t.event, p.globalFD)] ∧
    (t.task s p).2 ∈ t.next := by
  simp only [gStt, List.mem_cons, List.mem_singleton, List.not_mem_nil, or_false] at ht
  rcases ht with rfl | rfl | rfl | rfl | rfl
  · simp [DoTask11, SendVfsOpenResp, BufmngClear, State.setBuffer, State.send,
      replies_append, replies, replyOf]
  · simp [DoTask12, SendVfsOpenResp, State.send, replies_append, replies, replyOf]
  · refine ⟨?_, ?_⟩
    · simp only [DoTask22, BufmngRead_eq]
      split_ifs <;>
        simp [SendVfsReadResp, State.setBuffer, State.setReady, State.send,
          replies_append, replies, replyOf]
    · rw [DoTask22_ret]; simp
  · refine ⟨?_, ?_⟩
    · simp only [DoTask32]
      rw [TxctrlRequest_replies, (DoTask32_reply_spec _ _ _).1, replies_append]
      have hp : (DoTask32_push s p).1.out = s.out := by
        simp [DoTask32_push, BufmngWrite, State.setBuffer]
      rw [hp]
      split_ifs <;> simp [replies, replyOf]
    · simp [DoTask32]
  · simp [DoTask42, SendVfsCloseResp, State.setReady, State.send,
      replies_append, replies, replyOf]

/-- The state machine call either runs a task, which sends the one reply of the event, or
fails without touching the trace. -/
theorem exec_reply (s : State) (comNo event : Nat) (p : Param) :
    ((MLibStateExec gStt s comNo event p).2 = true ∧
      replies (MLibStateExec gStt s comNo event p).1.out =
        replies s.out ++ [(event, p.globalFD)]) ∨
    ((MLibStateExec gStt s comNo event p).2 = false ∧
      (MLibStateExec gStt s comNo event p).1.out = s.out) := by
  unfold MLibStateExec
  cases hf : gStt.find? (fun t => t.state == s.gState comNo && t.event == event) with
  | none => right; exact ⟨rfl, rfl⟩
  | some t =>
    have hmem : t ∈ gStt := List.mem_of_find?_eq_some hf
    have hev : t.event = event := by
      have := List.find?_some hf
      simp only [Bool.and_eq_true, beq_iff_eq] at this
      exact this.2
    obtain ⟨h1, h2⟩ := task_reply t hmem s p
    left
    simp only [h2, if_true]
    rw [← hev]
    exact ⟨trivial, h1⟩

/-- C29: in every state, each of the four request callbacks adds exactly one reply to the
trace, and that reply has the opcode of the callback and the inbound descriptor: DoVfsOpen
one open reply, DoVfsRead one read reply (also when the allocation of the read task
fails), DoVfsWrite one write reply, DoVfsClose one close reply.  This covers every path:
unresolvable path or descriptor, no transition for the event in the current state, and a
transition task handling the request. -/
theorem one_reply_per_request (s : State) :
    (∀ pid gfd path,
      replies (DoVfsOpen s pid gfd path).out = replies s.out ++ [(EVENT_VFSOPEN, gfd)]) ∧
    (∀ gfd idx size mallocOk,
      replies (DoVfsRead s gfd idx size mallocOk).out =
        replies s.out ++ [(EVENT_VFSREAD, gfd)]) ∧
    (∀ gfd idx pBuffer,
      replies (DoVfsWrite s gfd idx pBuffer).out = replies s.out ++ [(EVENT_VFSWRITE, gfd)]) ∧
    (∀ gfd, replies (DoVfsClose s gfd).out = replies s.out ++ [(EVENT_VFSCLOSE, gfd)]) := by
  refine ⟨?_, ?_, ?_, ?_⟩
  · intro pid gfd path
    simp only [DoVfsOpen]
    split_ifs with h1 h2 h3 h4
    · rcases exec_reply s NS16550_COM1 EVENT_VFSOPEN ⟨NS16550_COM1, pid, gfd, 0, [], 0, true⟩
        with ⟨a, _⟩ | ⟨_, b⟩
      · rw [a] at h2; exact absurd h2 (by decide)
      · simp [SendVfsOpenResp, State.send, replies_append, b, replies, replyOf]
    · rcases exec_reply s NS16550_COM1 EVENT_VFSOPEN ⟨NS16550_COM1, pid, gfd, 0, [], 0, true⟩
        with ⟨_, b⟩ | ⟨a, _⟩
      · exact b
      · exact absurd a h2
    · rcases exec_reply s NS16550_COM2 EVENT_VFSOPEN ⟨NS16550_COM2, pid, gfd, 0, [], 0, true⟩
        with ⟨a, _⟩ | ⟨_, b⟩
      · rw [a] at h4; exact absurd h4 (by decide)
      · simp [SendVfsOpenResp, State.send, replies_append, b, replies, replyOf]
    · rcases exec_reply s NS16550_COM2 EVENT_VFSOPEN ⟨NS16550_COM2, pid, gfd, 0, [], 0, true⟩
        with ⟨_, b⟩ | ⟨a, _⟩
      · exact b
      · exact absurd a h4
    · simp [SendVfsOpenResp, State.send, replies_append, replies, replyOf]
  · intro gfd idx size mallocOk
    simp only [DoVfsRead]
    split_ifs with h1 h2
    · simp [SendVfsReadResp, State.send, replies_append, replies, replyOf]
    · rcases exec_reply s (ConvertGlobalFD s gfd) EVENT_VFSREAD
        ⟨ConvertGlobalFD s gfd, 0, gfd, idx, [], size, mallocOk⟩ with ⟨a, _⟩ | ⟨_, b⟩
      · rw [a] at h2; exact absurd h2 (by decide)
      · simp [SendVfsReadResp, State.send, replies_append, b, replies, replyOf]
    · rcases exec_reply s (ConvertGlobalFD s gfd) EVENT_VFSREAD
        ⟨ConvertGlobalFD s gfd, 0, gfd, idx, [], size, mallocOk⟩ with ⟨_, b⟩ | ⟨a, _⟩
      · exact b
      · exact absurd a h2
  · intro gfd idx pBuffer
    simp only [DoVfsWrite]
    split_ifs with h1 h2
    · simp [SendVfsWriteResp, State.send, replies_append, replies, replyOf]
    · rcases exec_reply s (ConvertGlobalFD s gfd) EVENT_VFSWRITE
        ⟨ConvertGlobalFD s gfd, 0, gfd, idx, pBuffer, pBuffer.length, true⟩
        with ⟨a, _⟩ | ⟨_, b⟩
      · rw [a] at h2; exact absurd h2 (by decide)
      · simp [SendVfsWriteResp, State.send, replies_append, b, replies, replyOf]
    · rcases exec_reply s (ConvertGlobalFD s gfd) EVENT_VFSWRITE
        ⟨ConvertGlobalFD s gfd, 0, gfd, idx, pBuffer, pBuffer.length, true⟩
        with ⟨_, b⟩ | ⟨a, _⟩
      · exact b
      · exact absurd a h2
  · intro gfd
    simp only [DoVfsClose]
    split_ifs with h1 h2
    · simp [SendVfsCloseResp, State.send, replies_append, replies, replyOf]
    · rcases exec_reply s (ConvertGlobalFD s gfd) EVENT_VFSCLOSE
        ⟨ConvertGlobalFD s gfd, 0, gfd, 0, [], 0, true⟩ with ⟨a, _⟩ | ⟨_, b⟩
      · rw [a] at h2; exact absurd h2 (by decide)
      · simp [SendVfsCloseResp, State.send, replies_append, b, replies, replyOf]
    · rcases exec_reply s (ConvertGlobalFD s gfd) EVENT_VFSCLOSE
        ⟨ConvertGlobalFD s gfd, 0, gfd, 0, [], 0, true⟩ with ⟨_, b⟩ | ⟨a, _⟩
      · exact b
      · exact absurd a h2

end Filemng

/-! Receive.c: the receive drain of the message-passing design -/

namespace Receive
open NS16550 Buffer Buffer.BufferId_t Ctrl

theorem drainReads_succ (comNo n : Nat) :
    drainReads comNo (n + 1) =
      (gIoBase comNo + NS16550_LSR) :: (gIoBase comNo + NS16550_RBR) :: drainReads comNo n := by
  simp [drainReads, List.replicate_succ]

theorem responses_cons (p : Nat × Nat) (pairs : List (Nat × Nat)) (lsrEnd : Nat)
    (rest : List Nat) :
    responses (p :: pairs) lsrEnd rest = p.1 :: p.2 :: responses pairs lsrEnd rest := by
  simp [responses]

theorem responses_length (pairs : List (Nat × Nat)) (lsrEnd : Nat) (rest : List Nat) :
    (responses pairs lsrEnd rest).length = 2 * pairs.length + 1 + rest.length := by
  induction pairs with
  | nil => simp [responses]; omega
  | cons p ps ih => rw [responses_cons]; simp only [List.length_cons, ih]; omega

/-- The loop of ProcInterruptRx, entered with the byte r waiting in RBR: it writes r and
the bytes of the following pairs to the receive ring and stops at the closing LSR value. -/
theorem ProcInterruptRx_loop_spec (comNo lsrEnd : Nat) (rest : List Nat)
    (hend : (lsrEnd % 256) &&& NS16550_LSR_DR = NS16550_LSR_DR_NO) :
    ∀ (pairs : List (Nat × Nat)) (g : Nat → BufferId_t → Buffer_t) (q : Nat)
      (sent : List (Nat × Nat)) (reads : List Nat) (r fuel : Nat),
      pairs.length + 1 ≤ fuel →
      (∀ p ∈ pairs, (p.1 % 256) &&& NS16550_LSR_DR ≠ NS16550_LSR_DR_NO) →
      ProcInterruptRx_loop fuel ⟨g, q, sent, ⟨r :: responses pairs lsrEnd rest, reads⟩⟩ comNo =
        some ⟨Function.update g comNo (Function.update (g comNo) BUFFER_ID_RECEIVE
                (writeAll BUFFER_SIZE (g comNo BUFFER_ID_RECEIVE)
                  (r % 256 :: pairs.map (fun p => p.2 % 256)))),
              q, sent,
              ⟨rest, reads ++ ((gIoBase comNo + NS16550_RBR) :: drainReads comNo pairs.length)⟩⟩ := by
  intro pairs
  induction pairs with
  | nil =>
    intro g q sent reads r fuel hf _
    obtain ⟨f, rfl⟩ : ∃ f, fuel = f + 1 := ⟨fuel - 1, by simp at hf; omega⟩
    simp [ProcInterruptRx_loop, CtrlInRBR, CtrlInLSR, LibMkIoPortInByte, responses, hend,
      BufferWrite_at, writeAll, drainReads]
  | cons p ps ih =>
    intro g q sent reads r fuel hf hdr
    obtain ⟨f, rfl⟩ : ∃ f, fuel = f + 1 := ⟨fuel - 1, by simp at hf; omega⟩
    have hp : (p.1 % 256) &&& NS16550_LSR_DR ≠ NS16550_LSR_DR_NO :=
      hdr p (List.mem_cons_self _ _)
    have hps : ∀ x ∈ ps, (x.1 % 256) &&& NS16550_LSR_DR ≠ NS16550_LSR_DR_NO :=
      fun x hx => hdr x (List.mem_cons_of_mem _ hx)
    have hf2 : ps.length + 1 ≤ f := by simp at hf; omega
    rw [responses_cons]
    simp only [ProcInterruptRx_loop, CtrlInRBR, CtrlInLSR, LibMkIoPortInByte, hp, if_false]
    rw [ih _ q sent _ p.2 f hf2 hps]
    simp [BufferWrite_at, writeAll, drainReads_succ]

/-- C24: ProcInterruptRx of Receive.c on a device whose responses are n pairs of an LSR
value with the data-ready bit set followed by an RBR byte, then an LSR value with the
data-ready bit clear, then anything: the function returns; it has made the receive ring of
the port the result of BufferWrite of exactly the n RBR bytes in the order they were read
(for a ring with positions in range: the last 4095 bytes of the old contents followed by
those bytes) and left the other rings alone; the ports it read are LSR, RBR, ..., LSR,
RBR, LSR, so RBR is read only right after an LSR read with the bit set; it consumed the
responses up to and including the first LSR value with the bit clear and nothing after
it; with n = 0 the rings and the notices are unchanged, otherwise one receive notice for
the port is sent to the main thread. -/
theorem ProcInterruptRx_drains (s : RxEnv) (comNo : Nat) (pairs : List (Nat × Nat))
    (lsrEnd : Nat) (rest : List Nat)
    (hin : s.dev.input = responses pairs lsrEnd rest)
    (hdr : ∀ p ∈ pairs, (p.1 % 256) &&& NS16550_LSR_DR ≠ NS16550_LSR_DR_NO)
    (hend : (lsrEnd % 256) &&& NS16550_LSR_DR = NS16550_LSR_DR_NO) :
    ∃ t, ProcInterruptRx s comNo = some t ∧
      t.gBuffer comNo BUFFER_ID_RECEIVE =
        writeAll BUFFER_SIZE (s.gBuffer comNo BUFFER_ID_RECEIVE)
          (pairs.map (fun p => p.2 % 256)) ∧
      (WF BUFFER_SIZE (s.gBuffer comNo BUFFER_ID_RECEIVE) →
        contents BUFFER_SIZE (t.gBuffer comNo BUFFER_ID_RECEIVE) =
          lastN (BUFFER_SIZE - 1)
            (contents BUFFER_SIZE (s.gBuffer comNo BUFFER_ID_RECEIVE) ++
              pairs.map (fun p => p.2 % 256))) ∧
      (∀ c id, ¬ (c = comNo ∧ id = BUFFER_ID_RECEIVE) → t.gBuffer c id = s.gBuffer c id) ∧
      t.dev.reads = s.dev.reads ++ drainReads comNo pairs.length ∧
      t.dev.input = rest ∧
      (pairs = [] → t.gBuffer = s.gBuffer ∧ t.sent = s.sent) ∧
      (pairs ≠ [] → t.sent = s.sent ++ [((s.gSeqNoMsgRxNtc + 1) % 4294967296, comNo)]) := by
  obtain ⟨g, q, sent, ⟨input, reads⟩⟩ := s
  simp only at hin
  subst hin
  have key : ∀ t : RxEnv,
      t.gBuffer comNo BUFFER_ID_RECEIVE =
        writeAll BUFFER_SIZE (g comNo BUFFER_ID_RECEIVE) (pairs.map (fun p => p.2 % 256)) →
      (WF BUFFER_SIZE (g comNo BUFFER_ID_RECEIVE) →
        contents BUFFER_SIZE (t.gBuffer comNo BUFFER_ID_RECEIVE) =
          lastN (BUFFER_SIZE - 1)
            (contents BUFFER_SIZE (g comNo BUFFER_ID_RECEIVE) ++
              pairs.map (fun p => p.2 % 256))) := by
    intro t ht hwf
    rw [ht]
    exact (writeAll_spec BUFFER_SIZE BUFFER_SIZE_lt _ _ hwf).2
  cases pairs with
  | nil =>
    refine ⟨⟨g, q, sent, ⟨rest, reads ++ [gIoBase comNo + NS16550_LSR]⟩⟩, ?_, ?_, ?_, ?_, ?_, ?_,
      ?_, ?_⟩
    · simp [ProcInterruptRx, CtrlInLSR, LibMkIoPortInByte, responses, hend]
    · simp [writeAll]
    · exact key _ (by simp [writeAll])
    · intro c id _; rfl
    · simp [drainReads]
    · rfl
    · intro _; exact ⟨rfl, rfl⟩
    · intro h; exact absurd rfl h
  | cons p ps =>
    have hp : (p.1 % 256) &&& NS16550_LSR_DR ≠ NS16550_LSR_DR_NO :=
      hdr p (List.mem_cons_self _ _)
    have hps : ∀ x ∈ ps, (x.1 % 256) &&& NS16550_LSR_DR ≠ NS16550_LSR_DR_NO :=
      fun x hx => hdr x (List.mem_cons_of_mem _ hx)
    have hl := ProcInterruptRx_loop_spec comNo lsrEnd rest hend ps g q sent
      (reads ++ [gIoBase comNo + NS16550_LSR]) p.2
      (responses (p :: ps) lsrEnd rest).length
      (by rw [responses_length, List.length_cons]; omega) hps
    refine ⟨MainSendMsgRxNtc
        ⟨Function.update g comNo (Function.update (g comNo) BUFFER_ID_RECEIVE
            (writeAll BUFFER_SIZE (g comNo BUFFER_ID_RECEIVE)
              (p.2 % 256 :: ps.map (fun p => p.2 % 256)))),
          q, sent,
          ⟨rest, (reads ++ [gIoBase comNo + NS16550_LSR]) ++
            ((gIoBase comNo + NS16550_RBR) :: drainReads comNo ps.length)⟩⟩ comNo,
      ?_, ?_, ?_, ?_, ?_, ?_, ?_, ?_⟩
    · simp only [ProcInterruptRx, CtrlInLSR, LibMkIoPortInByte, responses_cons, hp, if_false]
      rw [← responses_cons, hl]
    · simp [MainSendMsgRxNtc]
    · exact key _ (by simp [MainSendMsgRxNtc])
    · intro c id hne
      simp only [MainSendMsgRxNtc]
      by_cases hc : c = comNo
      · subst hc
        have hid : id ≠ BUFFER_ID_RECEIVE := fun h => hne ⟨rfl, h⟩
        simp [Function.update_noteq hid]
      · simp [Function.update_noteq hc]
    · simp [MainSendMsgRxNtc, drainReads_succ]
    · simp [MainSendMsgRxNtc]
    · intro h; exact absurd h (List.cons_ne_nil _ _)
    · intro _; simp [MainSendMsgRxNtc]

end Receive

/-! Intmng.c: the interrupt dispatcher -/

namespace Intmng
open NS16550 NS16550.BufmngId_t Bufmng Ioctrl Txctrl Rxctrl Filemng

theorem completes_append (l1 l2 : List Msg) :
    completes (l1 ++ l2) = completes l1 ++ completes l2 := by
  induction l1 with
  | nil => rfl
  | cons m t ih =>
    cases m with
    | IntComplete irqNo => simp [completes, ih]
    | _ => simp [completes, ih]

/-- TxctrlDo only appends to the trace; what it appends is not empty and holds no
interrupt completion. -/
theorem TxctrlDo_appends (s : State) (comNo : Nat) :
    ∃ after, (TxctrlDo s comNo).out = s.out ++ after ∧ after ≠ [] ∧ completes after = [] := by
  by_cases h : (s.gBuffer comNo BUFMNG_ID_TX).data = []
  · rw [TxctrlDo_empty s comNo h, FilemngUpdateReadyWrite_eq]
    split_ifs
    · exact ⟨_, by simp only [List.append_assoc]; rfl, by simp, by simp [completes]⟩
    · exact ⟨_, rfl, by simp, by simp [completes]⟩
  · rw [TxctrlDo_nonempty s comNo h, FilemngUpdateReadyWrite_eq]
    split_ifs
    · exact ⟨_, by simp only [List.append_assoc]; rfl, by simp, by simp [completes]⟩
    · exact ⟨_, rfl, by simp, by simp [completes]⟩

/-- The receive controller only appends to the trace, and what it appends holds no
interrupt completion. -/
theorem receive_appends (s : State) (comNo : Nat) (bytes : List Nat) :
    ∃ mid, (receive s comNo bytes).out = s.out ++ mid ∧ completes mid = [] := by
  have hw : (BufmngWrite s comNo BUFMNG_ID_RX bytes).1.out = s.out := by
    simp [BufmngWrite, State.setBuffer]
  unfold receive
  rw [FilemngUpdateReadyRead_eq]
  split_ifs
  · exact ⟨_, by simp only [hw]; rfl, by simp [completes]⟩
  · exact ⟨[], by simp [hw], rfl⟩

theorem RxctrlDo_appends (s s1 : State) (d d1 : Device) (comNo : Nat)
    (h : RxctrlDo s d comNo = some (s1, d1)) :
    ∃ mid, s1.out = s.out ++ mid ∧ completes mid = [] := by
  unfold RxctrlDo at h
  cases hl : RxctrlDo_loop (d.input.length + 1) d comNo with
  | none => rw [hl] at h; simp at h
  | some r =>
    obtain ⟨d2, bytes⟩ := r
    rw [hl] at h
    simp only [Option.some.injEq, Prod.mk.injEq] at h
    rw [← h.1]
    exact receive_appends s comNo bytes

/-- ProcInterrupt issues exactly one completion, for the interrupt number passed in, on
every path on which it returns. -/
theorem ProcInterrupt_completes_once (s t : State) (d d1 : Device) (comNo irqNo : Nat)
    (h : ProcInterrupt s d comNo irqNo = some (t, d1)) :
    completes t.out = completes s.out ++ [irqNo] := by
  unfold ProcInterrupt at h
  cases hi : IoctrlInIIR d comNo with
  | none => rw [hi] at h; simp at h
  | some r =>
    obtain ⟨d2, iir⟩ := r
    rw [hi] at h
    simp only at h
    split_ifs at h with h1 h2
    · simp only [ProcInterruptTx, Option.some.injEq, Prod.mk.injEq] at h
      obtain ⟨after, ha, _, hc⟩ := TxctrlDo_appends (LibMkIntComplete s irqNo) comNo
      rw [← h.1, ha, completes_append, hc]
      simp [LibMkIntComplete, State.send, completes_append, completes]
    · unfold ProcInterruptRx at h
      cases hr : RxctrlDo s d2 comNo with
      | none => rw [hr] at h; simp at h
      | some q =>
        obtain ⟨s1, d3⟩ := q
        rw [hr] at h
        simp only [Option.some.injEq, Prod.mk.injEq] at h
        obtain ⟨mid, hm, hc⟩ := RxctrlDo_appends s s1 d2 d3 comNo hr
        rw [← h.1]
        simp [LibMkIntComplete, State.send, completes_append, completes, hm, hc]
    · simp only [Option.some.injEq, Prod.mk.injEq] at h
      rw [← h.1]
      simp [LibMkIntComplete, State.send, completes_append, completes]

/-- C21: completion ordering in ProcInterrupt, for an IIR value iir read from the port.
When the cause field iir & 0x0E is THR-empty (0x02) the function returns the state that
TxctrlDo produces from the state in which complete(irq) has already been sent: the trace
is the old trace, then the completion of irq, then the non-empty output of TxctrlDo.  When
the cause field is RBR (0x04), RBR timeout (0x0C) or LSR (0x06) the function returns
exactly when RxctrlDo returns, and its state is the state RxctrlDo returned with
complete(irq) appended after everything RxctrlDo sent.  In each of these cases the trace
gains exactly one completion, that of the irq passed in. -/
theorem ProcInterrupt_completion_order (s : State) (d d1 : Device) (comNo irqNo iir : Nat)
    (hiir : IoctrlInIIR d comNo = some (d1, iir)) :
    (iir &&& NS16550_IIR_ID = NS16550_IIR_ID_THR →
      ProcInterrupt s d comNo irqNo = some (TxctrlDo (LibMkIntComplete s irqNo) comNo, d1) ∧
      (∃ after, (TxctrlDo (LibMkIntComplete s irqNo) comNo).out =
          s.out ++ [Msg.IntComplete irqNo] ++ after ∧ after ≠ [] ∧ completes after = []) ∧
      completes (TxctrlDo (LibMkIntComplete s irqNo) comNo).out = completes s.out ++ [irqNo]) ∧
    (iir &&& NS16550_IIR_ID = NS16550_IIR_ID_RBR ∨
      iir &&& NS16550_IIR_ID = NS16550_IIR_ID_RBR_TO ∨
      iir &&& NS16550_IIR_ID = NS16550_IIR_ID_LSR →
      (RxctrlDo s d1 comNo = none → ProcInterrupt s d comNo irqNo = none) ∧
      ∀ s1 d2, RxctrlDo s d1 comNo = some (s1, d2) →
        ProcInterrupt s d comNo irqNo = some (LibMkIntComplete s1 irqNo, d2) ∧
        (∃ mid, (LibMkIntComplete s1 irqNo).out = s.out ++ mid ++ [Msg.IntComplete irqNo] ∧
          s1.out = s.out ++ mid ∧ completes mid = []) ∧
        completes (LibMkIntComplete s1 irqNo).out = completes s.out ++ [irqNo]) := by
  refine ⟨?_, ?_⟩
  · intro hc
    have hp : ProcInterrupt s d comNo irqNo =
        some (TxctrlDo (LibMkIntComplete s irqNo) comNo, d1) := by
      simp [ProcInterrupt, hiir, hc, ProcInterruptTx]
    refine ⟨hp, ?_, ProcInterrupt_completes_once s _ d d1 comNo irqNo hp⟩
    obtain ⟨after, ha, hne, hcm⟩ := TxctrlDo_appends (LibMkIntComplete s irqNo) comNo
    exact ⟨after, by rw [ha]; rfl, hne, hcm⟩
  · intro hc
    have hne : ¬ (iir &&& NS16550_IIR_ID = NS16550_IIR_ID_THR) := by
      rcases hc with h | h | h <;> rw [h] <;> decide
    refine ⟨?_, ?_⟩
    · intro hn
      simp [ProcInterrupt, hiir, hne, hc, ProcInterruptRx, hn]
    · intro s1 d2 hr
      have hp : ProcInterrupt s d comNo irqNo = some (LibMkIntComplete s1 irqNo, d2) := by
        simp [ProcInterrupt, hiir, hne, hc, ProcInterruptRx, hr]
      refine ⟨hp, ?_, ProcInterrupt_completes_once s _ d d2 comNo irqNo hp⟩
      obtain ⟨mid, hm, hcm⟩ := RxctrlDo_appends s s1 d1 d2 comNo hr
      exact ⟨mid, by simp [LibMkIntComplete, State.send, hm], hm, hcm⟩

end Intmng

namespace Intmng
open NS16550 NS16550.BufmngId_t Bufmng Ioctrl Txctrl Rxctrl Filemng

/-- Witness for C21: on the initialised driver, COM1 with IRQ4: an IIR value 0x02 runs the
transmit path, and an IIR value 0x04 followed by one received byte runs the receive
path. -/
theorem ProcInterrupt_completion_order_witness :
    ProcInterrupt (driverBoot 16) ⟨[0x02], []⟩ NS16550_COM1 LIBMK_INT_IRQ4 =
      some (TxctrlDo (LibMkIntComplete (driverBoot 16) LIBMK_INT_IRQ4) NS16550_COM1,
        ⟨[], [0x3FA]⟩) ∧
    ProcInterrupt (driverBoot 16) ⟨[0x04, 0x61, 0x41, 0x60], []⟩ NS16550_COM1 LIBMK_INT_IRQ4 =
      some (LibMkIntComplete (receive (driverBoot 16) NS16550_COM1 [0x41]) LIBMK_INT_IRQ4,
        ⟨[], [0x3FA, 0x3FD, 0x3F8, 0x3FD]⟩) :=
  ⟨((ProcInterrupt_completion_order (driverBoot 16) ⟨[0x02], []⟩ ⟨[], [0x3FA]⟩ NS16550_COM1
      LIBMK_INT_IRQ4 0x02 rfl).1 (by decide)).1,
   (((ProcInterrupt_completion_order (driverBoot 16) ⟨[0x04, 0x61, 0x41, 0x60], []⟩
      ⟨[0x61, 0x41, 0x60], [0x3FA]⟩ NS16550_COM1 LIBMK_INT_IRQ4 0x04 rfl).2
        (Or.inl (by decide))).2 _ _ rfl).1⟩

/-- C23 (code defect): for an IIR value 0x00 (interrupt pending, cause MSR) read on any
port in any state, ProcInterrupt of Intmng.c reads no further register: the only port read
is the IIR port, the next response of the device is left unconsumed, and the MSR port,
which differs from the IIR port, is not read.  The function takes the branch it shares
with unknown causes and issues complete(irq); no controller runs. -/
theorem msr_cause_leaves_msr_unread (s : State) (comNo irqNo : Nat) (rest reads : List Nat) :
    ProcInterrupt s ⟨0x00 :: rest, reads⟩ comNo irqNo =
      some (LibMkIntComplete s irqNo, ⟨rest, reads ++ [gIoBase comNo + NS16550_IIR]⟩) ∧
    gIoBase comNo + NS16550_MSR ∉ [gIoBase comNo + NS16550_IIR] ∧
    IoctrlInMSR ⟨0x5A :: rest, reads⟩ comNo =
      some (⟨rest, reads ++ [gIoBase comNo + NS16550_MSR]⟩, 0x5A) := by
  refine ⟨?_, ?_, ?_⟩
  · simp [ProcInterrupt, IoctrlInIIR, LibMkIoPortInByte, NS16550_IIR_ID, NS16550_IIR_ID_THR,
      NS16550_IIR_ID_RBR, NS16550_IIR_ID_RBR_TO, NS16550_IIR_ID_LSR]
  · simp [NS16550_MSR, NS16550_IIR]
  · simp [IoctrlInMSR, LibMkIoPortInByte]

end Intmng

namespace Receive
open NS16550 Buffer Buffer.BufferId_t Ctrl

/-- Witness for C24: COM1 with zero-initialised rings; the device reports two bytes
0x41, 0x42 and then no more data, with a further response 0x99 that must stay unread. -/
theorem ProcInterruptRx_drains_witness :
    ∃ t, ProcInterruptRx
        ⟨fun _ _ => BufferInit, 0, [], ⟨[0x61, 0x41, 0x01, 0x42, 0x60, 0x99], []⟩⟩
        NS16550_COM1 = some t ∧
      t.gBuffer NS16550_COM1 BUFFER_ID_RECEIVE = writeAll BUFFER_SIZE BufferInit [0x41, 0x42] ∧
      t.dev.input = [0x99] := by
  obtain ⟨t, h1, h2, _, _, _, h6, _, _⟩ :=
    ProcInterruptRx_drains
      ⟨fun _ _ => BufferInit, 0, [], ⟨[0x61, 0x41, 0x01, 0x42, 0x60, 0x99], []⟩⟩
      NS16550_COM1 [(0x61, 0x41), (0x01, 0x42)] 0x60 [0x99] rfl (by decide) (by decide)
  exact ⟨t, h1, h2, h6⟩

end Receive

namespace Filemng
open NS16550 NS16550.BufmngId_t NS16550.LibMvfsRet_t Bufmng Txctrl Ioctrl

/-- The open request never changes a cached readiness mask. -/
theorem DoVfsOpen_gReady (s : State) (pid gfd : Nat) (path : String) :
    (DoVfsOpen s pid gfd path).gReady = s.gReady := by
  have task : ∀ t ∈ gStt, t.event = EVENT_VFSOPEN → ∀ (s : State) (p : Param),
      (t.task s p).1.gReady = s.gReady := by
    intro t ht he s p
    simp only [gStt, List.mem_cons, List.mem_singleton, List.not_mem_nil, or_false] at ht
    rcases ht with rfl | rfl | rfl | rfl | rfl
    · simp [DoTask11, SendVfsOpenResp, BufmngClear, State.setBuffer, State.send]
    · simp [DoTask12, SendVfsOpenResp, State.send]
    · exact absurd he (by decide)
    · exact absurd he (by decide)
    · exact absurd he (by decide)
  have exec : ∀ (comNo : Nat) (p : Param),
      (MLibStateExec gStt s comNo EVENT_VFSOPEN p).1.gReady = s.gReady := by
    intro comNo p
    unfold MLibStateExec
    cases hf : gStt.find? (fun t => t.state == s.gState comNo && t.event == EVENT_VFSOPEN) with
    | none => rfl
    | some t =>
      have hmem : t ∈ gStt := List.mem_of_find?_eq_some hf
      have hev : t.event = EVENT_VFSOPEN := by
        have := List.find?_some hf
        simp only [Bool.and_eq_true, beq_iff_eq] at this
        exact this.2
      have := task t hmem hev s p
      simp only
      split_ifs <;> simpa using this
  simp only [DoVfsOpen]
  split_ifs <;> simp [SendVfsOpenResp, State.send, exec]

set_option maxRecDepth 100000 in
/-- Counterexample to C25 as stated: on the booted driver a byte arrives on COM1 while it
is CLOSED: FilemngUpdateReadyRead sets the READ bit and sends a notice.  The following
VFS_OPEN of /serial1 succeeds and leaves the RX ring empty, but the READ bit of the cached
mask is 1 right after the open, and the first byte that arrives after the open sends no
VfsReady notice. -/
theorem open_keeps_stale_read_bit :
    (bootState 16).gState NS16550_COM1 = STATE_INIT ∧
    closedByteState.gState NS16550_COM1 = STATE_INIT ∧
    closedByteState.out =
      (bootState 16).out ++ [Msg.VfsReadyNtc CONFIG_FILEPATH_SERIAL1 MVFS_READY_READ] ∧
    openedAfterClosedByte.out =
      closedByteState.out ++ [Msg.VfsOpenResp 5 LIBMVFS_RET_SUCCESS] ∧
    openedAfterClosedByte.gState NS16550_COM1 = STATE_OPENED ∧
    (openedAfterClosedByte.gBuffer NS16550_COM1 BUFMNG_ID_RX).data = [] ∧
    openedAfterClosedByte.gReady NS16550_COM1 &&& MVFS_READY_READ = MVFS_READY_READ ∧
    ((byteArrives openedAfterClosedByte NS16550_COM1 0x42).gBuffer NS16550_COM1
      BUFMNG_ID_RX).data = [0x42] ∧
    (byteArrives openedAfterClosedByte NS16550_COM1 0x42).out = openedAfterClosedByte.out := by
  refine ⟨?_, ?_, ?_, ?_, ?_, ?_, ?_, ?_, ?_⟩ <;> decide

theorem byteArrives_eq (s : State) (comNo b : Nat) :
    (byteArrives s comNo b).out =
      s.out ++ (if s.gReady comNo &&& MVFS_READY_READ = 0 then
        [Msg.VfsReadyNtc (gpPath comNo) (s.gReady comNo ||| MVFS_READY_READ)] else []) := by
  have h1 : (BufmngWrite s comNo BUFMNG_ID_RX [b]).1.out = s.out := by
    simp [BufmngWrite, State.setBuffer]
  have h2 : (BufmngWrite s comNo BUFMNG_ID_RX [b]).1.gReady = s.gReady := by
    simp [BufmngWrite, State.setBuffer]
  unfold byteArrives
  rw [FilemngUpdateReadyRead_eq, h2]
  split_ifs <;> simp [h1]

/-- C25 (amended): a successful VFS_OPEN of a CLOSED port sends one OPEN/SUCCESS reply,
moves the port to OPENED and leaves its RX ring empty, and it leaves the cached readiness
masks exactly as they were before the open.  So the first byte received after the open
(the next FilemngUpdateReadyRead on that port) sends a VfsReady(READ) notice when the READ
bit of the mask of the port was 0 just before the open, and sends no notice when that bit
was 1, as it is after a byte was received while the port was CLOSED. -/
theorem open_leaves_readiness_mask (s : State) (comNo pid gfd b : Nat)
    (hc : comNo = NS16550_COM1 ∨ comNo = NS16550_COM2)
    (hclosed : s.gState comNo = STATE_INIT) :
    (DoVfsOpen s pid gfd (gpPath comNo)).out =
      s.out ++ [Msg.VfsOpenResp gfd LIBMVFS_RET_SUCCESS] ∧
    (DoVfsOpen s pid gfd (gpPath comNo)).gState comNo = STATE_OPENED ∧
    ((DoVfsOpen s pid gfd (gpPath comNo)).gBuffer comNo BUFMNG_ID_RX).data = [] ∧
    (DoVfsOpen s pid gfd (gpPath comNo)).gReady = s.gReady ∧
    (s.gReady comNo &&& MVFS_READY_READ = 0 →
      (byteArrives (DoVfsOpen s pid gfd (gpPath comNo)) comNo b).out =
        (DoVfsOpen s pid gfd (gpPath comNo)).out ++
          [Msg.VfsReadyNtc (gpPath comNo) (s.gReady comNo ||| MVFS_READY_READ)]) ∧
    (s.gReady comNo &&& MVFS_READY_READ ≠ 0 →
      (byteArrives (DoVfsOpen s pid gfd (gpPath comNo)) comNo b).out =
        (DoVfsOpen s pid gfd (gpPath comNo)).out) := by
  have hr := DoVfsOpen_gReady s pid gfd (gpPath comNo)
  have ho := DoVfsOpen_init s comNo pid gfd hc hclosed
  refine ⟨by rw [ho], by rw [ho]; simp, by rw [ho]; simp, hr, ?_, ?_⟩
  · intro h0
    rw [byteArrives_eq, hr, if_pos h0]
  · intro h1
    rw [byteArrives_eq, hr, if_neg h1, List.append_nil]

/-- Witness for C25: COM1 is CLOSED with mask 0 after start-up; it is opened under
descriptor 5 and the first byte after the open sends the notice. -/
theorem open_leaves_readiness_mask_witness :
    (bootState 16).gState NS16550_COM1 = STATE_INIT ∧
    (bootState 16).gReady NS16550_COM1 &&& MVFS_READY_READ = 0 ∧
    (byteArrives (DoVfsOpen (bootState 16) 1 5 (gpPath NS16550_COM1)) NS16550_COM1 0x42).out =
      (DoVfsOpen (bootState 16) 1 5 (gpPath NS16550_COM1)).out ++
        [Msg.VfsReadyNtc (gpPath NS16550_COM1)
          ((bootState 16).gReady NS16550_COM1 ||| MVFS_READY_READ)] :=
  ⟨by decide, by decide,
   (open_leaves_readiness_mask (bootState 16) NS16550_COM1 1 5 0x42 (Or.inl rfl)
      (by decide)).2.2.2.2.1 (by decide)⟩

end Filemng

namespace Txctrl
open NS16550 Filemng

/-- C28 (code defect): the lock TxctrlDo takes before it pops the TX ring of a port is
gLock[comNo] of Txctrl.c, the lock DoTask32 takes before it pushes into that ring is
gLock[comNo] of Filemng.c, and these are two different lock objects.  So after the
interrupt context has taken its lock, the dispatch context still takes its own: both hold
a lock and both are about to access the TX ring of the port.  Were both contexts to use one
lock object, as two runs of TxctrlDo do, the second could not proceed. -/
theorem tx_ring_sections_overlap (comNo : Nat) :
    Lock_t.Txctrl_gLock comNo ≠ Lock_t.Filemng_gLock comNo ∧
    (TxctrlDo_steps comNo).head? = some (Step.SpinLock (Lock_t.Txctrl_gLock comNo)) ∧
    (DoTask32_steps comNo).head? = some (Step.SpinLock (Lock_t.Filemng_gLock comNo)) ∧
    (∃ c, schedule ⟨TxctrlDo_steps comNo, [], DoTask32_steps comNo, []⟩ [false, true] = some c ∧
      c.held1 = [Lock_t.Txctrl_gLock comNo] ∧ c.held2 = [Lock_t.Filemng_gLock comNo] ∧
      c.overlap comNo) ∧
    schedule ⟨TxctrlDo_steps comNo, [], TxctrlDo_steps comNo, []⟩ [false, true] = none := by
  refine ⟨by simp, rfl, rfl, ?_, ?_⟩
  · refine ⟨_, rfl, ?_, ?_, ?_⟩
    · rfl
    · rfl
    · exact ⟨rfl, rfl⟩
  · simp [schedule, stepContext, TxctrlDo_steps]

end Txctrl
